import Mathlib

/-!
# Energy Footprint Notification: a shallow embedding

The Go services of `code/API_code/efn` are embedded as Lean functions.

* A Go call returning `(T, error)` becomes a function into `Outcome T`, which also
  records a run-time panic (nil dereference, index out of range) as a third case.
* A `*float64` read from the store is an `Option ℚ`: stored numbers are finite and
  arithmetic on finite values is exact.  The only way `CalculateEnergyConsumption`
  leaves the finite numbers is a division by zero, which IEEE-754 answers with an
  infinity or a NaN; both are collapsed into `Float64.nonFinite`.
* A Go `map[string]T` is the list of its entries in the order one `range` visits them.
* Stateful collaborators (database, event sender, upstream clients, HTTP sink) take
  and return an explicit state.
-/

namespace efn

/-! ## Go results -/

/-- Go error values, as far as the handlers tell them apart. -/
inductive GoError where
  | errorString (msg : String)
  | cloudObsThrottling (msg : String)
  | trafficThrottling (msg : String)
  | wrap (msg : String) (inner : GoError)
  deriving DecidableEq

/-- Result of a Go call: a value, a returned error, or a run-time panic. -/
inductive Outcome (α : Type) where
  | ok (v : α)
  | err (e : GoError)
  | panic (msg : String)
  deriving DecidableEq

/-- The call returned an error value. -/
def Outcome.isErr {α : Type} : Outcome α → Bool
  | .err _ => true
  | _ => false

/-- The call returned a value and a nil error. -/
def Outcome.isOk {α : Type} : Outcome α → Bool
  | .ok _ => true
  | _ => false

/-- A float64 computed by the calculator: a finite value, or an infinity/NaN. -/
inductive Float64 where
  | fin (q : ℚ)
  | nonFinite
  deriving DecidableEq

/-- Float addition read over exact arithmetic: the sum is not rounded; any infinity or NaN
operand gives an infinity or NaN. The rounded operation is `binary64.add`. -/
def Float64.add : Float64 → Float64 → Float64
  | .fin a, .fin b => .fin (a + b)
  | _, _ => .nonFinite

/-- Float multiplication read over exact arithmetic: the product is not rounded; any infinity
or NaN operand gives an infinity or NaN. The rounded operation is `binary64.mul`. -/
def Float64.mul : Float64 → Float64 → Float64
  | .fin a, .fin b => .fin (a * b)
  | _, _ => .nonFinite

/-- Float division of two finite values read over exact arithmetic: the quotient is not
rounded; a zero divisor gives an infinity or NaN. The rounded operation is `binary64.div`. -/
def Float64.div (a b : ℚ) : Float64 :=
  if b = 0 then .nonFinite else .fin (a / b)

/-! ## Go `float64`: IEEE 754 binary64, round to nearest, ties to even -/

namespace binary64

/-- The integer nearest to `a / b` for `0 < b`, the even one of the two when `a / b` lies
half way between them. -/
def roundHalfEven (a : Int) (b : Nat) : Int :=
  let f := a / (b : Int)
  let rem := a % (b : Int)
  if 2 * rem < b then f
  else if (b : Int) < 2 * rem then f + 1
  else if f % 2 = 0 then f else f + 1

/-- The position of the highest set bit of `n`, by repeated halving; `fuel` bounds the
number of halvings and `log2 n n` is the floor of the binary logarithm of `n ≥ 1`. -/
def log2 : Nat → Nat → Nat
  | 0, _ => 0
  | fuel + 1, n => if n < 2 then 0 else log2 fuel (n / 2) + 1

/-- The binary exponent of a non-zero rational: the `e` with `2 ^ e ≤ |q| < 2 ^ (e + 1)`. -/
def exponent (q : ℚ) : Int :=
  let n := q.num.natAbs
  let d := q.den
  let e0 : Int := (log2 n n : Int) - (log2 d d : Int)
  if 0 ≤ e0 then
    if 2 ^ e0.toNat * d ≤ n then e0 else e0 - 1
  else
    if d ≤ n * 2 ^ (-e0).toNat then e0 else e0 - 1

/-- The float64 nearest to a rational, ties to even: a multiple of `2 ^ (e - 52)` for a
value of binary exponent `e ≥ -1022`, a multiple of `2 ^ (-1074)` below that (subnormal
numbers, and zero on underflow), an infinity once the rounded magnitude reaches
`2 ^ 1024`. The two zeros are not told apart. -/
def round (q : ℚ) : Float64 :=
  if q = 0 then .fin 0
  else
    let k : Int := max (exponent q) (-1022) - 52
    if 0 ≤ k then
      let n := roundHalfEven q.num (q.den * 2 ^ k.toNat)
      if 2 ^ 1024 ≤ n.natAbs * 2 ^ k.toNat then .nonFinite
      else .fin ((n * 2 ^ k.toNat : Int) : ℚ)
    else
      let n := roundHalfEven (q.num * 2 ^ (-k).toNat) q.den
      .fin (mkRat n (2 ^ (-k).toNat))

/-- Go `+` on float64: the exact sum rounded; any infinity or NaN operand gives an infinity
or NaN. -/
def add : Float64 → Float64 → Float64
  | .fin a, .fin b => round (a + b)
  | _, _ => .nonFinite

/-- Go `*` on float64: the exact product rounded; any infinity or NaN operand gives an
infinity or NaN. -/
def mul : Float64 → Float64 → Float64
  | .fin a, .fin b => round (a * b)
  | _, _ => .nonFinite

/-- Go `/` on float64: the exact quotient rounded; a zero divisor, an infinity or a NaN
gives an infinity or NaN. -/
def div : Float64 → Float64 → Float64
  | .fin a, .fin b => if b = 0 then .nonFinite else round (a / b)
  | _, _ => .nonFinite

end binary64

/-- The argument `context.Context` of every call. -/
structure Context where
  cancelled : Bool
  deadline : Option Int
  deriving DecidableEq

/-! ## internal/database/database.go -/

namespace database

/-- Go struct `NetworkElementResult`. -/
structure NetworkElementResult where
  EnergyConsumption : Option ℚ
  AppInstanceTraffic : Option ℚ
  TotalTraffic : Option ℚ
  deriving DecidableEq

/-- Go struct `TaskResult`; `NetworkElements` lists the map's entries in range order. -/
structure TaskResult where
  AppInstanceEnergyConsumption : Option ℚ
  NetworkElements : List (String × NetworkElementResult)
  deriving DecidableEq

/-- Go struct `JobAppResultMetadata`. -/
structure JobAppResultMetadata where
  JobID : String
  AppID : String
  NumberOfTotalNEs : Int
  deriving DecidableEq

/-- Go struct `JobAppResult`: the inlined metadata and the `*TaskResult`. -/
structure JobAppResult where
  JobID : String
  AppID : String
  NumberOfTotalNEs : Int
  Result : Option TaskResult
  deriving DecidableEq

end database

open database

/-! ## pkg/calculator/basic.go -/

namespace calculator

/-- Go struct `simpleClient`. -/
structure simpleClient where
  tCO2ePerKWh : ℚ
  deriving DecidableEq

/-- Go `NewSimpleClient`. -/
def NewSimpleClient (factor : ℚ) : simpleClient :=
  if factor ≤ 0 then { tCO2ePerKWh := 35 / 100000 } else { tCO2ePerKWh := factor }

/-- The `for _, ne := range data.Result.NetworkElements` loop of `validateInput`. -/
def validateNetworkElements : List (String × NetworkElementResult) → Outcome Unit
  | [] => .ok ()
  | (_, ne) :: rest =>
    if ne.EnergyConsumption.isNone || ne.TotalTraffic.isNone || ne.AppInstanceTraffic.isNone then
      .err (.errorString "Missing energy consumption for network element")
    else validateNetworkElements rest

/-- Go `validateInput`. -/
def validateInput (data : JobAppResult) : Outcome Unit :=
  match data.Result with
  | none => .panic "invalid memory address or nil pointer dereference"
  | some res =>
    if res.AppInstanceEnergyConsumption.isNone then
      .err (.errorString "Missing energy consumption for application instance")
    else validateNetworkElements res.NetworkElements

/-- The inner loop of `CalculateEnergyConsumption` over one row's network elements. -/
def networkElementsLoop (result : Float64) :
    List (String × NetworkElementResult) → Outcome Float64
  | [] => .ok result
  | (_, ne) :: rest =>
    match ne.AppInstanceTraffic, ne.TotalTraffic, ne.EnergyConsumption with
    | some appTraffic, some totalTraffic, some energy =>
      let trafficShare := Float64.div appTraffic totalTraffic
      let allocatedNEConsumption := Float64.mul (.fin energy) trafficShare
      networkElementsLoop (result.add allocatedNEConsumption) rest
    | _, _, _ => .panic "invalid memory address or nil pointer dereference"

/-- The outer loop `for _, d := range data` of `CalculateEnergyConsumption`. -/
def rowsLoop (result : Float64) : List JobAppResult → Outcome Float64
  | [] => .ok result
  | d :: rest =>
    match d.Result with
    | none => .panic "invalid memory address or nil pointer dereference"
    | some appResult =>
      match appResult.AppInstanceEnergyConsumption with
      | none => .panic "invalid memory address or nil pointer dereference"
      | some app =>
        match networkElementsLoop (result.add (.fin app)) appResult.NetworkElements with
        | .ok r => rowsLoop r rest
        | .err e => .err e
        | .panic m => .panic m

/-- Go `simpleClient.CalculateEnergyConsumption`. -/
def CalculateEnergyConsumption (_c : simpleClient) (_ctx : Context)
    (data : List JobAppResult) : Outcome Float64 :=
  match data with
  | [] => .panic "index out of range [0] with length 0"
  | d0 :: _ =>
    match validateInput d0 with
    | .err e => .err e
    | .panic m => .panic m
    | .ok _ => rowsLoop (.fin 0) data

/-- Go `simpleClient.CalculateCarbonFootprint`. -/
def CalculateCarbonFootprint (c : simpleClient) (ctx : Context)
    (data : List JobAppResult) : Outcome Float64 :=
  match CalculateEnergyConsumption c ctx data with
  | .err e => .err e
  | .panic m => .panic m
  | .ok energyKWh => .ok (energyKWh.mul (.fin c.tCO2ePerKWh))

/-! The same loops with every operation rounded to float64, each statement rounded on its
own (no fused multiply-add). A stored field `q` holds the float64 `binary64.round q`. -/

namespace float64

/-- The inner loop of `CalculateEnergyConsumption` over one row's network elements, in
float64. -/
def networkElementsLoop (result : Float64) :
    List (String × NetworkElementResult) → Outcome Float64
  | [] => .ok result
  | (_, ne) :: rest =>
    match ne.AppInstanceTraffic, ne.TotalTraffic, ne.EnergyConsumption with
    | some appTraffic, some totalTraffic, some energy =>
      let trafficShare := binary64.div (binary64.round appTraffic) (binary64.round totalTraffic)
      let allocatedNEConsumption := binary64.mul (binary64.round energy) trafficShare
      networkElementsLoop (binary64.add result allocatedNEConsumption) rest
    | _, _, _ => .panic "invalid memory address or nil pointer dereference"

/-- The outer loop `for _, d := range data` of `CalculateEnergyConsumption`, in float64. -/
def rowsLoop (result : Float64) : List JobAppResult → Outcome Float64
  | [] => .ok result
  | d :: rest =>
    match d.Result with
    | none => .panic "invalid memory address or nil pointer dereference"
    | some appResult =>
      match appResult.AppInstanceEnergyConsumption with
      | none => .panic "invalid memory address or nil pointer dereference"
      | some app =>
        match networkElementsLoop (binary64.add result (binary64.round app))
            appResult.NetworkElements with
        | .ok r => rowsLoop r rest
        | .err e => .err e
        | .panic m => .panic m

/-- Go `simpleClient.CalculateEnergyConsumption`, in float64. -/
def CalculateEnergyConsumption (_c : simpleClient) (_ctx : Context)
    (data : List JobAppResult) : Outcome Float64 :=
  match data with
  | [] => .panic "index out of range [0] with length 0"
  | d0 :: _ =>
    match validateInput d0 with
    | .err e => .err e
    | .panic m => .panic m
    | .ok _ => rowsLoop (.fin 0) data

end float64

end calculator

/-! ## The calculation as the specification words it -/

namespace spec

/-- A network-element entry has all three fields populated. -/
def neFieldsPresent (ne : NetworkElementResult) : Bool :=
  ne.EnergyConsumption.isSome && ne.AppInstanceTraffic.isSome && ne.TotalTraffic.isSome

/-- A row has its result, its application energy and all fields of every network element. -/
def rowFieldsPresent (r : JobAppResult) : Bool :=
  match r.Result with
  | none => false
  | some res =>
    res.AppInstanceEnergyConsumption.isSome && res.NetworkElements.all (fun ne => neFieldsPresent ne.2)

/-- Some network element of the row has `totalTraffic = 0`. -/
def rowHasZeroTraffic (r : JobAppResult) : Bool :=
  match r.Result with
  | none => false
  | some res => res.NetworkElements.any (fun ne => ne.2.TotalTraffic == some 0)

/-- The term `energyConsumption × (appInstanceTraffic / totalTraffic)` of one network element. -/
def neShare (ne : NetworkElementResult) : ℚ :=
  ne.EnergyConsumption.getD 0 * (ne.AppInstanceTraffic.getD 0 / ne.TotalTraffic.getD 0)

/-- The summand of one row: application energy plus the shares of its network elements. -/
def rowEnergy (r : JobAppResult) : ℚ :=
  match r.Result with
  | none => 0
  | some res =>
    res.AppInstanceEnergyConsumption.getD 0 + (res.NetworkElements.map (fun ne => neShare ne.2)).sum

/-- The formula `E = Σ_app ( appInstanceEnergyConsumption + Σ_ne ... )` over exact rationals. -/
def energy (data : List JobAppResult) : ℚ :=
  (data.map rowEnergy).sum

/-- Two rows that differ at most in the iteration order of their `networkElements` map. -/
def SameRowUpToMapOrder (r r1 : JobAppResult) : Prop :=
  r.JobID = r1.JobID ∧ r.AppID = r1.AppID ∧ r.NumberOfTotalNEs = r1.NumberOfTotalNEs ∧
  match r.Result, r1.Result with
  | some a, some b =>
    a.AppInstanceEnergyConsumption = b.AppInstanceEnergyConsumption ∧
      a.NetworkElements.Perm b.NetworkElements
  | none, none => True
  | _, _ => False

/-- The second list holds the rows of the first in another order, each row's map possibly
iterated in another order. -/
def SameStoredRows (data data1 : List JobAppResult) : Prop :=
  ∃ mid : List JobAppResult, List.Forall₂ SameRowUpToMapOrder data mid ∧ mid.Perm data1

/-- The term `energyConsumption × (appInstanceTraffic / totalTraffic)` of one network
element in float64: the quotient rounded, then the product rounded. -/
def float64Share (ne : NetworkElementResult) : Float64 :=
  binary64.mul (binary64.round (ne.EnergyConsumption.getD 0))
    (binary64.div (binary64.round (ne.AppInstanceTraffic.getD 0))
      (binary64.round (ne.TotalTraffic.getD 0)))

/-- The float64 terms of one row in the order they are added: the application energy, then
the share of each network element in the iteration order of the map. -/
def float64Terms (r : JobAppResult) : List Float64 :=
  match r.Result with
  | none => []
  | some res =>
    binary64.round (res.AppInstanceEnergyConsumption.getD 0)
      :: res.NetworkElements.map (fun ne => float64Share ne.2)

/-- The terms of all rows added from the left in float64, starting from zero, each partial
sum rounded. -/
def float64Sum (data : List JobAppResult) : Float64 :=
  ((data.map float64Terms).flatten).foldl binary64.add (.fin 0)

end spec

namespace calculator

open spec

/-- Value of the inner loop on entries whose fields are all present. -/
def nesValue (acc : Float64) (nes : List (String × NetworkElementResult)) : Float64 :=
  if nes.any (fun ne => ne.2.TotalTraffic == some 0) then .nonFinite
  else acc.add (.fin ((nes.map (fun ne => neShare ne.2)).sum))

/-- Value of the outer loop on rows whose fields are all present. -/
def rowsValue (acc : Float64) (data : List JobAppResult) : Float64 :=
  if data.any rowHasZeroTraffic then .nonFinite else acc.add (.fin (energy data))

end calculator

/-! ## api/models -/

namespace models

/-- Go struct `TimePeriod`; instants are Unix times. -/
structure TimePeriod where
  EndDate : Option Int
  StartDate : Int
  deriving DecidableEq

/-- Go struct `ErrorInfo`. -/
structure ErrorInfo where
  Code : String
  Message : String
  Status : Int
  deriving DecidableEq

/-- Go struct `AccessTokenCredential`, the only credential shape that is accepted, as the
`*SinkCredential` of a subscription request. -/
structure SinkCredential where
  CredentialType : String
  AccessToken : String
  AccessTokenType : String
  deriving DecidableEq

/-- Constant `AccessTokenCredentialCredentialTypeACCESSTOKEN`. -/
def CredentialTypeACCESSTOKEN : String := "ACCESSTOKEN"

/-- Constant `AccessTokenCredentialAccessTokenTypeBearer`. -/
def AccessTokenTypeBearer : String := "bearer"

/-- Constant `HTTP` of type `Protocol`. -/
def ProtocolHTTP : String := "HTTP"

/-- Go struct `SubscriptionRequest`, with the fields the embedded handlers read:
`config.subscriptionExpireTime`, `protocol`, `sink`, `types` and `sinkCredential`. -/
structure SubscriptionRequest where
  SubscriptionExpireTime : Option Int
  Protocol : String
  Sink : String
  Types : List String
  SinkCredential : Option SinkCredential := none
  deriving DecidableEq

/-- A value of the `data` map of the outbound CloudEvent. -/
inductive DataValue where
  | str (s : String)
  | num (q : ℚ)
  deriving DecidableEq

/-- Go struct `CloudEvent`, the body posted to the sink. -/
structure CloudEvent where
  Id : String
  Source : String
  Specversion : String
  Type_ : String
  Time : Int
  Datacontenttype : Option String
  Data : List (String × DataValue)
  deriving DecidableEq

/-- Constant `EventTypeNotificationOrgCamaraprojectEnergyFootprintNotificationV1Energy`. -/
def EventTypeNotificationEnergy : String :=
  "org.camaraproject.energy-footprint-notification.v1.energy"

/-- Constant `EventTypeNotificationOrgCamaraprojectEnergyFootprintNotificationV1CarbonFootprint`. -/
def EventTypeNotificationCarbonFootprint : String :=
  "org.camaraproject.energy-footprint-notification.v1.carbon-footprint"

end models

/-! ## internal/database: jobs and the store interface -/

namespace database

/-- Constant `RequestKindEnergyConsumption`. -/
def RequestKindEnergyConsumption : String := "energy_consumption"

/-- Constant `RequestKindCarbonFootprint`. -/
def RequestKindCarbonFootprint : String := "carbon_footprint"

/-- Go struct `Job` with its inlined `JobSpec`. -/
structure Job where
  RequestId : Option String
  RequestKind : String
  Service : List String
  SubscriptionRequest : models.SubscriptionRequest
  TimePeriod : Option models.TimePeriod
  CalculationTriggered : Bool
  NotificationSent : Bool
  deriving DecidableEq

/-- Go interface `database.Interface`; every method threads the state of the world. -/
structure Interface (σ : Type) where
  CreateJob : Job → σ → Option GoError × σ
  GetJob : String → σ → Except GoError Job × σ
  SetJobStatus : String → String → σ → Option GoError × σ
  CreateOrUpdateNetworkElementResult :
    JobAppResultMetadata → String → NetworkElementResult → σ → Option GoError × σ
  SetNetworkElementEnergy : JobAppResultMetadata → String → ℚ → σ → Option GoError × σ
  SetNetworkElementTraffic : JobAppResultMetadata → String → ℚ → ℚ → σ → Option GoError × σ
  CreateOrUpdateApplicationResult : JobAppResultMetadata → ℚ → σ → Option GoError × σ
  GetJobAppResult : String → String → σ → Except GoError JobAppResult × σ
  GetAllJobAppResults : String → σ → Except GoError (List JobAppResult) × σ
  TrySetCalculationTriggered : String → σ → Except GoError Bool × σ
  TrySetNotificationSent : String → σ → Except GoError Bool × σ

end database

/-! ## internal/database/mongo.go over a model of the two collections

The `jobs` collection is a finite map from `_id` to the document (MongoDB keeps `_id`
unique); `jobAppResults` is the list of its documents in natural order.  Each method is
one atomic step.  Driver and network failures are not part of this instance: they are
covered by the handlers being written against any `database.Interface`. -/

namespace database

/-- State of the two collections behind `mongoDB`. -/
structure mongoDB where
  jobs : String → Option Job
  jobApps : List JobAppResult

/-- The error `mongo.ErrNoDocuments` of `FindOne(...).Decode`. -/
def ErrNoDocuments : GoError := .errorString "mongo: no documents in result"

namespace mongoDB

/-- Go `mongoDB.GetJob`. -/
def GetJob (id : String) (m : mongoDB) : Except GoError Job × mongoDB :=
  match m.jobs id with
  | none => (.error ErrNoDocuments, m)
  | some job => (.ok job, m)

/-- Go `mongoDB.TrySetCalculationTriggered`: `UpdateOne` with filter
`{_id: jobID, calculationTriggered: {$ne: true}}` and `$set` of the flag. -/
def TrySetCalculationTriggered (jobID : String) (m : mongoDB) : Except GoError Bool × mongoDB :=
  match m.jobs jobID with
  | none => (.ok false, m)
  | some job =>
    if job.CalculationTriggered != true then
      (.ok true,
        { m with jobs := fun id =>
            if id = jobID then some { job with CalculationTriggered := true } else m.jobs id })
    else (.ok false, m)

/-- Go `mongoDB.TrySetNotificationSent`: the same update on `notificationSent`. -/
def TrySetNotificationSent (jobID : String) (m : mongoDB) : Except GoError Bool × mongoDB :=
  match m.jobs jobID with
  | none => (.ok false, m)
  | some job =>
    if job.NotificationSent != true then
      (.ok true,
        { m with jobs := fun id =>
            if id = jobID then some { job with NotificationSent := true } else m.jobs id })
    else (.ok false, m)

/-- Go `mongoDB.CreateJob`: `InsertOne`, refused on a duplicate `_id`.  A job without a
request id is stored under the null `_id`, which no lookup by a string finds; the map
does not keep it. -/
def CreateJob (r : Job) (m : mongoDB) : Option GoError × mongoDB :=
  match r.RequestId with
  | none => (none, m)
  | some id =>
    match m.jobs id with
    | some _ => (some (.errorString "E11000 duplicate key error"), m)
    | none => (none, { m with jobs := fun k => if k = id then some r else m.jobs k })

/-- Go `mongoDB.SetJobStatus`: sets the untyped field `State`, which `Job` does not decode. -/
def SetJobStatus (jobID : String) (_status : String) (m : mongoDB) : Option GoError × mongoDB :=
  match m.jobs jobID with
  | none => (some (.errorString ("job with id '" ++ jobID ++ "' not found")), m)
  | some _ => (none, m)

/-- An upsert `UpdateOne(filter {jobId, appId}, {$setOnInsert: metadata, $set: ...})`:
the first matching document gets the `$set` applied to its `result`; without a match a
document with the metadata and the `$set` is inserted. -/
def upsert (creationMetadata : JobAppResultMetadata) (set : TaskResult → TaskResult) :
    List JobAppResult → List JobAppResult
  | [] =>
    [{ JobID := creationMetadata.JobID, AppID := creationMetadata.AppID,
       NumberOfTotalNEs := creationMetadata.NumberOfTotalNEs,
       Result := some (set { AppInstanceEnergyConsumption := none, NetworkElements := [] }) }]
  | r :: rest =>
    if r.JobID = creationMetadata.JobID ∧ r.AppID = creationMetadata.AppID then
      { r with Result := some (set (r.Result.getD
          { AppInstanceEnergyConsumption := none, NetworkElements := [] })) } :: rest
    else r :: upsert creationMetadata set rest

/-- A `$set` below `result.networkElements.<neInstanceID>`: the entry is updated in place,
or appended when the map has no such key. -/
def setNetworkElement (neInstanceID : String) (f : NetworkElementResult → NetworkElementResult) :
    List (String × NetworkElementResult) → List (String × NetworkElementResult)
  | [] => [(neInstanceID,
      f { EnergyConsumption := none, AppInstanceTraffic := none, TotalTraffic := none })]
  | (k, ne) :: rest =>
    if k = neInstanceID then (k, f ne) :: rest
    else (k, ne) :: setNetworkElement neInstanceID f rest

/-- Go `mongoDB.CreateOrUpdateApplicationResult`. -/
def CreateOrUpdateApplicationResult (creationMetadata : JobAppResultMetadata)
    (appInstanceConsumption : ℚ) (m : mongoDB) : Option GoError × mongoDB :=
  let set : TaskResult → TaskResult := fun res =>
    { res with AppInstanceEnergyConsumption := some appInstanceConsumption }
  (none, { m with jobApps := upsert creationMetadata set m.jobApps })

/-- Go `mongoDB.CreateOrUpdateNetworkElementResult`: replaces the whole entry. -/
def CreateOrUpdateNetworkElementResult (creationMetadata : JobAppResultMetadata)
    (neInstanceID : String) (neResult : NetworkElementResult) (m : mongoDB) :
    Option GoError × mongoDB :=
  let set : TaskResult → TaskResult := fun res =>
    { res with NetworkElements := setNetworkElement neInstanceID (fun _ => neResult) res.NetworkElements }
  (none, { m with jobApps := upsert creationMetadata set m.jobApps })

/-- Go `mongoDB.SetNetworkElementEnergy`. -/
def SetNetworkElementEnergy (creationMetadata : JobAppResultMetadata)
    (neInstanceID : String) (energyConsumption : ℚ) (m : mongoDB) : Option GoError × mongoDB :=
  let setNE : NetworkElementResult → NetworkElementResult := fun ne =>
    { ne with EnergyConsumption := some energyConsumption }
  let set : TaskResult → TaskResult := fun res =>
    { res with NetworkElements := setNetworkElement neInstanceID setNE res.NetworkElements }
  (none, { m with jobApps := upsert creationMetadata set m.jobApps })

/-- Go `mongoDB.SetNetworkElementTraffic`. -/
def SetNetworkElementTraffic (creationMetadata : JobAppResultMetadata)
    (neInstanceID : String) (appInstanceTraffic totalTraffic : ℚ) (m : mongoDB) :
    Option GoError × mongoDB :=
  let setNE : NetworkElementResult → NetworkElementResult := fun ne =>
    { ne with AppInstanceTraffic := some appInstanceTraffic, TotalTraffic := some totalTraffic }
  let set : TaskResult → TaskResult := fun res =>
    { res with NetworkElements := setNetworkElement neInstanceID setNE res.NetworkElements }
  (none, { m with jobApps := upsert creationMetadata set m.jobApps })

/-- Go `mongoDB.GetAllJobAppResults`: `Find({jobId})`. -/
def GetAllJobAppResults (jobID : String) (m : mongoDB) :
    Except GoError (List JobAppResult) × mongoDB :=
  (.ok (m.jobApps.filter (fun r => r.JobID == jobID)), m)

/-- Go `mongoDB.GetJobAppResult`: `FindOne({jobId, appId})`. -/
def GetJobAppResult (jobID appID : String) (m : mongoDB) : Except GoError JobAppResult × mongoDB :=
  match m.jobApps.find? (fun r => r.JobID == jobID && r.AppID == appID) with
  | none => (.error ErrNoDocuments, m)
  | some r => (.ok r, m)

end mongoDB

/-- A call of one of the two compare-and-set methods. -/
inductive TrySetCall where
  | calculationTriggered (jobID : String)
  | notificationSent (jobID : String)
  deriving DecidableEq

/-- One atomic compare-and-set step on the store, with the boolean it returns. -/
def TrySetCall.run (c : TrySetCall) (m : mongoDB) : Except GoError Bool × mongoDB :=
  match c with
  | .calculationTriggered id => mongoDB.TrySetCalculationTriggered id m
  | .notificationSent id => mongoDB.TrySetNotificationSent id m

/-- A sequence of compare-and-set calls run one after the other, whatever caller each
comes from; the answers are returned in call order. -/
def runTrySetCalls : List TrySetCall → mongoDB → List (TrySetCall × Except GoError Bool) × mongoDB
  | [], m => ([], m)
  | c :: rest, m =>
    let r := c.run m
    let rs := runTrySetCalls rest r.2
    ((c, r.1) :: rs.1, rs.2)

end database

/-! ## pkg/event -/

namespace event

/-- Constant `EventTypeGatherInfoRequested`. -/
def EventTypeGatherInfoRequested : String := "it.tim.efn.gatherinfo.requested"
/-- Constant `EventTypeAppConsumptionRequested`. -/
def EventTypeAppConsumptionRequested : String := "it.tim.efn.app.consumption.requested"
/-- Constant `EventTypeNetworkElementEnergyRequested`. -/
def EventTypeNetworkElementEnergyRequested : String :=
  "it.tim.efn.networkelement.energy.requested"
/-- Constant `EventTypeNetworkElementTrafficRequested`. -/
def EventTypeNetworkElementTrafficRequested : String :=
  "it.tim.efn.networkelement.traffic.requested"
/-- Constant `EventTypeNotificationRequested`. -/
def EventTypeNotificationRequested : String := "it.tim.efn.notification.requested"
/-- Constant `EventTypeNotificationErrorRequested`. -/
def EventTypeNotificationErrorRequested : String := "it.tim.efn.notification.error.requested"
/-- Constant `EventTypeNotificationSent`. -/
def EventTypeNotificationSent : String := "it.tim.efn.notification.sent"
/-- Constant `EventTypeCalculationRequested`. -/
def EventTypeCalculationRequested : String := "it.tim.efn.calculation.requested"

/-- Constant `SourceEFNAPI`. -/
def SourceEFNAPI : String := "urn:tim:efn-api"
/-- Constant `SourceEFNWorker`. -/
def SourceEFNWorker : String := "urn:tim:efn-worker"
/-- Constant `SourceEFNNotify`. -/
def SourceEFNNotify : String := "urn:tim:efn-notify"

/-- Go struct `GatherInfoData`. -/
structure GatherInfoData where
  RequestID : String
  ApplicationInstanceID : String
  deriving DecidableEq

/-- Go struct `AppConsumptionData`. -/
structure AppConsumptionData where
  RequestID : String
  ApplicationInstanceID : String
  TimePeriod : Option models.TimePeriod
  AppInfraType : String
  NumberOfTotalNEs : Int
  deriving DecidableEq

/-- Go struct `NetworkElementInfo`. -/
structure NetworkElementInfo where
  NEInstanceID : String
  VendorID : String
  NetworkID : String
  NEInfraType : String
  deriving DecidableEq

/-- Go struct `NetworkElementEnergyData`. -/
structure NetworkElementEnergyData where
  RequestID : String
  ApplicationInstanceID : String
  NEInstanceID : String
  NEInfraType : String
  TimePeriod : Option models.TimePeriod
  NumberOfTotalNEs : Int
  deriving DecidableEq

/-- Go struct `NetworkElementTrafficData`. -/
structure NetworkElementTrafficData where
  RequestID : String
  ApplicationInstanceID : String
  AppInstanceIPList : List String
  TimePeriod : Option models.TimePeriod
  NetworkElements : List NetworkElementInfo
  deriving DecidableEq

/-- Go struct `NotificationRequestedData`, as built by the worker. -/
structure NotificationRequestedData where
  RequestID : String
  Result : Float64
  deriving DecidableEq

/-- Go struct `NotificationErrorRequestedData` with its embedded `models.ErrorInfo`. -/
structure NotificationErrorRequestedData where
  RequestID : String
  ErrorInfo : models.ErrorInfo
  deriving DecidableEq

/-- Go struct `CalculationRequestedData`: intentionally empty. -/
structure CalculationRequestedData where
  deriving DecidableEq

/-- The `data interface{}` argument of `Sender.Send`. -/
inductive Payload where
  | gatherInfo (d : GatherInfoData)
  | appConsumption (d : AppConsumptionData)
  | networkElementEnergy (d : NetworkElementEnergyData)
  | networkElementTraffic (d : NetworkElementTrafficData)
  | calculationRequested (d : CalculationRequestedData)
  | notificationRequested (d : NotificationRequestedData)
  | notificationErrorRequested (d : NotificationErrorRequestedData)
  | nil
  deriving DecidableEq

/-- An outbound internal event: the arguments `id, eventType, source, data` of `Send`. -/
structure Event where
  ID : String
  EventType : String
  Source : String
  Data : Payload
  deriving DecidableEq

/-- The JSON object in the `data` of a received CloudEvent, by key; `none` is an absent
or null key, which the decoder leaves at the zero value. -/
structure Fields where
  requestId : Option String
  applicationInstanceId : Option String
  timePeriod : Option models.TimePeriod
  appInfraType : Option String
  numberOfTotalNEs : Option Int
  neInstanceId : Option String
  neInfraType : Option String
  appInstanceIpList : Option (List String)
  networkElements : Option (List NetworkElementInfo)
  result : Option ℚ
  status : Option Int
  code : Option String
  message : Option String
  deriving DecidableEq

/-- A received `cloudevent.Event`; `Data = none` is a body on which `DataAs` fails. -/
structure CloudEvent where
  ID : String
  EventType : String
  Source : String
  Data : Option Fields
  Extensions : List (String × String)
  deriving DecidableEq

/-- The error of a failed `e.DataAs`. -/
def ErrDataAs : GoError := .errorString "cannot decode event data"

/-- Decoding `e.DataAs(&AppConsumptionData{})`. -/
def DataAsAppConsumptionData (e : CloudEvent) : Except GoError AppConsumptionData :=
  match e.Data with
  | none => .error ErrDataAs
  | some f => .ok
    { RequestID := f.requestId.getD "", ApplicationInstanceID := f.applicationInstanceId.getD "",
      TimePeriod := f.timePeriod, AppInfraType := f.appInfraType.getD "",
      NumberOfTotalNEs := f.numberOfTotalNEs.getD 0 }

/-- Decoding `e.DataAs(&NetworkElementEnergyData{})`. -/
def DataAsNetworkElementEnergyData (e : CloudEvent) : Except GoError NetworkElementEnergyData :=
  match e.Data with
  | none => .error ErrDataAs
  | some f => .ok
    { RequestID := f.requestId.getD "", ApplicationInstanceID := f.applicationInstanceId.getD "",
      NEInstanceID := f.neInstanceId.getD "", NEInfraType := f.neInfraType.getD "",
      TimePeriod := f.timePeriod, NumberOfTotalNEs := f.numberOfTotalNEs.getD 0 }

/-- Decoding `e.DataAs(&NetworkElementTrafficData{})`. -/
def DataAsNetworkElementTrafficData (e : CloudEvent) : Except GoError NetworkElementTrafficData :=
  match e.Data with
  | none => .error ErrDataAs
  | some f => .ok
    { RequestID := f.requestId.getD "", ApplicationInstanceID := f.applicationInstanceId.getD "",
      AppInstanceIPList := f.appInstanceIpList.getD [], TimePeriod := f.timePeriod,
      NetworkElements := f.networkElements.getD [] }

/-- Decoding `e.DataAs(&NotificationRequestedData{})`: request id and a finite result. -/
def DataAsNotificationRequestedData (e : CloudEvent) : Except GoError (String × ℚ) :=
  match e.Data with
  | none => .error ErrDataAs
  | some f => .ok (f.requestId.getD "", f.result.getD 0)

/-- Decoding `e.DataAs(&NotificationErrorRequestedData{})`. -/
def DataAsNotificationErrorRequestedData (e : CloudEvent) :
    Except GoError NotificationErrorRequestedData :=
  match e.Data with
  | none => .error ErrDataAs
  | some f => .ok
    { RequestID := f.requestId.getD "",
      ErrorInfo := { Code := f.code.getD "", Message := f.message.getD "",
                     Status := f.status.getD 0 } }

/-- Go `http.StatusText`: the reason phrase of a status code, empty for an unknown code.
The codes the services answer with come first. -/
def StatusText (status : Int) : String :=
  if status = 500 then "Internal Server Error"
  else if status = 400 then "Bad Request"
  else if status = 401 then "Unauthorized"
  else if status = 404 then "Not Found"
  else if status = 501 then "Not Implemented"
  else if status = 100 then "Continue"
  else if status = 101 then "Switching Protocols"
  else if status = 102 then "Processing"
  else if status = 103 then "Early Hints"
  else if status = 200 then "OK"
  else if status = 201 then "Created"
  else if status = 202 then "Accepted"
  else if status = 203 then "Non-Authoritative Information"
  else if status = 204 then "No Content"
  else if status = 205 then "Reset Content"
  else if status = 206 then "Partial Content"
  else if status = 207 then "Multi-Status"
  else if status = 208 then "Already Reported"
  else if status = 226 then "IM Used"
  else if status = 300 then "Multiple Choices"
  else if status = 301 then "Moved Permanently"
  else if status = 302 then "Found"
  else if status = 303 then "See Other"
  else if status = 304 then "Not Modified"
  else if status = 305 then "Use Proxy"
  else if status = 307 then "Temporary Redirect"
  else if status = 308 then "Permanent Redirect"
  else if status = 402 then "Payment Required"
  else if status = 403 then "Forbidden"
  else if status = 405 then "Method Not Allowed"
  else if status = 406 then "Not Acceptable"
  else if status = 407 then "Proxy Authentication Required"
  else if status = 408 then "Request Timeout"
  else if status = 409 then "Conflict"
  else if status = 410 then "Gone"
  else if status = 411 then "Length Required"
  else if status = 412 then "Precondition Failed"
  else if status = 413 then "Request Entity Too Large"
  else if status = 414 then "Request URI Too Long"
  else if status = 415 then "Unsupported Media Type"
  else if status = 416 then "Requested Range Not Satisfiable"
  else if status = 417 then "Expectation Failed"
  else if status = 418 then "I\x27m a teapot"
  else if status = 421 then "Misdirected Request"
  else if status = 422 then "Unprocessable Entity"
  else if status = 423 then "Locked"
  else if status = 424 then "Failed Dependency"
  else if status = 425 then "Too Early"
  else if status = 426 then "Upgrade Required"
  else if status = 428 then "Precondition Required"
  else if status = 429 then "Too Many Requests"
  else if status = 431 then "Request Header Fields Too Large"
  else if status = 451 then "Unavailable For Legal Reasons"
  else if status = 502 then "Bad Gateway"
  else if status = 503 then "Service Unavailable"
  else if status = 504 then "Gateway Timeout"
  else if status = 505 then "HTTP Version Not Supported"
  else if status = 506 then "Variant Also Negotiates"
  else if status = 507 then "Insufficient Storage"
  else if status = 508 then "Loop Detected"
  else if status = 510 then "Not Extended"
  else if status = 511 then "Network Authentication Required"
  else ""

/-- Go `NewNotificationRequestedData`. -/
def NewNotificationRequestedData (requestID : String) (result : Float64) :
    NotificationRequestedData :=
  { RequestID := requestID, Result := result }

/-- Go `NewNotificationErrorRequestedData`. -/
def NewNotificationErrorRequestedData (requestID : String) (status : Int) (message : String) :
    NotificationErrorRequestedData :=
  { RequestID := requestID,
    ErrorInfo := { Status := status, Code := StatusText status, Message := message } }

/-- Go `NewCalculationRequestedData`. -/
def NewCalculationRequestedData : CalculationRequestedData := {}

/-- Go interface `event.Sender`: `Send(ctx, id, eventType, source, data) error`. -/
structure Sender (σ : Type) where
  Send : String → String → String → Payload → σ → Option GoError × σ

end event

/-! ## pkg/cloudobservability, pkg/trafficvolume, pkg/orchestrator: interfaces -/

namespace cloudobservability

/-- Go interface `cloudobservability.Interface`; a nil error comes with a non-nil value. -/
structure Interface (σ : Type) where
  RetrieveAppEnergyConsumption :
    String → Option models.TimePeriod → String → σ → Except GoError ℚ × σ
  RetrieveNetworkElementEnergyConsumption :
    String → Option models.TimePeriod → String → σ → Except GoError ℚ × σ

/-- Modelled from the spec: `cloudobservability.IsThrottlingError`, whose file is not part
of the sources; it classifies an upstream error as `throttling` (transient) or not, and is
written here like its sibling `trafficvolume.IsThrottlingError`: `errors.As` along the wrap
chain for the package's own `ThrottlingError`. -/
def IsThrottlingError : GoError → Bool
  | .cloudObsThrottling _ => true
  | .wrap _ inner => IsThrottlingError inner
  | _ => false

end cloudobservability

namespace trafficvolume

/-- Go struct `NetworkElement`. -/
structure NetworkElement where
  VendorIdentifier : String
  NEIdentifier : String
  deriving DecidableEq

/-- Go struct `TrafficVolumeMeasure`. -/
structure TrafficVolumeMeasure where
  NetworkElement : NetworkElement
  TrafficVolumeIP : ℚ
  TrafficVolumeAll : ℚ
  deriving DecidableEq

/-- Go interface `trafficvolume.Interface`; the value is the `TrafficVolumeMeasureList`. -/
structure Interface (σ : Type) where
  RetrieveTrafficVolumes :
    List String → List NetworkElement → Option models.TimePeriod → σ →
      Except GoError (List TrafficVolumeMeasure) × σ

/-- Go `trafficvolume.IsThrottlingError`. -/
def IsThrottlingError : GoError → Bool
  | .trafficThrottling _ => true
  | .wrap _ inner => IsThrottlingError inner
  | _ => false

end trafficvolume

namespace orchestrator

/-- Go struct `ApplicationInstance`. -/
structure ApplicationInstance where
  IPList : List String
  InfraType : String
  deriving DecidableEq

/-- Go struct `NEInfo`. -/
structure NEInfo where
  InstanceID : String
  NetworkID : String
  VendorID : String
  InfraType : String
  deriving DecidableEq

/-- Go struct `Information`. -/
structure Information where
  App : ApplicationInstance
  NE : List NEInfo
  deriving DecidableEq

/-- Go interface `orchestrator.Interface`. -/
structure Interface (σ : Type) where
  GatherInformation : String → σ → Except GoError Information × σ

end orchestrator

/-! ## internal/reciever/worker/handler.go -/

namespace worker

open event

/-- Go struct `worker.Handler`.  `calculator.Interface` has the single implementation
`simpleClient`. -/
structure Handler (σ : Type) where
  calculator : calculator.simpleClient
  cloudObservability : cloudobservability.Interface σ
  trafficVolume : trafficvolume.Interface σ
  database : database.Interface σ
  events : event.Sender σ
  orchestrator : orchestrator.Interface σ

/-- What a handler returns, `(*cloudevent.Event, error)` or a panic, and the new state. -/
abbrev Result (σ : Type) := Outcome (Option event.Event) × σ

/-- The loop `for neID, neResult := range result.NetworkElements` of `isAllDataGathered`:
true when no entry misses a field. -/
def networkElementsPopulated : List (String × NetworkElementResult) → Bool
  | [] => true
  | (_, neResult) :: rest =>
    if neResult.EnergyConsumption.isNone || neResult.AppInstanceTraffic.isNone
        || neResult.TotalTraffic.isNone then false
    else networkElementsPopulated rest

/-- The loop `for i, appResult := range results` of `isAllDataGathered`: true when it
runs to its end without `return false, nil`. -/
def appResultsPopulated : List JobAppResult → Bool
  | [] => true
  | appResult :: rest =>
    match appResult.Result with
    | none => false
    | some result =>
      if result.AppInstanceEnergyConsumption.isNone then false
      else if appResult.NumberOfTotalNEs != (result.NetworkElements.length : Int) then false
      else if !networkElementsPopulated result.NetworkElements then false
      else appResultsPopulated rest

/-- Go `Handler.isAllDataGathered`. -/
def isAllDataGathered {σ : Type} (h : Handler σ) (requestID : String) (s : σ) :
    Outcome Bool × σ :=
  match h.database.GetJob requestID s with
  | (.error err, s1) => (.err (.wrap ("failed to read job " ++ requestID) err), s1)
  | (.ok job, s1) =>
    match h.database.GetAllJobAppResults requestID s1 with
    | (.error err, s2) =>
      (.err (.wrap ("failed to get all job app results for requestID " ++ requestID) err), s2)
    | (.ok results, s2) =>
      let expectedApps := job.Service.length
      if results.length != expectedApps then (.ok false, s2)
      else if !appResultsPopulated results then (.ok false, s2)
      else
        match h.database.TrySetCalculationTriggered requestID s2 with
        | (.error err, s3) =>
          (.err (.wrap ("failed to set calculationTriggered for " ++ requestID) err), s3)
        | (.ok set, s3) => if !set then (.ok false, s3) else (.ok true, s3)

/-- The common tail of the three partial-result handlers: the completeness check and,
when it answers true, the `CalculationRequested` event. -/
def checkAndTrigger {σ : Type} (h : Handler σ) (requestID : String) (s : σ) : Result σ :=
  match isAllDataGathered h requestID s with
  | (.err err, s1) => (.err (.wrap "Failed to verify if all data is gathered" err), s1)
  | (.panic m, s1) => (.panic m, s1)
  | (.ok gathered, s1) =>
    if gathered then
      match h.events.Send requestID EventTypeCalculationRequested SourceEFNWorker
          (.calculationRequested NewCalculationRequestedData) s1 with
      | (some err, s2) => (.err (.wrap "Failed to send CalculationRequested event" err), s2)
      | (none, s2) => (.ok none, s2)
    else (.ok none, s1)

/-- The permanent-error branch of the two observability handlers: the error notification. -/
def sendErrorNotification {σ : Type} (h : Handler σ) (requestID message : String) (s : σ) :
    Result σ :=
  let notificationData := NewNotificationErrorRequestedData requestID 500 message
  match h.events.Send requestID EventTypeNotificationErrorRequested SourceEFNWorker
      (.notificationErrorRequested notificationData) s with
  | (some sendErr, s1) => (.err (.wrap "failed to send error notification" sendErr), s1)
  | (none, s1) => (.ok none, s1)

/-- Go `Handler.handleAppConsumptionRequested`. -/
def handleAppConsumptionRequested {σ : Type} (h : Handler σ) (_ctx : Context)
    (e : CloudEvent) (s : σ) : Result σ :=
  match DataAsAppConsumptionData e with
  | .error err => (.err (.wrap "Failed to parse event data" err), s)
  | .ok data =>
    match h.cloudObservability.RetrieveAppEnergyConsumption data.ApplicationInstanceID
        data.TimePeriod data.AppInfraType s with
    | (.error err, s1) =>
      if cloudobservability.IsThrottlingError err then (.err (.wrap "throttling error" err), s1)
      else sendErrorNotification h data.RequestID "Failed to retrieve app energy consumption" s1
    | (.ok consumption, s1) =>
      let creationMetadata : JobAppResultMetadata :=
        { JobID := data.RequestID, AppID := data.ApplicationInstanceID,
          NumberOfTotalNEs := data.NumberOfTotalNEs }
      match h.database.CreateOrUpdateApplicationResult creationMetadata consumption s1 with
      | (some err, s2) =>
        (.err (.wrap
          "Failed to store energy consumption for the application instance in database" err), s2)
      | (none, s2) => checkAndTrigger h data.RequestID s2

/-- Go `Handler.handleNetworkElementEnergyRequested`. -/
def handleNetworkElementEnergyRequested {σ : Type} (h : Handler σ) (_ctx : Context)
    (e : CloudEvent) (s : σ) : Result σ :=
  match DataAsNetworkElementEnergyData e with
  | .error err => (.err (.wrap "Failed to parse event data" err), s)
  | .ok data =>
    match h.cloudObservability.RetrieveNetworkElementEnergyConsumption
        data.ApplicationInstanceID data.TimePeriod data.NEInfraType s with
    | (.error err, s1) =>
      if cloudobservability.IsThrottlingError err then
        (.err (.wrap ("throttling error for NE " ++ data.NEInstanceID) err), s1)
      else
        sendErrorNotification h data.RequestID
          "Failed to retrieve network element energy consumption" s1
    | (.ok consumption, s1) =>
      let creationMetadata : JobAppResultMetadata :=
        { JobID := data.RequestID, AppID := data.ApplicationInstanceID,
          NumberOfTotalNEs := data.NumberOfTotalNEs }
      match h.database.SetNetworkElementEnergy creationMetadata data.NEInstanceID
          consumption s1 with
      | (some err, s2) =>
        (.err (.wrap
          ("Failed to store energy consumption for the network element in database for NE "
            ++ data.NEInstanceID) err), s2)
      | (none, s2) => checkAndTrigger h data.RequestID s2

/-- The map `trafficVolumeMap` built from the measure list: the last measure of a key wins. -/
def trafficVolumeMapLookup (measures : List trafficvolume.TrafficVolumeMeasure)
    (neInstanceID : String) : Option trafficvolume.TrafficVolumeMeasure :=
  measures.reverse.find? (fun measure => measure.NetworkElement.NEIdentifier == neInstanceID)

/-- The loop `for _, neInfo := range data.NetworkElements` of the traffic handler, storing
the two traffic fields of each network element; it stops at the first failure. -/
def storeTrafficLoop {σ : Type} (h : Handler σ) (data : NetworkElementTrafficData)
    (measures : List trafficvolume.TrafficVolumeMeasure) :
    List NetworkElementInfo → σ → Option GoError × σ
  | [], s => (none, s)
  | neInfo :: rest, s =>
    match trafficVolumeMapLookup measures neInfo.NEInstanceID with
    | none =>
      (some (.errorString ("Traffic volume not found in Traffic Volume API response for NE "
        ++ neInfo.NEInstanceID)), s)
    | some trafficVolume =>
      let creationMetadata : JobAppResultMetadata :=
        { JobID := data.RequestID, AppID := data.ApplicationInstanceID,
          NumberOfTotalNEs := (data.NetworkElements.length : Int) }
      match h.database.SetNetworkElementTraffic creationMetadata neInfo.NEInstanceID
          trafficVolume.TrafficVolumeIP trafficVolume.TrafficVolumeAll s with
      | (some err, s1) =>
        (some (.wrap ("Failed to store traffic for the network element in database for NE "
          ++ neInfo.NEInstanceID) err), s1)
      | (none, s1) => storeTrafficLoop h data measures rest s1

/-- Go `Handler.handleNetworkElementTrafficRequested`. -/
def handleNetworkElementTrafficRequested {σ : Type} (h : Handler σ) (_ctx : Context)
    (e : CloudEvent) (s : σ) : Result σ :=
  match DataAsNetworkElementTrafficData e with
  | .error err => (.err (.wrap "Failed to parse event data" err), s)
  | .ok data =>
    let tvNetworkElements : List trafficvolume.NetworkElement :=
      data.NetworkElements.map (fun neInfo =>
        { VendorIdentifier := neInfo.VendorID, NEIdentifier := neInfo.NEInstanceID })
    match h.trafficVolume.RetrieveTrafficVolumes data.AppInstanceIPList tvNetworkElements
        data.TimePeriod s with
    | (.error err, s1) =>
      (.err (.wrap "Failed to retrieve traffic volumes from Traffic Volume API" err), s1)
    | (.ok trafficVolumes, s1) =>
      match storeTrafficLoop h data trafficVolumes data.NetworkElements s1 with
      | (some err, s2) => (.err err, s2)
      | (none, s2) => checkAndTrigger h data.RequestID s2

/-- Go `Handler.handleCalculationRequested`. -/
def handleCalculationRequested {σ : Type} (h : Handler σ) (ctx : Context)
    (e : CloudEvent) (s : σ) : Result σ :=
  let requestID := e.ID
  let jobID := requestID
  match h.database.GetAllJobAppResults jobID s with
  | (.error err, s1) =>
    (.err (.wrap "Failed to fetch all job app results for calculation" err), s1)
  | (.ok appResults, s1) =>
    match h.database.GetJob jobID s1 with
    | (.error err, s2) => (.err (.wrap "Failed to fetch job for calculation" err), s2)
    | (.ok job, s2) =>
      let calculated : Outcome Float64 :=
        if job.RequestKind = RequestKindEnergyConsumption then
          match calculator.CalculateEnergyConsumption h.calculator ctx appResults with
          | .err err => .err (.wrap "Failed to calculate energy consumption" err)
          | o => o
        else if job.RequestKind = RequestKindCarbonFootprint then
          match calculator.CalculateCarbonFootprint h.calculator ctx appResults with
          | .err err => .err (.wrap "Failed to calculate carbon footprint" err)
          | o => o
        else
          match calculator.CalculateEnergyConsumption h.calculator ctx appResults with
          | .err err => .err (.wrap "Failed to calculate energy consumption" err)
          | o => o
      match calculated with
      | .err err => (.err err, s2)
      | .panic m => (.panic m, s2)
      | .ok result =>
        let notificationData := NewNotificationRequestedData requestID result
        match h.events.Send requestID EventTypeNotificationRequested SourceEFNWorker
            (.notificationRequested notificationData) s2 with
        | (some err, s3) =>
          (.err (.wrap "failed to send NotificationRequested event" err), s3)
        | (none, s3) => (.ok none, s3)

end worker

/-! ## internal/reciever/notification/handler.go -/

namespace config

/-- Go struct `config.HTTP`. -/
structure HTTP where
  InsecureSkipVerify : Bool
  deriving DecidableEq

end config

namespace event

/-- Modelled from the spec: `event.Event(id, eventType, source, data)`, whose file is not
part of the sources; Notify "emits `NotificationSent(requestId)` on successful delivery as
a terminal breadcrumb", so the call yields that event and no error. -/
def NewEvent (id eventType source : String) (data : Payload) : Outcome (Option Event) :=
  .ok (some { ID := id, EventType := eventType, Source := source, Data := data })

end event

namespace notification

open event

/-- The HTTP request `POST sink` with the marshalled CloudEvent as body.  Request headers
(content type, `x-correlator`, custom headers, `Authorization`) do not influence the
control flow of `Handle` and are left out. -/
structure SinkRequest where
  Sink : String
  Body : models.CloudEvent
  deriving DecidableEq

/-- Go struct `notification.Handler`. -/
structure Handler (σ : Type) where
  db : database.Interface σ
  config : config.HTTP

/-- What `Handle` takes from its surroundings: `time.Now().UTC()`, whether
`http.NewRequestWithContext` accepts the sink URL, and `client.Do`, which answers with the
response status or a transport error. -/
structure Runtime (σ : Type) where
  Now : σ → Int
  NewRequest : String → Bool
  Do : SinkRequest → σ → Except GoError Int × σ

/-- The first `switch` of `Handle`: request id and result value of the inbound event. -/
def parseNotification (e : CloudEvent) : Except GoError (String × ℚ) :=
  if e.EventType = EventTypeNotificationErrorRequested then
    match DataAsNotificationErrorRequestedData e with
    | .error err => .error (.wrap "Failed to parse error event data" err)
    | .ok errorData => .ok (errorData.RequestID, -1)
  else if e.EventType = EventTypeNotificationRequested then
    match DataAsNotificationRequestedData e with
    | .error err => .error (.wrap "Failed to parse event data" err)
    | .ok data => .ok (data.1, data.2)
  else .error (.errorString ("Unexpected event type: " ++ e.EventType))

/-- Go `Handler.Handle` of the Notify service. -/
def Handle {σ : Type} (h : Handler σ) (rt : Runtime σ) (e : CloudEvent) (s : σ) :
    Outcome (Option Event) × σ :=
  let eventType := e.EventType
  if eventType != EventTypeNotificationRequested
      && eventType != EventTypeNotificationErrorRequested then
    (.err (.errorString ("Unexpected event type: " ++ e.EventType)), s)
  else
    match parseNotification e with
    | .error err => (.err err, s)
    | .ok (requestID, resultValue) =>
      match h.db.TrySetNotificationSent requestID s with
      | (.error dbErr, s1) =>
        (.err (.wrap ("failed to check notificationSent for job " ++ requestID) dbErr), s1)
      | (.ok shouldSend, s1) =>
        if !shouldSend then (.ok none, s1)
        else
          match h.db.GetJob requestID s1 with
          | (.error err, s2) =>
            (.err (.wrap ("failed to read job " ++ requestID ++ " from DB") err), s2)
          | (.ok job, s2) =>
            let expired : Bool :=
              match job.SubscriptionRequest.SubscriptionExpireTime with
              | none => false
              | some expireTime => decide (expireTime < rt.Now s2)
            if expired then (.ok none, s2)
            else
              let sink := job.SubscriptionRequest.Sink
              if sink = "" then
                (.err (.errorString
                  ("missing sink in subscription request for job " ++ e.ID)), s2)
              else
                let camaraType :=
                  if job.RequestKind = RequestKindEnergyConsumption then
                    models.EventTypeNotificationEnergy
                  else if job.RequestKind = RequestKindCarbonFootprint then
                    models.EventTypeNotificationCarbonFootprint
                  else models.EventTypeNotificationEnergy
                let resultKey :=
                  if job.RequestKind = RequestKindEnergyConsumption then "energyConsumption"
                  else if job.RequestKind = RequestKindCarbonFootprint then "carbonFootprint"
                  else "energyConsumption"
                let dataMap : List (String × models.DataValue) :=
                  [("requestId", .str requestID), (resultKey, .num resultValue)]
                let cloudEvt : models.CloudEvent :=
                  { Id := e.ID, Source := SourceEFNNotify, Specversion := "1.0",
                    Type_ := camaraType, Time := rt.Now s2,
                    Datacontenttype := some "application/json", Data := dataMap }
                if !rt.NewRequest sink then
                  (.err (.errorString
                    ("Failed to create HTTP request for callback to sink " ++ sink)), s2)
                else
                  match rt.Do { Sink := sink, Body := cloudEvt } s2 with
                  | (.error err, s3) =>
                    (.err (.wrap ("Failed to deliver notification to sink " ++ sink) err), s3)
                  | (.ok status, s3) =>
                    if status < 200 || status ≥ 300 then
                      (.err (.errorString
                        ("Callback delivery returned non-success status: sink " ++ sink
                          ++ " returned status " ++ toString status)), s3)
                    else
                      (NewEvent requestID EventTypeNotificationSent SourceEFNNotify .nil, s3)

end notification

/-! ## Test doubles: collaborators with configured answers that record their calls

They follow `mockDatabase` of `handler_test.go`: every method answers what it was
configured to answer, and the calls are recorded. -/

namespace mock

/-- The configured answers. -/
structure Returns where
  GetJob : Except GoError Job
  GetAllJobAppResults : Except GoError (List JobAppResult)
  TrySetCalculationTriggered : Except GoError Bool
  TrySetNotificationSent : Except GoError Bool
  write : Option GoError
  RetrieveEnergy : Except GoError ℚ
  RetrieveTrafficVolumes : Except GoError (List trafficvolume.TrafficVolumeMeasure)
  GatherInformation : Except GoError orchestrator.Information
  Send : Option GoError

/-- The record of calls: names of the database methods called and the events handed to
`Send`, oldest first. -/
structure Recorder where
  calls : List String
  sends : List event.Event
  deriving DecidableEq

/-- Records a database call. -/
def Recorder.called (s : Recorder) (name : String) : Recorder :=
  { s with calls := s.calls ++ [name] }

/-- The double for `database.Interface`. -/
def mockDatabase (r : Returns) : database.Interface Recorder where
  CreateJob := fun _ s => (r.write, s.called "CreateJob")
  GetJob := fun _ s => (r.GetJob, s.called "GetJob")
  SetJobStatus := fun _ _ s => (r.write, s.called "SetJobStatus")
  CreateOrUpdateNetworkElementResult := fun _ _ _ s =>
    (r.write, s.called "CreateOrUpdateNetworkElementResult")
  SetNetworkElementEnergy := fun _ _ _ s => (r.write, s.called "SetNetworkElementEnergy")
  SetNetworkElementTraffic := fun _ _ _ _ s => (r.write, s.called "SetNetworkElementTraffic")
  CreateOrUpdateApplicationResult := fun _ _ s =>
    (r.write, s.called "CreateOrUpdateApplicationResult")
  GetJobAppResult := fun _ _ s =>
    (.error (.errorString "unexpected call"), s.called "GetJobAppResult")
  GetAllJobAppResults := fun _ s => (r.GetAllJobAppResults, s.called "GetAllJobAppResults")
  TrySetCalculationTriggered := fun _ s =>
    (r.TrySetCalculationTriggered, s.called "TrySetCalculationTriggered")
  TrySetNotificationSent := fun _ s =>
    (r.TrySetNotificationSent, s.called "TrySetNotificationSent")

/-- The double for `event.Sender`: it records the event and answers as configured. -/
def mockSender (r : Returns) : event.Sender Recorder where
  Send := fun id eventType source data s =>
    (r.Send, { s with sends := s.sends ++
      [{ ID := id, EventType := eventType, Source := source, Data := data }] })

/-- A worker handler wired to the doubles. -/
def handler (r : Returns) : worker.Handler Recorder where
  calculator := calculator.NewSimpleClient (35 / 100000)
  cloudObservability :=
    { RetrieveAppEnergyConsumption := fun _ _ _ s => (r.RetrieveEnergy, s)
      RetrieveNetworkElementEnergyConsumption := fun _ _ _ s => (r.RetrieveEnergy, s) }
  trafficVolume := { RetrieveTrafficVolumes := fun _ _ _ s => (r.RetrieveTrafficVolumes, s) }
  database := mockDatabase r
  events := mockSender r
  orchestrator := { GatherInformation := fun _ s => (r.GatherInformation, s) }

/-- The empty record. -/
def start : Recorder := { calls := [], sends := [] }

end mock

/-! ## The services over the store model -/

/-- The world of the services: the store, the events the broker accepted, the requests
that reached the subscriber sink, and the clock. -/
structure World where
  db : database.mongoDB
  sent : List event.Event
  posts : List notification.SinkRequest
  now : Int

namespace World

/-- Lifts a store step to the world. -/
def onDB {α : Type} (f : database.mongoDB → α × database.mongoDB) (w : World) : α × World :=
  let r := f w.db
  (r.1, { w with db := r.2 })

/-- The store model `mongoDB` as the `database.Interface` of the world. -/
def database : database.Interface World where
  CreateJob := fun r => onDB (database.mongoDB.CreateJob r)
  GetJob := fun id => onDB (database.mongoDB.GetJob id)
  SetJobStatus := fun id st => onDB (database.mongoDB.SetJobStatus id st)
  CreateOrUpdateNetworkElementResult := fun md ne r =>
    onDB (database.mongoDB.CreateOrUpdateNetworkElementResult md ne r)
  SetNetworkElementEnergy := fun md ne v => onDB (database.mongoDB.SetNetworkElementEnergy md ne v)
  SetNetworkElementTraffic := fun md ne a t =>
    onDB (database.mongoDB.SetNetworkElementTraffic md ne a t)
  CreateOrUpdateApplicationResult := fun md v =>
    onDB (database.mongoDB.CreateOrUpdateApplicationResult md v)
  GetJobAppResult := fun j a => onDB (database.mongoDB.GetJobAppResult j a)
  GetAllJobAppResults := fun j => onDB (database.mongoDB.GetAllJobAppResults j)
  TrySetCalculationTriggered := fun j => onDB (database.mongoDB.TrySetCalculationTriggered j)
  TrySetNotificationSent := fun j => onDB (database.mongoDB.TrySetNotificationSent j)

/-- An event sender towards the broker: when the broker is up the event is accepted,
otherwise `Send` returns an error and nothing is delivered. -/
def sender (brokerUp : Bool) : event.Sender World where
  Send := fun id eventType source data w =>
    if brokerUp then
      (none, { w with sent := w.sent ++
        [{ ID := id, EventType := eventType, Source := source, Data := data }] })
    else (some (.errorString "failed to send event"), w)

/-- The upstream answers of one worker run. -/
structure Upstream where
  energy : Except GoError ℚ
  traffic : Except GoError (List trafficvolume.TrafficVolumeMeasure)
  information : Except GoError orchestrator.Information

/-- The worker handler over the world, for one run with the given upstream answers. -/
def worker (up : Upstream) (brokerUp : Bool) : worker.Handler World where
  calculator := calculator.NewSimpleClient (35 / 100000)
  cloudObservability :=
    { RetrieveAppEnergyConsumption := fun _ _ _ w => (up.energy, w)
      RetrieveNetworkElementEnergyConsumption := fun _ _ _ w => (up.energy, w) }
  trafficVolume := { RetrieveTrafficVolumes := fun _ _ _ w => (up.traffic, w) }
  database := World.database
  events := sender brokerUp
  orchestrator := { GatherInformation := fun _ w => (up.information, w) }

/-- One delivery of a notification event to the Notify service: the event, the time, and
what the sink side will answer if it is reached. -/
structure Delivery where
  e : event.CloudEvent
  now : Int
  newRequestOK : Bool
  response : Except GoError Int

/-- The Notify handler over the world. -/
def notify (cfg : config.HTTP) : notification.Handler World :=
  { db := World.database, config := cfg }

/-- The surroundings of one delivery: a POST is recorded in `posts` when `Do` is called. -/
def runtime (d : Delivery) : notification.Runtime World where
  Now := fun w => w.now
  NewRequest := fun _ => d.newRequestOK
  Do := fun req w => (d.response, { w with posts := w.posts ++ [req] })

/-- Runs `Handle` for one delivery. -/
def deliver (cfg : config.HTTP) (d : Delivery) (w : World) :
    Outcome (Option event.Event) × World :=
  notification.Handle (notify cfg) (runtime d) d.e { w with now := d.now }

/-- Runs `Handle` for a sequence of deliveries, one after the other. -/
def deliverAll (cfg : config.HTTP) : List Delivery → World → World
  | [], w => w
  | d :: rest, w => deliverAll cfg rest (deliver cfg d w).2

end World

/-! ## Invariant 5 of the specification -/

namespace spec

/-- The per-row part of invariant 5: `appInstanceEnergyConsumption` is present,
`|networkElements| = numberOfTotalNEs`, and each entry has all three fields populated. -/
def rowComplete (r : JobAppResult) : Prop :=
  ∃ res, r.Result = some res ∧ res.AppInstanceEnergyConsumption.isSome = true ∧
    (res.NetworkElements.length : Int) = r.NumberOfTotalNEs ∧
    ∀ ne ∈ res.NetworkElements, neFieldsPresent ne.2 = true

/-- Invariant 5: a job is complete iff `|JobAppResult| = len(service)` and every record
is complete. -/
def complete (job : Job) (rows : List JobAppResult) : Prop :=
  rows.length = job.Service.length ∧ ∀ r ∈ rows, rowComplete r

end spec

/-! ## Inputs of the unit tests and of the scenarios -/

namespace fixtures

/-- A network-element entry with the three fields given. -/
def ne (energy appTraffic totalTraffic : ℚ) : NetworkElementResult :=
  { EnergyConsumption := some energy, AppInstanceTraffic := some appTraffic,
    TotalTraffic := some totalTraffic }

/-- A row of job `job1` with the given result. -/
def row (appID : String) (n : Int) (res : TaskResult) : JobAppResult :=
  { JobID := "job1", AppID := appID, NumberOfTotalNEs := n, Result := some res }

/-- The background context. -/
def ctx : Context := { cancelled := false, deadline := none }

/-- Row of `TestCalculateEnergyConsumption`, first case: app energy 0.002 and two network
elements (0.001, 100, 1000). -/
def rowTwoNEs (appID : String) : JobAppResult :=
  row appID 2 { AppInstanceEnergyConsumption := some (2 / 1000),
                NetworkElements := [("ne1", ne (1 / 1000) 100 1000),
                                    ("ne2", ne (1 / 1000) 100 1000)] }

/-- Input of "aggregates consumption across multiple apps with multiple NEs". -/
def twoAppsTwoNEs : List JobAppResult := [rowTwoNEs "app1", rowTwoNEs "app2"]

/-- Scenario S1: one app, two network elements. -/
def oneAppTwoNEs : List JobAppResult := [rowTwoNEs "app1"]

/-- Input of "converts energy to carbon footprint correctly". -/
def carbonRow : List JobAppResult :=
  [row "app1" 1 { AppInstanceEnergyConsumption := some 1,
                  NetworkElements := [("ne1", ne 1 100 1000)] }]

/-- Input of "missing app instance energy consumption". -/
def missingAppEnergy : List JobAppResult :=
  [row "app1" 1 { AppInstanceEnergyConsumption := none,
                  NetworkElements := [("ne1", ne 1 100 1000)] }]

/-- Input of "missing NE field". -/
def missingNEField : List JobAppResult :=
  [row "app1" 1 { AppInstanceEnergyConsumption := some 1,
                  NetworkElements := [("ne1", ⟨none, some 100, some 1000⟩)] }]

/-- A complete first row followed by a row without application energy. -/
def missingAppEnergySecondRow : List JobAppResult :=
  [rowTwoNEs "app1",
   row "app2" 0 { AppInstanceEnergyConsumption := none, NetworkElements := [] }]

/-- One row announcing two network elements and holding one, all fields present. -/
def countMismatch : List JobAppResult :=
  [row "app1" 2 { AppInstanceEnergyConsumption := some 1,
                  NetworkElements := [("ne1", ne 1 100 1000)] }]

/-- One otherwise complete row whose network element has `totalTraffic = 0`. -/
def zeroTotalTraffic : List JobAppResult :=
  [row "app1" 1 { AppInstanceEnergyConsumption := some 1,
                  NetworkElements := [("ne1", ne 1 100 0)] }]

/-- The rows of `twoAppsTwoNEs` in the other order, the first map iterated backwards. -/
def twoAppsTwoNEsRearranged : List JobAppResult :=
  [rowTwoNEs "app2",
   row "app1" 2 { AppInstanceEnergyConsumption := some (2 / 1000),
                  NetworkElements := [("ne2", ne (1 / 1000) 100 1000),
                                      ("ne1", ne (1 / 1000) 100 1000)] }]

/-- One row with application energy 0 and three network elements (0.1, 1, 1), (0.2, 1, 1),
(0.3, 1, 1), the map iterated as ne1, ne2, ne3. -/
def threeNEs : List JobAppResult :=
  [row "app1" 3 { AppInstanceEnergyConsumption := some 0,
                  NetworkElements := [("ne1", ne (1 / 10) 1 1), ("ne2", ne (2 / 10) 1 1),
                                      ("ne3", ne (3 / 10) 1 1)] }]

/-- The row of `threeNEs` with the map iterated as ne3, ne2, ne1. -/
def threeNEsBackwards : List JobAppResult :=
  [row "app1" 3 { AppInstanceEnergyConsumption := some 0,
                  NetworkElements := [("ne3", ne (3 / 10) 1 1), ("ne2", ne (2 / 10) 1 1),
                                      ("ne1", ne (1 / 10) 1 1)] }]

end fixtures

/-! ## Statements over call sequences and test doubles -/

namespace database

/-- The answers, in call order, that the calls equal to `c` got in a run. -/
def answersFor (c : TrySetCall) (log : List (TrySetCall × Except GoError Bool)) :
    List (Except GoError Bool) :=
  (log.filter (fun cr => cr.1 == c)).map (fun cr => cr.2)

/-- The answers of `n` calls of which exactly the first returns true. -/
def firstWins : Nat → List (Except GoError Bool)
  | 0 => []
  | n + 1 => .ok true :: List.replicate n (.ok false)

end database

namespace mock

/-- The double's answers make the job complete and let this caller win the
compare-and-set on `calculationTriggered`. -/
def triggered (r : Returns) : Prop :=
  ∃ job rows, r.GetJob = .ok job ∧ r.GetAllJobAppResults = .ok rows ∧
    spec.complete job rows ∧ r.TrySetCalculationTriggered = .ok true

/-- The `CalculationRequested` event for a request: empty data, event id = request id. -/
def calculationRequested (requestID : String) : event.Event :=
  { ID := requestID, EventType := event.EventTypeCalculationRequested,
    Source := event.SourceEFNWorker,
    Data := .calculationRequested event.NewCalculationRequestedData }

/-- A run of a partial-result handler against the doubles sends `CalculationRequested`
exactly when the job is complete and the compare-and-set is won, and sends nothing and
succeeds when the job is complete and the compare-and-set is lost. -/
def TriggersExactlyWhenWon (r : Returns) (requestID : String)
    (out : worker.Result Recorder) : Prop :=
  (triggered r → out.2.sends = [calculationRequested requestID]) ∧
  (¬ triggered r → out.2.sends = []) ∧
  (∀ job rows, r.GetJob = .ok job → r.GetAllJobAppResults = .ok rows →
    spec.complete job rows → r.TrySetCalculationTriggered = .ok false →
    out.1 = .ok none ∧ out.2.sends = [])

end mock

namespace fixtures

/-- The subscription of scenario S1. -/
def subscription : models.SubscriptionRequest :=
  { SubscriptionExpireTime := none, Protocol := "HTTP", Sink := "http://sink.example/",
    Types := [models.EventTypeNotificationEnergy] }

/-- An energy job `job1` for the given service list, both flags unset. -/
def job (service : List String) : Job :=
  { RequestId := some "job1", RequestKind := RequestKindEnergyConsumption, Service := service,
    SubscriptionRequest := subscription, TimePeriod := none,
    CalculationTriggered := false, NotificationSent := false }

/-- Row of `TestIsAllDataGathered`, case "all data gathered". -/
def gatheredRow : JobAppResult :=
  row "app1" 1 { AppInstanceEnergyConsumption := some 1,
                 NetworkElements := [("ne1", ne 1 1 1)] }

/-- Row of `TestIsAllDataGathered`, case "missing NE data": two announced, one held. -/
def missingNERow : JobAppResult :=
  row "app1" 2 { AppInstanceEnergyConsumption := some 1,
                 NetworkElements := [("ne1", ne 1 1 1)] }

/-- Doubles answering with the given job and rows, the given compare-and-set answer, and
success everywhere else. -/
def returns (j : Job) (rows : List JobAppResult) (set : Bool) : mock.Returns :=
  { GetJob := .ok j, GetAllJobAppResults := .ok rows,
    TrySetCalculationTriggered := .ok set, TrySetNotificationSent := .ok set,
    write := none, RetrieveEnergy := .ok 1,
    RetrieveTrafficVolumes := .ok [],
    GatherInformation := .ok { App := { IPList := [], InfraType := "" }, NE := [] },
    Send := none }

/-- A store holding `job1` for service `["app1"]` and no partial result. -/
def store : database.mongoDB :=
  { jobs := fun id => if id = "job1" then some (job ["app1"]) else none, jobApps := [] }

end fixtures

namespace World

/-- The job of the request exists and its notification has not been claimed yet. -/
def awaiting (requestID : String) (w : World) : Prop :=
  ∃ job, w.db.jobs requestID = some job ∧ job.NotificationSent = false

end World

namespace fixtures

/-- The data of the events of `job1`/`app1` with the single network element `ne1`. -/
def fields : event.Fields :=
  { requestId := some "job1", applicationInstanceId := some "app1", timePeriod := none,
    appInfraType := some "sylva", numberOfTotalNEs := some 1, neInstanceId := some "ne1",
    neInfraType := some "upf", appInstanceIpList := some ["10.0.0.1"],
    networkElements := some [{ NEInstanceID := "ne1", VendorID := "v1", NetworkID := "n1",
                               NEInfraType := "upf" }],
    result := some (22 / 10000), status := some 500, code := some "Internal Server Error",
    message := some "Event processing failed after multiple retries" }

/-- A received event of the given type carrying `fields`. -/
def received (eventType : String) : event.CloudEvent :=
  { ID := "job1", EventType := eventType, Source := event.SourceEFNWorker,
    Data := some fields, Extensions := [] }

/-- The traffic measure of `ne1`. -/
def measures : List trafficvolume.TrafficVolumeMeasure :=
  [{ NetworkElement := { VendorIdentifier := "v1", NEIdentifier := "ne1" },
     TrafficVolumeIP := 100, TrafficVolumeAll := 1000 }]

/-- Doubles for a complete job whose compare-and-set this caller wins. -/
def returnsWon : mock.Returns :=
  { returns (job ["app1"]) [gatheredRow] true with RetrieveTrafficVolumes := .ok measures }

/-- A store holding `job1` and its row for `app1`, complete but for the energy of `ne1`. -/
def storeAwaitingNEEnergy : database.mongoDB :=
  { jobs := fun id => if id = "job1" then some (job ["app1"]) else none,
    jobApps := [row "app1" 1 { AppInstanceEnergyConsumption := some (2 / 1000),
                               NetworkElements := [("ne1", ⟨none, some 100, some 1000⟩)] }] }

/-- The world around `storeAwaitingNEEnergy`. -/
def worldAwaitingNEEnergy : World :=
  { db := storeAwaitingNEEnergy, sent := [], posts := [], now := 0 }

/-- Upstream answers: energy 0.001 and the measure of `ne1`. -/
def upstream : World.Upstream :=
  { energy := .ok (1 / 1000), traffic := .ok measures,
    information := .ok { App := { IPList := [], InfraType := "" }, NE := [] } }

/-- The world of scenario S1 before any notification. -/
def world : World := { db := store, sent := [], posts := [], now := 0 }

/-- A delivery of the given notification event whose POST the sink answers with `status`. -/
def delivery (eventType : String) (status : Int) : World.Delivery :=
  { e := received eventType, now := 10, newRequestOK := true, response := .ok status }

end fixtures

/-! ## github.com/google/uuid -/

namespace uuid

/-- The deterministic part of the UUID library: the constant `uuid.NameSpaceURL` and
`uuid.NewSHA1(space, data).String()`, a function of its two arguments. -/
structure SHA1 where
  NameSpaceURL : String
  NewSHA1 : String → String → String

end uuid

/-! ## pkg/event/data.go: payload constructors and event ids -/

namespace event

/-- Go `NewGatherInfoData`. -/
def NewGatherInfoData (requestID appInstanceID : String) : GatherInfoData :=
  { RequestID := requestID, ApplicationInstanceID := appInstanceID }

/-- Go `NewAppConsumptionData`. -/
def NewAppConsumptionData (requestID appInstanceID : String)
    (timePeriod : Option models.TimePeriod) (appInfraType : String) (numberOfTotalNEs : Int) :
    AppConsumptionData :=
  { RequestID := requestID, ApplicationInstanceID := appInstanceID, TimePeriod := timePeriod,
    AppInfraType := appInfraType, NumberOfTotalNEs := numberOfTotalNEs }

/-- Go `NewNetworkElementEnergyData`. -/
def NewNetworkElementEnergyData (requestID appInstanceID neInstanceID neInfraType : String)
    (timePeriod : Option models.TimePeriod) (numberOfTotalNEs : Int) :
    NetworkElementEnergyData :=
  { RequestID := requestID, ApplicationInstanceID := appInstanceID,
    NEInstanceID := neInstanceID, NEInfraType := neInfraType, TimePeriod := timePeriod,
    NumberOfTotalNEs := numberOfTotalNEs }

/-- Go `NewNetworkElementTrafficData`. -/
def NewNetworkElementTrafficData (requestID appInstanceID : String)
    (appInstanceIPList : List String) (timePeriod : Option models.TimePeriod)
    (networkElements : List NetworkElementInfo) : NetworkElementTrafficData :=
  { RequestID := requestID, ApplicationInstanceID := appInstanceID,
    AppInstanceIPList := appInstanceIPList, TimePeriod := timePeriod,
    NetworkElements := networkElements }

/-- Go `EventIDForApp`. -/
def EventIDForApp (u : uuid.SHA1) (requestID appInstanceID : String) : String :=
  let baseNS := u.NewSHA1 u.NameSpaceURL "camara-efn-api:event-id"
  let name := requestID ++ "\x00" ++ appInstanceID
  u.NewSHA1 baseNS name

/-- Go `EventIDForNE`. -/
def EventIDForNE (u : uuid.SHA1) (requestID appInstanceID neInstanceID : String) : String :=
  let baseNS := u.NewSHA1 u.NameSpaceURL "camara-efn-api:event-id:ne"
  let name := requestID ++ "\x00" ++ appInstanceID ++ "\x00" ++ neInstanceID
  u.NewSHA1 baseNS name

/-- Go `EventIDForTraffic`. -/
def EventIDForTraffic (u : uuid.SHA1) (requestID appInstanceID : String) : String :=
  let baseNS := u.NewSHA1 u.NameSpaceURL "camara-efn-api:event-id:traffic"
  let name := requestID ++ "\x00" ++ appInstanceID
  u.NewSHA1 baseNS name

/-- Decoding `e.DataAs(&GatherInfoData{})`. -/
def DataAsGatherInfoData (e : CloudEvent) : Except GoError GatherInfoData :=
  match e.Data with
  | none => .error ErrDataAs
  | some f => .ok
    { RequestID := f.requestId.getD "", ApplicationInstanceID := f.applicationInstanceId.getD "" }

end event

/-! ## internal/reciever/worker/handler.go: gather-info -/

namespace worker

open event

/-- The loop `for _, neInfo := range info.NE` of `handleGatherInfoRequested` that sends one
`NetworkElementEnergyRequested` event per network element; it stops at the first failure. -/
def sendNetworkElementEnergyEvents {σ : Type} (h : Handler σ) (u : uuid.SHA1)
    (jobID appInstanceID : String) (timePeriod : Option models.TimePeriod)
    (numberOfTotalNEs : Int) : List orchestrator.NEInfo → σ → Option GoError × σ
  | [], s => (none, s)
  | neInfo :: rest, s =>
    let eventId := EventIDForNE u jobID appInstanceID neInfo.InstanceID
    let neEnergyEventData := NewNetworkElementEnergyData jobID appInstanceID
      neInfo.InstanceID neInfo.InfraType timePeriod numberOfTotalNEs
    match h.events.Send eventId EventTypeNetworkElementEnergyRequested SourceEFNWorker
        (.networkElementEnergy neEnergyEventData) s with
    | (some err, s1) =>
      (some (.wrap
        "Failed to send cloud event to get network element energy consumption" err), s1)
    | (none, s1) =>
      sendNetworkElementEnergyEvents h u jobID appInstanceID timePeriod numberOfTotalNEs rest s1

/-- Go `Handler.handleGatherInfoRequested`. -/
def handleGatherInfoRequested {σ : Type} (h : Handler σ) (u : uuid.SHA1) (_ctx : Context)
    (e : CloudEvent) (s : σ) : Result σ :=
  match DataAsGatherInfoData e with
  | .error err => (.err (.wrap "Failed to parse event data" err), s)
  | .ok data =>
    let jobID := data.RequestID
    let appInstanceID := data.ApplicationInstanceID
    match h.database.GetJob jobID s with
    | (.error err, s1) => (.err (.wrap ("failed to read job " ++ jobID ++ " from DB") err), s1)
    | (.ok job, s1) =>
      match h.orchestrator.GatherInformation appInstanceID s1 with
      | (.error err, s2) =>
        (.err (.wrap ("Failed to gather application instance information with ID "
          ++ appInstanceID) err), s2)
      | (.ok info, s2) =>
        let eventId := EventIDForApp u jobID appInstanceID
        let numberOfTotalNEs : Int := (info.NE.length : Int)
        let eventData := NewAppConsumptionData jobID appInstanceID job.TimePeriod
          info.App.InfraType numberOfTotalNEs
        match h.events.Send eventId EventTypeAppConsumptionRequested SourceEFNWorker
            (.appConsumption eventData) s2 with
        | (some err, s3) =>
          (.err (.wrap "Failed to send cloud event to get app consumption" err), s3)
        | (none, s3) =>
          let networkElements : List NetworkElementInfo :=
            info.NE.map (fun neInfo =>
              { NEInstanceID := neInfo.InstanceID, VendorID := neInfo.VendorID,
                NetworkID := neInfo.NetworkID, NEInfraType := neInfo.InfraType })
          match sendNetworkElementEnergyEvents h u jobID appInstanceID job.TimePeriod
              numberOfTotalNEs info.NE s3 with
          | (some err, s4) => (.err err, s4)
          | (none, s4) =>
            let eventId := EventIDForTraffic u jobID appInstanceID
            let neTrafficEventData := NewNetworkElementTrafficData jobID appInstanceID
              info.App.IPList job.TimePeriod networkElements
            match h.events.Send eventId EventTypeNetworkElementTrafficRequested SourceEFNWorker
                (.networkElementTraffic neTrafficEventData) s4 with
            | (some err, s5) =>
              (.err (.wrap
                "Failed to send cloud event to get network element traffic volume" err), s5)
            | (none, s5) => (.ok none, s5)

end worker

/-! ## pkg/config, pkg/policy, pkg/server/error, api/models: what the API handler uses -/

namespace config

/-- Go struct `config.API`. -/
structure API where
  Address : String
  MaxTimePeriodDays : Int
  deriving DecidableEq

end config

namespace policy

/-- Go interface `policy.Interface`: `HasAccessToApplicationIDs(ctx, user, appIDs) error`. -/
structure Interface (σ : Type) where
  HasAccessToApplicationIDs : String → List String → σ → Option GoError × σ

end policy

/-- Go `err.Error()`: the message, a wrapped error behind its prefix as `"%s: %w"` prints. -/
def GoError.Error : GoError → String
  | .errorString msg => msg
  | .cloudObsThrottling msg => msg
  | .trafficThrottling msg => msg
  | .wrap msg inner => msg ++ ": " ++ inner.Error

namespace models

/-- Go struct `ReportCreationRequest`; an application instance id is its string form. -/
structure ReportCreationRequest where
  RequestId : Option String
  Service : List String
  SubscriptionRequest : SubscriptionRequest
  TimePeriod : Option TimePeriod
  deriving DecidableEq

/-- Modelled from the spec: `SubscriptionRequest.ValidateProtocol`, whose file is not part
of the sources; "`subscriptionRequest.protocol` must be `HTTP`; else 501". -/
def SubscriptionRequest.ValidateProtocol (r : SubscriptionRequest) : Option GoError :=
  if r.Protocol = ProtocolHTTP then none
  else some (.errorString ("protocol " ++ r.Protocol ++ " is not supported"))

/-- Modelled from the spec: `SinkCredential.Validate`, whose file is not part of the
sources; "if `sinkCredential` present, its `credentialType` must be `ACCESSTOKEN` with
`accessTokenType = bearer`; else 501". -/
def SinkCredential.Validate (cred : SinkCredential) : Option GoError :=
  if cred.CredentialType = CredentialTypeACCESSTOKEN
      ∧ cred.AccessTokenType = AccessTokenTypeBearer then none
  else some (.errorString "sink credential is not supported")

end models

namespace echo

/-- The JSON body of a response of the API. -/
inductive Body where
  | errorInfo (info : models.ErrorInfo)
  | report (req : models.ReportCreationRequest)
  deriving DecidableEq

/-- What `c.JSON(status, body)` writes. -/
structure Response where
  status : Int
  body : Body
  deriving DecidableEq

end echo

namespace servererr

/-- Go `capitalizeFirst`. `unicode.ToUpper` is taken on the ASCII letters a to z, which is
what the messages of the handlers start with; a first rune outside ASCII is left as it
is. -/
def capitalizeFirst (s : String) : String :=
  match s.toList with
  | [] => s
  | c :: cs => String.mk (c.toUpper :: cs)

/-- Go `SendFromStatusCode`. -/
def SendFromStatusCode (statusCode : Int) (detail : String) : echo.Response :=
  { status := statusCode,
    body := .errorInfo { Code := event.StatusText statusCode,
                         Message := capitalizeFirst detail, Status := statusCode } }

/-- Go `SendFromStatusCodeWithCode`. -/
def SendFromStatusCodeWithCode (statusCode : Int) (code detail : String) : echo.Response :=
  { status := statusCode,
    body := .errorInfo { Code := code, Message := capitalizeFirst detail,
                         Status := statusCode } }

/-- Go `statusCodeFromError`; `IsNotFound`, whose definition is not part of the sources,
is an argument. -/
def statusCodeFromError (IsNotFound : GoError → Bool) (err : GoError) : Int :=
  if IsNotFound err then 404 else 500

/-- Go `Send`. -/
def Send (IsNotFound : GoError → Bool) (err : GoError) : echo.Response :=
  let detail := err.Error
  let statusCode := statusCodeFromError IsNotFound err
  { status := statusCode,
    body := .errorInfo { Code := event.StatusText statusCode, Message := detail,
                         Status := statusCode } }

end servererr

/-! ## internal/api/handler.go

Instants and durations are counted in nanoseconds, durations in int64 as `time.Duration`. -/

namespace time

/-- Constant `time.Hour` in nanoseconds. -/
def Hour : Int := 3600000000000

/-- The value of an int64 computation: the result modulo `2^64` in `[-2^63, 2^63)`. -/
def wrapInt64 (x : Int) : Int := (x + 2 ^ 63) % 2 ^ 64 - 2 ^ 63

end time

namespace api

open event

/-- Go struct `api.handler`. -/
structure handler (σ : Type) where
  database : database.Interface σ
  events : event.Sender σ
  pdp : policy.Interface σ
  config : config.API

/-- What one call of `handleReportCalculation` takes from its surroundings: the fresh
`uuid.New().String()`, the result of `request.Bind`, `time.Now()`, the subject
`middleware.CtxSub(ctx)`, and `servererr.IsNotFound`. -/
structure Call where
  requestID : String
  bound : Except GoError models.ReportCreationRequest
  now : Int
  sub : String
  IsNotFound : GoError → Bool

/-- The expression `time.Duration(h.config.MaxTimePeriodDays) * 24 * time.Hour`. -/
def maxDuration (cfg : config.API) : Int :=
  time.wrapInt64 (time.wrapInt64 (cfg.MaxTimePeriodDays * 24) * time.Hour)

/-- The expression `now.Add(-maxDuration)`. -/
def oldestAllowedDate (cfg : config.API) (now : Int) : Int :=
  now + time.wrapInt64 (-(maxDuration cfg))

/-- Go `getExpectedEventType`. -/
def getExpectedEventType (kind : String) : String :=
  if kind = RequestKindEnergyConsumption then
    "org.camaraproject.energy-footprint-notification.v1.energy"
  else if kind = RequestKindCarbonFootprint then
    "org.camaraproject.energy-footprint-notification.v1.carbon-footprint"
  else ""

/-- Go `newJob`. -/
def newJob (req : models.ReportCreationRequest) (kind : String) : Job :=
  { RequestId := req.RequestId, RequestKind := kind, Service := req.Service,
    SubscriptionRequest := req.SubscriptionRequest, TimePeriod := req.TimePeriod,
    CalculationTriggered := false, NotificationSent := false }

/-- The `GatherInfoRequested` event of one application instance. -/
def gatherInfoEvent (u : uuid.SHA1) (requestID appInstanceID : String) : event.Event :=
  { ID := EventIDForApp u requestID appInstanceID, EventType := EventTypeGatherInfoRequested,
    Source := SourceEFNAPI, Data := .gatherInfo (NewGatherInfoData requestID appInstanceID) }

/-- The loop `for _, appInstanceID := range appIds` of `handleReportCalculation`: true when
every send succeeded, false at the first send that failed. -/
def sendGatherInfoEvents {σ : Type} (h : handler σ) (u : uuid.SHA1) (requestID : String) :
    List String → σ → Bool × σ
  | [], s => (true, s)
  | appInstanceID :: rest, s =>
    let eventId := EventIDForApp u requestID appInstanceID
    match h.events.Send eventId EventTypeGatherInfoRequested SourceEFNAPI
        (.gatherInfo (NewGatherInfoData requestID appInstanceID)) s with
    | (some _, s1) => (false, s1)
    | (none, s1) => sendGatherInfoEvents h u requestID rest s1

/-- The request after `req.TimePeriod` got its default. -/
def withTimePeriod (cfg : config.API) (now : Int) (req : models.ReportCreationRequest) :
    models.TimePeriod :=
  match req.TimePeriod with
  | none => { StartDate := oldestAllowedDate cfg now, EndDate := some now }
  | some tp => tp

/-- The part of `handleReportCalculation` after the validations: authorization, job
creation and the events. -/
def commit {σ : Type} (h : handler σ) (u : uuid.SHA1) (call : Call) (kind : String)
    (req : models.ReportCreationRequest) (s : σ) : echo.Response × σ :=
  let appIds := req.Service
  match h.pdp.HasAccessToApplicationIDs call.sub appIds s with
  | (some err, s1) => (servererr.SendFromStatusCode 401 err.Error, s1)
  | (none, s1) =>
    let req1 : models.ReportCreationRequest := { req with RequestId := some call.requestID }
    match h.database.CreateJob (newJob req1 kind) s1 with
    | (some err, s2) => (servererr.Send call.IsNotFound err, s2)
    | (none, s2) =>
      match sendGatherInfoEvents h u call.requestID appIds s2 with
      | (false, s3) => (servererr.SendFromStatusCode 500 "failed to send event", s3)
      | (true, s3) => ({ status := 201, body := .report req1 }, s3)

/-- Go `handler.handleReportCalculation`. -/
def handleReportCalculation {σ : Type} (h : handler σ) (u : uuid.SHA1) (call : Call)
    (kind : String) (s : σ) : echo.Response × σ :=
  match call.bound with
  | .error _ => (servererr.SendFromStatusCode 400 "failed to validate request body", s)
  | .ok req0 =>
    let now := call.now
    let oldestAllowedDate := oldestAllowedDate h.config now
    if req0.Service.length = 0 then
      (servererr.SendFromStatusCode 400
        "service array must contain at least one application instance", s)
    else
      let timePeriod := withTimePeriod h.config now req0
      let req : models.ReportCreationRequest := { req0 with TimePeriod := some timePeriod }
      let endNotAfterStart : Bool :=
        match timePeriod.EndDate with
        | none => false
        | some endDate => !decide (timePeriod.StartDate < endDate)
      if endNotAfterStart then
        (servererr.SendFromStatusCode 400 "endDate must be after startDate in timePeriod", s)
      else
        let typeMismatch : Option String :=
          match req.SubscriptionRequest.Types with
          | [] => none
          | actualType :: _ =>
            if actualType ≠ getExpectedEventType kind then
              some ("subscription event type '" ++ actualType
                ++ "' does not match endpoint (expected '" ++ getExpectedEventType kind ++ "')")
            else none
        match typeMismatch with
        | some msg => (servererr.SendFromStatusCode 400 msg, s)
        | none =>
          if now < timePeriod.StartDate then
            (servererr.SendFromStatusCodeWithCode 400 "OUT_OF_RANGE"
              "startDate cannot be in the future", s)
          else if (match timePeriod.EndDate with
              | none => false
              | some endDate => decide (now < endDate)) then
            (servererr.SendFromStatusCodeWithCode 400 "OUT_OF_RANGE"
              "endDate cannot be in the future", s)
          else if timePeriod.StartDate < oldestAllowedDate then
            (servererr.SendFromStatusCodeWithCode 400 "OUT_OF_RANGE"
              ("startDate cannot be older than " ++ toString h.config.MaxTimePeriodDays
                ++ " days"), s)
          else if (match timePeriod.EndDate with
              | none => false
              | some endDate => decide (endDate < oldestAllowedDate)) then
            (servererr.SendFromStatusCodeWithCode 400 "OUT_OF_RANGE"
              ("endDate cannot be older than " ++ toString h.config.MaxTimePeriodDays
                ++ " days"), s)
          else
            match req.SubscriptionRequest.ValidateProtocol with
            | some err => (servererr.SendFromStatusCode 501 err.Error, s)
            | none =>
              let credentialError : Option GoError :=
                match req.SubscriptionRequest.SinkCredential with
                | none => none
                | some cred => cred.Validate
              match credentialError with
              | some err => (servererr.SendFromStatusCode 501 err.Error, s)
              | none => commit h u call kind req s

end api

/-! ## Doubles and store model for the gather-info handler and the API -/

namespace mock

/-- The double for `policy.Interface`: it records the call and answers as configured. -/
def mockPolicy (access : Option GoError) : policy.Interface Recorder where
  HasAccessToApplicationIDs := fun _ _ s => (access, s.called "HasAccessToApplicationIDs")

/-- An API handler wired to the doubles. -/
def apiHandler (r : Returns) (access : Option GoError) (cfg : config.API) :
    api.handler Recorder where
  database := mockDatabase r
  events := mockSender r
  pdp := mockPolicy access
  config := cfg

end mock

namespace World

/-- An event sender towards a broker that accepts some events and refuses the others:
`Send` of a refused event returns an error and delivers nothing. -/
def senderWith (accepts : event.Event → Bool) : event.Sender World where
  Send := fun id eventType source data w =>
    if accepts { ID := id, EventType := eventType, Source := source, Data := data } then
      (none, { w with sent := w.sent ++
        [{ ID := id, EventType := eventType, Source := source, Data := data }] })
    else (some (.errorString "failed to send event"), w)

/-- The API handler over the world, with the answer of the policy decision point. -/
def api (cfg : config.API) (access : Option GoError) (accepts : event.Event → Bool) :
    api.handler World where
  database := World.database
  events := senderWith accepts
  pdp := { HasAccessToApplicationIDs := fun _ _ w => (access, w) }
  config := cfg

end World

namespace spec

/-- The namespace `nsApp` of §4.3: the UUIDv5 of the URL namespace and the label of the
application-scoped event ids. -/
def nsApp (u : uuid.SHA1) : String := u.NewSHA1 u.NameSpaceURL "camara-efn-api:event-id"

/-- The namespace `nsNE` of §4.3, for the ids of the per-network-element events. -/
def nsNE (u : uuid.SHA1) : String := u.NewSHA1 u.NameSpaceURL "camara-efn-api:event-id:ne"

/-- The namespace `nsTraffic` of §4.3, for the ids of the traffic events. -/
def nsTraffic (u : uuid.SHA1) : String :=
  u.NewSHA1 u.NameSpaceURL "camara-efn-api:event-id:traffic"

/-- The id `UUIDv5(ns, a ‖ 0x00 ‖ b)` of §4.3. -/
def UUIDv5Pair (u : uuid.SHA1) (ns a b : String) : String :=
  u.NewSHA1 ns (a ++ "\x00" ++ b)

/-- The id `UUIDv5(ns, a ‖ 0x00 ‖ b ‖ 0x00 ‖ c)` of §4.3. -/
def UUIDv5Triple (u : uuid.SHA1) (ns a b c : String) : String :=
  u.NewSHA1 ns (a ++ "\x00" ++ b ++ "\x00" ++ c)

/-- The follow-on events of gather-info (§4.3 step 3) for an application instance whose
orchestrator answer is `info`: one `AppConsumptionRequested` with id
`UUIDv5(nsApp, requestId ‖ 0x00 ‖ appId)`, one `NetworkElementEnergyRequested` per network
element with id `UUIDv5(nsNE, requestId ‖ 0x00 ‖ appId ‖ 0x00 ‖ neInstanceId)`, one
`NetworkElementTrafficRequested` with id `UUIDv5(nsTraffic, requestId ‖ 0x00 ‖ appId)`
listing all network elements in orchestrator order. -/
def gatherInfoFollowOns (u : uuid.SHA1) (requestID appID : String)
    (timePeriod : Option models.TimePeriod) (info : orchestrator.Information) :
    List event.Event :=
  [{ ID := UUIDv5Pair u (nsApp u) requestID appID,
     EventType := event.EventTypeAppConsumptionRequested, Source := event.SourceEFNWorker,
     Data := .appConsumption
       { RequestID := requestID, ApplicationInstanceID := appID, TimePeriod := timePeriod,
         AppInfraType := info.App.InfraType, NumberOfTotalNEs := (info.NE.length : Int) } }]
  ++ info.NE.map (fun ne =>
    { ID := UUIDv5Triple u (nsNE u) requestID appID ne.InstanceID,
      EventType := event.EventTypeNetworkElementEnergyRequested,
      Source := event.SourceEFNWorker,
      Data := .networkElementEnergy
        { RequestID := requestID, ApplicationInstanceID := appID,
          NEInstanceID := ne.InstanceID, NEInfraType := ne.InfraType,
          TimePeriod := timePeriod, NumberOfTotalNEs := (info.NE.length : Int) } })
  ++ [{ ID := UUIDv5Pair u (nsTraffic u) requestID appID,
        EventType := event.EventTypeNetworkElementTrafficRequested,
        Source := event.SourceEFNWorker,
        Data := .networkElementTraffic
          { RequestID := requestID, ApplicationInstanceID := appID,
            AppInstanceIPList := info.App.IPList, TimePeriod := timePeriod,
            NetworkElements := info.NE.map (fun ne =>
              { NEInstanceID := ne.InstanceID, VendorID := ne.VendorID,
                NetworkID := ne.NetworkID, NEInfraType := ne.InfraType }) } }]

/-- The error notification of §4.4 for a permanent upstream failure:
`NotificationErrorRequested(requestId, status = 500, ...)`, event id = request id. -/
def errorNotification (requestID message : String) : event.Event :=
  { ID := requestID, EventType := event.EventTypeNotificationErrorRequested,
    Source := event.SourceEFNWorker,
    Data := .notificationErrorRequested
      { RequestID := requestID,
        ErrorInfo := { Code := "Internal Server Error", Message := message, Status := 500 } } }

/-- The validations 1 to 8 of §4.1 on a bound request, with the time period after its
default (validation 2). -/
def validationPasses (cfg : config.API) (kind : String) (now : Int)
    (req : models.ReportCreationRequest) : Prop :=
  req.Service ≠ [] ∧
  (∀ endDate, (api.withTimePeriod cfg now req).EndDate = some endDate →
    (api.withTimePeriod cfg now req).StartDate < endDate ∧ endDate ≤ now ∧
    api.oldestAllowedDate cfg now ≤ endDate) ∧
  (api.withTimePeriod cfg now req).StartDate ≤ now ∧
  api.oldestAllowedDate cfg now ≤ (api.withTimePeriod cfg now req).StartDate ∧
  (∀ actualType rest, req.SubscriptionRequest.Types = actualType :: rest →
    actualType = api.getExpectedEventType kind) ∧
  req.SubscriptionRequest.Protocol = models.ProtocolHTTP ∧
  (∀ cred, req.SubscriptionRequest.SinkCredential = some cred →
    cred.CredentialType = models.CredentialTypeACCESSTOKEN ∧
    cred.AccessTokenType = models.AccessTokenTypeBearer)

end spec

namespace fixtures

/-- A stand-in for the UUID library: any function of namespace and name will do. -/
def uuid : uuid.SHA1 :=
  { NameSpaceURL := "6ba7b811-9dad-11d1-80b4-00c04fd430c8",
    NewSHA1 := fun space data => space ++ "/" ++ data }

/-- The orchestrator answer of scenario S1: two network elements. -/
def information : orchestrator.Information :=
  { App := { IPList := ["10.0.0.1"], InfraType := "sylva" },
    NE := [{ InstanceID := "ne1", NetworkID := "n1", VendorID := "v1", InfraType := "upf" },
           { InstanceID := "ne2", NetworkID := "n1", VendorID := "v2", InfraType := "gnb" }] }

/-- The API configuration with the default of 730 days. -/
def apiConfig : config.API := { Address := "0.0.0.0:8080", MaxTimePeriodDays := 730 }

/-- One day in nanoseconds. -/
def day : Int := 24 * time.Hour

/-- The request of scenario S1, with the period from day 1000 to day 1001. -/
def request (service : List String) (startDate : Int) (endDate : Option Int)
    (types : List String) : models.ReportCreationRequest :=
  { RequestId := none, Service := service,
    SubscriptionRequest := { subscription with Types := types },
    TimePeriod := some { StartDate := startDate, EndDate := endDate } }

/-- A call of the API at day 1002 with the given bound request and the fresh id `job1`. -/
def call (req : models.ReportCreationRequest) : api.Call :=
  { requestID := "job1", bound := .ok req, now := 1002 * day, sub := "alice",
    IsNotFound := fun _ => false }

/-- A world with an empty store. -/
def emptyWorld : World :=
  { db := { jobs := fun _ => none, jobApps := [] }, sent := [], posts := [], now := 0 }

end fixtures

namespace trafficvolume

/-- Go `ErrPermanentFailure`. -/
def ErrPermanentFailure : GoError := .errorString "permanent failure"

end trafficvolume

namespace fixtures

/-- Doubles whose observability client fails with the given error. -/
def returnsEnergyError (err : GoError) : mock.Returns :=
  { returns (job ["app1"]) [] true with RetrieveEnergy := .error err }

/-- Doubles whose traffic-volume client fails with the given error. -/
def returnsTrafficError (err : GoError) : mock.Returns :=
  { returns (job ["app1"]) [] true with RetrieveTrafficVolumes := .error err }

/-- Doubles for gather-info: the job exists and the orchestrator knows two network
elements. -/
def returnsGatherInfo : mock.Returns :=
  { returns (job ["app1"]) [] true with GatherInformation := .ok information }

end fixtures

namespace fixtures

/-- The request of scenario S1 for two application instances on the energy endpoint. -/
def validRequest : models.ReportCreationRequest :=
  request ["app1", "app2"] (1000 * day) (some (1001 * day)) [models.EventTypeNotificationEnergy]

/-- A broker that refuses the `GatherInfoRequested` event of `app1` and accepts every other
event. -/
def refusesApp1 (e : event.Event) : Bool :=
  e.ID != event.EventIDForApp uuid "job1" "app1"

end fixtures

namespace fixtures

/-- The world of scenario S1 with the subscription of `job1` replaced. -/
def worldWith (sub : models.SubscriptionRequest) : World :=
  { db := { jobs := fun id =>
              if id = "job1" then some { job ["app1"] with SubscriptionRequest := sub } else none,
            jobApps := [] },
    sent := [], posts := [], now := 0 }

/-- The subscription of scenario S5: it expired at time 5. -/
def expiredSubscription : models.SubscriptionRequest :=
  { subscription with SubscriptionExpireTime := some 5 }

/-- A subscription without a sink. -/
def sinklessSubscription : models.SubscriptionRequest :=
  { subscription with Sink := "" }

end fixtures

/-! ## internal/database: the store calls as one sequence -/

namespace database

/-- A call of one of the methods of `database.Interface`, with its arguments. -/
inductive StoreCall where
  | CreateJob (r : Job)
  | GetJob (id : String)
  | SetJobStatus (jobID status : String)
  | CreateOrUpdateNetworkElementResult (creationMetadata : JobAppResultMetadata)
      (neInstanceID : String) (neResult : NetworkElementResult)
  | SetNetworkElementEnergy (creationMetadata : JobAppResultMetadata)
      (neInstanceID : String) (energyConsumption : ℚ)
  | SetNetworkElementTraffic (creationMetadata : JobAppResultMetadata)
      (neInstanceID : String) (appInstanceTraffic totalTraffic : ℚ)
  | CreateOrUpdateApplicationResult (creationMetadata : JobAppResultMetadata)
      (appInstanceConsumption : ℚ)
  | GetJobAppResult (jobID appID : String)
  | GetAllJobAppResults (jobID : String)
  | TrySetCalculationTriggered (jobID : String)
  | TrySetNotificationSent (jobID : String)
  deriving DecidableEq

/-- The store after one call, as one atomic step. -/
def StoreCall.run (c : StoreCall) (m : mongoDB) : mongoDB :=
  match c with
  | .CreateJob r => (mongoDB.CreateJob r m).2
  | .GetJob id => (mongoDB.GetJob id m).2
  | .SetJobStatus jobID status => (mongoDB.SetJobStatus jobID status m).2
  | .CreateOrUpdateNetworkElementResult md ne r =>
    (mongoDB.CreateOrUpdateNetworkElementResult md ne r m).2
  | .SetNetworkElementEnergy md ne v => (mongoDB.SetNetworkElementEnergy md ne v m).2
  | .SetNetworkElementTraffic md ne a t => (mongoDB.SetNetworkElementTraffic md ne a t m).2
  | .CreateOrUpdateApplicationResult md v =>
    (mongoDB.CreateOrUpdateApplicationResult md v m).2
  | .GetJobAppResult jobID appID => (mongoDB.GetJobAppResult jobID appID m).2
  | .GetAllJobAppResults jobID => (mongoDB.GetAllJobAppResults jobID m).2
  | .TrySetCalculationTriggered jobID => (mongoDB.TrySetCalculationTriggered jobID m).2
  | .TrySetNotificationSent jobID => (mongoDB.TrySetNotificationSent jobID m).2

/-- The store after a sequence of calls, in the order the store serves them, whatever
handler each comes from. -/
def runStoreCalls : List StoreCall → mongoDB → mongoDB
  | [], m => m
  | c :: rest, m => runStoreCalls rest (c.run m)

end database

/-! ## Standard library: net/url, strings, net/http -/

namespace url

/-- What `isInternalClusterService` can read of a parsed `*url.URL`: the results of
`u.Hostname()` and `u.Port()`, and the fields `Scheme`, `User` and `Path`. -/
structure URL where
  Scheme : String
  User : Option String
  Hostname : String
  Port : String
  Path : String
  deriving DecidableEq

end url

/-- The standard-library behaviour the sink classification depends on and that is taken
as given: `url.Parse`, and the Unicode tables of `unicode.ToLower` for runes outside
ASCII. -/
structure Stdlib where
  urlParse : String → Except GoError url.URL
  unicodeToLower : Char → Char

namespace strings

/-- Go `strings.HasSuffix`. -/
def HasSuffix (s suffix : String) : Bool := decide (suffix.data <:+ s.data)

/-- Go `strings.Contains`. -/
def Contains (s substr : String) : Bool := decide (substr.data <:+: s.data)

/-- Go `unicode.ToLower` on one rune: ASCII letters by offset, other runes by the tables. -/
def toLowerRune (unicodeToLower : Char → Char) (r : Char) : Char :=
  if r.val < 128 then r.toLower else unicodeToLower r

/-- Go `strings.ToLower`. -/
def ToLower (unicodeToLower : Char → Char) (s : String) : String :=
  String.mk (s.data.map (toLowerRune unicodeToLower))

/-- Upper-casing of the ASCII letters of a string, every other rune kept. -/
def asciiUpper (s : String) : String := String.mk (s.data.map Char.toUpper)

end strings

namespace time

/-- Go `time.Second`, in nanoseconds. -/
def Second : Int := 1000000000

/-- Go `time.Millisecond`, in nanoseconds. -/
def Millisecond : Int := 1000000

end time

namespace tls

/-- Go struct `tls.Config`, with the field the handler sets. -/
structure Config where
  InsecureSkipVerify : Bool
  deriving DecidableEq

end tls

namespace http

/-- Go struct `http.Transport`, with the field the handler sets. -/
structure Transport where
  TLSClientConfig : tls.Config
  deriving DecidableEq

/-- Go struct `http.Client`; `Transport = none` is the nil transport, for which the client
uses `http.DefaultTransport` with the system trust store and full verification. -/
structure Client where
  Timeout : Int
  Transport : Option Transport
  deriving DecidableEq

end http

/-! ## internal/reciever/notification/handler.go: the HTTP client of a sink -/

namespace notification

/-- Go `isInternalClusterService`. -/
def isInternalClusterService (lib : Stdlib) (sinkURL : String) : Bool :=
  match lib.urlParse sinkURL with
  | .error _ => false
  | .ok u =>
    let hostname := strings.ToLower lib.unicodeToLower u.Hostname
    strings.HasSuffix hostname ".svc.cluster.local" ||
      strings.HasSuffix hostname ".svc" ||
      strings.Contains hostname ".svc."

/-- Go `Handler.getHTTPClient`. -/
def getHTTPClient {σ : Type} (h : Handler σ) (lib : Stdlib) (sinkURL : String) : http.Client :=
  if isInternalClusterService lib sinkURL then
    { Timeout := 30 * time.Second,
      Transport := some { TLSClientConfig := { InsecureSkipVerify := h.config.InsecureSkipVerify } } }
  else
    { Timeout := 30 * time.Second, Transport := none }

end notification

/-! ## The dead-letter path of the worker -/

namespace event

/-- The JSON object that `json.Marshal` makes of a payload, by the `json` tags of
`data.go`; `none` when marshalling fails, which it does on an infinity or NaN. An empty
struct and a nil payload give the object without keys. -/
def Payload.fields : Payload → Option Fields
  | .gatherInfo d =>
    some { requestId := some d.RequestID, applicationInstanceId := some d.ApplicationInstanceID,
           timePeriod := none, appInfraType := none, numberOfTotalNEs := none,
           neInstanceId := none, neInfraType := none, appInstanceIpList := none,
           networkElements := none, result := none, status := none, code := none,
           message := none }
  | .appConsumption d =>
    some { requestId := some d.RequestID, applicationInstanceId := some d.ApplicationInstanceID,
           timePeriod := d.TimePeriod, appInfraType := some d.AppInfraType,
           numberOfTotalNEs := some d.NumberOfTotalNEs,
           neInstanceId := none, neInfraType := none, appInstanceIpList := none,
           networkElements := none, result := none, status := none, code := none,
           message := none }
  | .networkElementEnergy d =>
    some { requestId := some d.RequestID, applicationInstanceId := some d.ApplicationInstanceID,
           timePeriod := d.TimePeriod, appInfraType := none,
           numberOfTotalNEs := some d.NumberOfTotalNEs,
           neInstanceId := some d.NEInstanceID, neInfraType := some d.NEInfraType,
           appInstanceIpList := none, networkElements := none, result := none,
           status := none, code := none, message := none }
  | .networkElementTraffic d =>
    some { requestId := some d.RequestID, applicationInstanceId := some d.ApplicationInstanceID,
           timePeriod := d.TimePeriod, appInfraType := none, numberOfTotalNEs := none,
           neInstanceId := none, neInfraType := none,
           appInstanceIpList := some d.AppInstanceIPList,
           networkElements := some d.NetworkElements, result := none, status := none,
           code := none, message := none }
  | .calculationRequested _ =>
    some { requestId := none, applicationInstanceId := none, timePeriod := none,
           appInfraType := none, numberOfTotalNEs := none, neInstanceId := none,
           neInfraType := none, appInstanceIpList := none, networkElements := none,
           result := none, status := none, code := none, message := none }
  | .notificationRequested d =>
    match d.Result with
    | .nonFinite => none
    | .fin q =>
      some { requestId := some d.RequestID, applicationInstanceId := none, timePeriod := none,
             appInfraType := none, numberOfTotalNEs := none, neInstanceId := none,
             neInfraType := none, appInstanceIpList := none, networkElements := none,
             result := some q, status := none, code := none, message := none }
  | .notificationErrorRequested d =>
    some { requestId := some d.RequestID, applicationInstanceId := none, timePeriod := none,
           appInfraType := none, numberOfTotalNEs := none, neInstanceId := none,
           neInfraType := none, appInstanceIpList := none, networkElements := none,
           result := none, status := some d.ErrorInfo.Status, code := some d.ErrorInfo.Code,
           message := some d.ErrorInfo.Message }
  | .nil =>
    some { requestId := none, applicationInstanceId := none, timePeriod := none,
           appInfraType := none, numberOfTotalNEs := none, neInstanceId := none,
           neInfraType := none, appInstanceIpList := none, networkElements := none,
           result := none, status := none, code := none, message := none }

/-- Modelled from the spec: "the bus is the only cross-service channel", so a consumer
receives the event a service emitted with its id, type, source and marshalled data; the
sender and the broker are not part of the sources. -/
def Event.delivered (e : Event) : CloudEvent :=
  { ID := e.ID, EventType := e.EventType, Source := e.Source, Data := e.Data.fields,
    Extensions := [] }

/-- Decoding `e.DataAs(&struct{ RequestID string })` in `HandleDLQEvent`. -/
def DataAsRequestID (e : CloudEvent) : Except GoError String :=
  match e.Data with
  | none => .error ErrDataAs
  | some f => .ok (f.requestId.getD "")

end event

namespace worker

open event

/-- Go `Handler.HandleDLQEvent`. -/
def HandleDLQEvent {σ : Type} (h : Handler σ) (_ctx : Context) (e : CloudEvent) (s : σ) :
    Result σ :=
  match DataAsRequestID e with
  | .error err => (.err err, s)
  | .ok requestID =>
    let notificationData := NewNotificationErrorRequestedData requestID 500
      "Event processing failed after multiple retries"
    match h.events.Send requestID EventTypeNotificationErrorRequested SourceEFNWorker
        (.notificationErrorRequested notificationData) s with
    | (some err, s1) => (.err err, s1)
    | (none, s1) => (.ok none, s1)

end worker

/-! ## cmd/worker/main.go: the dead-letter ingress -/

namespace cmd.worker

/-- An HTTP request to the worker as its two event ingresses read it: the path, and what
`binding.ToEvent` makes of the message. -/
structure Request where
  Path : String
  ToEvent : Except GoError event.CloudEvent

/-- The handler registered at `/dlq` in `main`: the status code of the response. -/
def dlq {σ : Type} (handler : worker.Handler σ) (ctx : Context) (r : Request) (s : σ) :
    Int × σ :=
  match r.ToEvent with
  | .error _ => (400, s)
  | .ok evt =>
    let out := worker.HandleDLQEvent handler ctx evt s
    (202, out.2)

end cmd.worker

/-! ## pkg/trafficvolume/configurable.go, pkg/cloudobservability/configurable.go -/

/-- Whether `ctx.Done()` is ready before a timer of the given duration fires: the context
is cancelled already, or its `deadline`, read as the time left at the call, is shorter than
the timer. -/
def Context.doneBefore (ctx : Context) (delay : Int) : Bool :=
  ctx.cancelled ||
    match ctx.deadline with
    | some left => decide (left < delay)
    | none => false

/-- Go `ctx.Err()` of a context that is done: `context.Canceled` or
`context.DeadlineExceeded`. -/
def Context.Err (ctx : Context) : GoError :=
  if ctx.cancelled then .errorString "context canceled"
  else .errorString "context deadline exceeded"

namespace trafficvolume

/-- Go `NewThrottlingError`. -/
def NewThrottlingError (msg : String) : GoError := .trafficThrottling msg

/-- Go struct `configurableClient`, without its mutex; the volumes are finite values. -/
structure configurableClient where
  ipVolume : ℚ
  allVolume : ℚ
  successCount : Int
  errorCount : Int
  errorType : String
  delay : Int
  requestCount : Int
  deriving DecidableEq

namespace configurableClient

/-- Go `configurableClient.makeError`. -/
def makeError (c : configurableClient) : GoError :=
  if c.errorType = "throttling" then
    NewThrottlingError
      ("configurable throttling error (request #" ++ toString c.requestCount ++ ")")
  else
    .errorString ("configurable permanent error (request #" ++ toString c.requestCount ++ ")")

/-- Go `configurableClient.shouldReturnError`; `requestCount++` is on a 64-bit `int`. -/
def shouldReturnError (c : configurableClient) : (Bool × Option GoError) × configurableClient :=
  let c1 := { c with requestCount := time.wrapInt64 (c.requestCount + 1) }
  if c1.successCount = 0 ∧ c1.errorCount > 0 then ((true, some c1.makeError), c1)
  else ((false, none), c1)

/-- Go `configurableClient.RetrieveTrafficVolumes`, with the pair `(list, error)` it
returns. -/
def RetrieveTrafficVolumes (c : configurableClient) (ctx : Context)
    (_appInstanceIPList : List String) (networkElements : List NetworkElement)
    (_timePeriod : Option models.TimePeriod) :
    (Option (List TrafficVolumeMeasure) × Option GoError) × configurableClient :=
  if c.delay > 0 ∧ ctx.doneBefore c.delay = true then ((none, some ctx.Err), c)
  else
    match c.shouldReturnError with
    | ((true, err), c1) => ((none, err), c1)
    | ((false, _), c1) =>
      let measures := networkElements.map (fun ne =>
        { NetworkElement := { VendorIdentifier := ne.VendorIdentifier,
                              NEIdentifier := ne.NEIdentifier },
          TrafficVolumeIP := c1.ipVolume, TrafficVolumeAll := c1.allVolume })
      ((some measures, none), c1)

end configurableClient

end trafficvolume

namespace cloudobservability

/-- Modelled from the spec: `cloudobservability.NewThrottlingError`, whose file is not part
of the sources; the error that `IsThrottlingError` classifies as `throttling`, written like
its sibling `trafficvolume.NewThrottlingError`. -/
def NewThrottlingError (msg : String) : GoError := .cloudObsThrottling msg

/-- Go struct `configurableClient`, without its mutex; the values are finite. -/
structure configurableClient where
  appValue : ℚ
  neValue : ℚ
  successCount : Int
  errorCount : Int
  errorType : String
  delay : Int
  requestCount : Int
  deriving DecidableEq

namespace configurableClient

/-- Go `configurableClient.makeError`. -/
def makeError (c : configurableClient) : GoError :=
  if c.errorType = "throttling" then
    NewThrottlingError
      ("configurable throttling error (request #" ++ toString c.requestCount ++ ")")
  else
    .errorString ("configurable permanent error (request #" ++ toString c.requestCount ++ ")")

/-- Go `configurableClient.shouldReturnError`; `requestCount++` is on a 64-bit `int`. -/
def shouldReturnError (c : configurableClient) : (Bool × Option GoError) × configurableClient :=
  let c1 := { c with requestCount := time.wrapInt64 (c.requestCount + 1) }
  if c1.successCount = 0 ∧ c1.errorCount > 0 then ((true, some c1.makeError), c1)
  else ((false, none), c1)

/-- Go `configurableClient.RetrieveAppEnergyConsumption`, with the pair `(*float64, error)`
it returns. -/
def RetrieveAppEnergyConsumption (c : configurableClient) (ctx : Context)
    (_appInstanceID : String) (_timePeriod : Option models.TimePeriod)
    (_appInfraType : String) : (Option ℚ × Option GoError) × configurableClient :=
  if c.delay > 0 ∧ ctx.doneBefore c.delay = true then ((none, some ctx.Err), c)
  else
    match c.shouldReturnError with
    | ((true, err), c1) => ((none, err), c1)
    | ((false, _), c1) => ((some c1.appValue, none), c1)

/-- Go `configurableClient.RetrieveNetworkElementEnergyConsumption`. -/
def RetrieveNetworkElementEnergyConsumption (c : configurableClient) (ctx : Context)
    (_appInstanceID : String) (_timePeriod : Option models.TimePeriod)
    (_neInfraType : String) : (Option ℚ × Option GoError) × configurableClient :=
  if c.delay > 0 ∧ ctx.doneBefore c.delay = true then ((none, some ctx.Err), c)
  else
    match c.shouldReturnError with
    | ((true, err), c1) => ((none, err), c1)
    | ((false, _), c1) => ((some c1.neValue, none), c1)

end configurableClient

end cloudobservability

/-! ## Doubles and inputs for the dead-letter path, the sink client and the stub clients -/

namespace mock

/-- A Notify handler wired to the store double. -/
def notify (r : Returns) (cfg : config.HTTP) : notification.Handler Recorder :=
  { db := mockDatabase r, config := cfg }

end mock

namespace fixtures

/-- A parser that knows one sink, an in-cluster service written in mixed case with
userinfo, port and path. -/
def stdlib : Stdlib :=
  { urlParse := fun s =>
      if s = "https://user@Notify.Sinks.SVC:8443/callback" then
        .ok { Scheme := "https", User := some "user", Hostname := "Notify.Sinks.SVC",
              Port := "8443", Path := "/callback" }
      else .error (.errorString "parse error"),
    unicodeToLower := fun r => r }

/-- The stub client of `TestConfigurableClient_DelayContextCancellation`: no errors
configured, a delay of 300 ms. -/
def delayedClient : trafficvolume.configurableClient :=
  { ipVolume := 100, allVolume := 1000, successCount := 0, errorCount := 0,
    errorType := "", delay := 300 * time.Millisecond, requestCount := 0 }

/-- A stub client configured to fail with throttling errors. -/
def failingClient : trafficvolume.configurableClient :=
  { ipVolume := 100, allVolume := 1000, successCount := 0, errorCount := 5,
    errorType := "throttling", delay := 0, requestCount := 0 }

/-- The context of `TestConfigurableClient_DelayContextCancellation`: a timeout of 50 ms. -/
def timeoutCtx : Context := { cancelled := false, deadline := some (50 * time.Millisecond) }

end fixtures

/-! # Lemmas and theorems -/

/-! ## Calculator: auxiliary lemmas -/

namespace calculator

open spec

theorem Float64_add_nonFinite (x : Float64) : x.add .nonFinite = .nonFinite := by
  cases x <;> rfl

theorem Float64_nonFinite_add (x : Float64) : Float64.add .nonFinite x = .nonFinite := by
  cases x <;> rfl

theorem Float64_mul_nonFinite (x : Float64) : x.mul .nonFinite = .nonFinite := by
  cases x <;> rfl

theorem Float64_add_fin_zero (acc : Float64) : acc.add (.fin 0) = acc := by
  cases acc <;> simp [Float64.add]

theorem Float64_add_add_fin (acc : Float64) (a b : ℚ) :
    (acc.add (.fin a)).add (.fin b) = acc.add (.fin (a + b)) := by
  cases acc <;> simp [Float64.add, add_assoc]

theorem networkElementsLoop_present (nes : List (String × NetworkElementResult)) :
    ∀ acc : Float64, (nes.all (fun ne => neFieldsPresent ne.2) = true) →
      networkElementsLoop acc nes = .ok (nesValue acc nes) := by
  induction nes with
  | nil => intro acc _; simp [networkElementsLoop, nesValue, Float64_add_fin_zero]
  | cons hd tl ih =>
    intro acc h
    obtain ⟨k, ne⟩ := hd
    simp only [List.all_cons, Bool.and_eq_true] at h
    obtain ⟨hp, htl⟩ := h
    obtain ⟨e, a, t⟩ := ne
    simp only [neFieldsPresent, Bool.and_eq_true, Option.isSome_iff_exists] at hp
    obtain ⟨⟨⟨e, rfl⟩, ⟨a, rfl⟩⟩, ⟨t, rfl⟩⟩ := hp
    simp only [networkElementsLoop]
    rw [ih _ htl]
    by_cases ht : t = 0
    · subst ht
      simp [nesValue, Float64.div, Float64_mul_nonFinite, Float64_add_nonFinite,
        Float64_nonFinite_add]
    · by_cases hany : tl.any (fun ne => ne.2.TotalTraffic == some 0) = true
      · simp [nesValue, hany]
      · simp only [nesValue, hany, List.any_cons, Float64.div, ht, Float64.mul]
        simp [ht, neShare, Float64_add_add_fin]

theorem rowsLoop_present (data : List JobAppResult) :
    ∀ acc : Float64, (∀ r ∈ data, rowFieldsPresent r = true) →
      rowsLoop acc data = .ok (rowsValue acc data) := by
  induction data with
  | nil => intro acc _; simp [rowsLoop, rowsValue, energy, Float64_add_fin_zero]
  | cons d tl ih =>
    intro acc h
    have hd := h d (List.mem_cons_self _ _)
    have htl : ∀ r ∈ tl, rowFieldsPresent r = true :=
      fun r hr => h r (List.mem_cons_of_mem _ hr)
    obtain ⟨j, ap, n, res⟩ := d
    cases res with
    | none => simp [rowFieldsPresent] at hd
    | some res =>
      obtain ⟨app, nes⟩ := res
      simp only [rowFieldsPresent, Bool.and_eq_true, Option.isSome_iff_exists] at hd
      obtain ⟨⟨app, rfl⟩, hnes⟩ := hd
      simp only [rowsLoop]
      rw [networkElementsLoop_present nes _ hnes]
      simp only []
      rw [ih _ htl]
      by_cases hz : nes.any (fun ne => ne.2.TotalTraffic == some 0) = true
      · simp [rowsValue, nesValue, hz, rowHasZeroTraffic, Float64_nonFinite_add]
      · by_cases hany : tl.any rowHasZeroTraffic = true
        · simp [rowsValue, hany]
        · simp only [rowsValue, nesValue, hz, hany, List.any_cons, rowHasZeroTraffic]
          simp [energy, rowEnergy, Float64_add_add_fin, add_assoc]

theorem validateNetworkElements_present (nes : List (String × NetworkElementResult))
    (h : nes.all (fun ne => neFieldsPresent ne.2) = true) :
    validateNetworkElements nes = .ok () := by
  induction nes with
  | nil => rfl
  | cons hd tl ih =>
    obtain ⟨k, ne⟩ := hd
    simp only [List.all_cons, Bool.and_eq_true] at h
    obtain ⟨hp, htl⟩ := h
    simp only [neFieldsPresent, Bool.and_eq_true] at hp
    obtain ⟨⟨he, ha⟩, ht⟩ := hp
    simp only [validateNetworkElements]
    rw [ih htl]
    simp [Option.isSome_iff_ne_none.mp he, Option.isSome_iff_ne_none.mp ha,
      Option.isSome_iff_ne_none.mp ht, Option.isNone_iff_eq_none]

theorem validateInput_present (d : JobAppResult) (h : rowFieldsPresent d = true) :
    validateInput d = .ok () := by
  obtain ⟨j, ap, n, res⟩ := d
  cases res with
  | none => simp [rowFieldsPresent] at h
  | some res =>
    simp only [rowFieldsPresent, Bool.and_eq_true] at h
    simp only [validateInput]
    rw [validateNetworkElements_present _ h.2]
    simp [Option.isNone_iff_eq_none, Option.isSome_iff_ne_none.mp h.1]

/-- On a non-empty list of rows with every field present the calculation returns a value. -/
theorem CalculateEnergyConsumption_present (c : simpleClient) (ctx : Context)
    (data : List JobAppResult) (hne : data ≠ [])
    (h : ∀ r ∈ data, rowFieldsPresent r = true) :
    CalculateEnergyConsumption c ctx data = .ok (rowsValue (.fin 0) data) := by
  cases data with
  | nil => exact absurd rfl hne
  | cons d0 tl =>
    simp only [CalculateEnergyConsumption]
    rw [validateInput_present d0 (h d0 (List.mem_cons_self _ _))]
    simp only []
    exact rowsLoop_present _ _ h

end calculator


/-! ## Calculator: energy and carbon footprint -/

namespace calculator

open spec

theorem rowsValue_of_no_zero (data : List JobAppResult)
    (h : ∀ r ∈ data, rowHasZeroTraffic r = false) :
    rowsValue (.fin 0) data = .fin (energy data) := by
  have hany : data.any rowHasZeroTraffic = false := by
    rw [List.any_eq_false]
    intro r hr
    simp [h r hr]
  simp [rowsValue, hany, Float64.add]

theorem rowsValue_of_zero (data : List JobAppResult) (acc : Float64)
    (h : ∃ r ∈ data, rowHasZeroTraffic r = true) :
    rowsValue acc data = .nonFinite := by
  have hany : data.any rowHasZeroTraffic = true := by
    rw [List.any_eq_true]
    exact h
  simp [rowsValue, hany]

theorem energy_of_present_nonzero (c : simpleClient) (ctx : Context) (data : List JobAppResult)
    (hne : data ≠ [])
    (h : ∀ r ∈ data, rowFieldsPresent r = true ∧ rowHasZeroTraffic r = false) :
    CalculateEnergyConsumption c ctx data = .ok (.fin (energy data)) := by
  rw [CalculateEnergyConsumption_present c ctx data hne (fun r hr => (h r hr).1),
    rowsValue_of_no_zero data (fun r hr => (h r hr).2)]

/-- C1: on a non-empty list of rows in which every row has its application energy, every
network-element entry has its three fields and no `totalTraffic` is zero,
`CalculateEnergyConsumption` returns no error and the value
`Σ rows (appInstanceEnergyConsumption + Σ ne energyConsumption * (appInstanceTraffic / totalTraffic))`
over exact rational arithmetic. -/
theorem C1_energy_is_sum (c : simpleClient) (ctx : Context) (data : List JobAppResult)
    (hne : data ≠ [])
    (h : ∀ r ∈ data, rowFieldsPresent r = true ∧ rowHasZeroTraffic r = false) :
    CalculateEnergyConsumption c ctx data = .ok (.fin (energy data)) :=
  energy_of_present_nonzero c ctx data hne h

theorem fixtures_twoApps_ok :
    ∀ r ∈ fixtures.twoAppsTwoNEs, rowFieldsPresent r = true ∧ rowHasZeroTraffic r = false := by
  simp [fixtures.twoAppsTwoNEs, fixtures.rowTwoNEs, fixtures.row, fixtures.ne, rowFieldsPresent,
    rowHasZeroTraffic, neFieldsPresent]

theorem fixtures_oneApp_ok :
    ∀ r ∈ fixtures.oneAppTwoNEs, rowFieldsPresent r = true ∧ rowHasZeroTraffic r = false := by
  simp [fixtures.oneAppTwoNEs, fixtures.rowTwoNEs, fixtures.row, fixtures.ne, rowFieldsPresent,
    rowHasZeroTraffic, neFieldsPresent]

/-- C1 at the inputs of the tests: two rows with app energy 0.002 and two network elements
(0.001, 100, 1000) each give 0.0044; one such row gives 0.0022. -/
theorem C1_energy_is_sum_witness :
    (fixtures.twoAppsTwoNEs ≠ [] ∧
      (∀ r ∈ fixtures.twoAppsTwoNEs, rowFieldsPresent r = true ∧ rowHasZeroTraffic r = false) ∧
      CalculateEnergyConsumption (NewSimpleClient (35 / 100000)) fixtures.ctx
        fixtures.twoAppsTwoNEs = .ok (.fin (44 / 10000))) ∧
    (fixtures.oneAppTwoNEs ≠ [] ∧
      (∀ r ∈ fixtures.oneAppTwoNEs, rowFieldsPresent r = true ∧ rowHasZeroTraffic r = false) ∧
      CalculateEnergyConsumption (NewSimpleClient (35 / 100000)) fixtures.ctx
        fixtures.oneAppTwoNEs = .ok (.fin (22 / 10000))) := by
  refine ⟨⟨by simp [fixtures.twoAppsTwoNEs], fixtures_twoApps_ok, ?_⟩,
    ⟨by simp [fixtures.oneAppTwoNEs], fixtures_oneApp_ok, ?_⟩⟩
  · rw [C1_energy_is_sum _ _ _ (by simp [fixtures.twoAppsTwoNEs]) fixtures_twoApps_ok]
    norm_num [energy, rowEnergy, neShare, fixtures.twoAppsTwoNEs, fixtures.rowTwoNEs,
      fixtures.row, fixtures.ne]
  · rw [C1_energy_is_sum _ _ _ (by simp [fixtures.oneAppTwoNEs]) fixtures_oneApp_ok]
    norm_num [energy, rowEnergy, neShare, fixtures.oneAppTwoNEs, fixtures.rowTwoNEs,
      fixtures.row, fixtures.ne]

theorem NewSimpleClient_factor (f : ℚ) :
    (NewSimpleClient f).tCO2ePerKWh = if 0 < f then f else 35 / 100000 := by
  unfold NewSimpleClient
  by_cases hf : f ≤ 0
  · simp [hf, not_lt.mpr hf]
  · simp [hf, not_le.mp hf]

/-- C2: for the calculator built by `NewSimpleClient f`, the factor applied is `f` when
`f > 0` and 0.00035 otherwise, hence always positive; `CalculateCarbonFootprint` returns an
error exactly when `CalculateEnergyConsumption` does on the same rows (the same error, and
a value only when the energy calculation has one), and otherwise returns `E * factor`. -/
theorem C2_carbon_is_energy_times_factor (f : ℚ) (ctx : Context) (data : List JobAppResult) :
    (NewSimpleClient f).tCO2ePerKWh = (if 0 < f then f else 35 / 100000) ∧
    0 < (NewSimpleClient f).tCO2ePerKWh ∧
    (∀ e, CalculateCarbonFootprint (NewSimpleClient f) ctx data = .err e ↔
          CalculateEnergyConsumption (NewSimpleClient f) ctx data = .err e) ∧
    (∀ E, CalculateEnergyConsumption (NewSimpleClient f) ctx data = .ok E →
          CalculateCarbonFootprint (NewSimpleClient f) ctx data
            = .ok (E.mul (.fin (NewSimpleClient f).tCO2ePerKWh))) ∧
    (∀ v, CalculateCarbonFootprint (NewSimpleClient f) ctx data = .ok v →
          ∃ E, CalculateEnergyConsumption (NewSimpleClient f) ctx data = .ok E) := by
  refine ⟨NewSimpleClient_factor f, ?_, ?_, ?_, ?_⟩
  · rw [NewSimpleClient_factor]
    by_cases hf : 0 < f
    · simp [hf]
    · simp [hf]
  · intro e
    unfold CalculateCarbonFootprint
    cases CalculateEnergyConsumption (NewSimpleClient f) ctx data <;> simp
  · intro E hE
    unfold CalculateCarbonFootprint
    rw [hE]
  · intro v
    unfold CalculateCarbonFootprint
    cases CalculateEnergyConsumption (NewSimpleClient f) ctx data <;> simp

/-- C2 at the input of the test: one row with app energy 1.0 and one network element
(1.0, 100, 1000) with `f = 0.00035` gives `1.1 * 0.00035`. -/
theorem C2_carbon_is_energy_times_factor_witness :
    CalculateEnergyConsumption (NewSimpleClient (35 / 100000)) fixtures.ctx fixtures.carbonRow
      = .ok (.fin (11 / 10)) ∧
    CalculateCarbonFootprint (NewSimpleClient (35 / 100000)) fixtures.ctx fixtures.carbonRow
      = .ok (.fin (11 / 10 * (35 / 100000))) := by
  have hE : CalculateEnergyConsumption (NewSimpleClient (35 / 100000)) fixtures.ctx
      fixtures.carbonRow = .ok (.fin (11 / 10)) := by
    rw [energy_of_present_nonzero _ _ _ (by simp [fixtures.carbonRow])
      (by simp [fixtures.carbonRow, fixtures.row, fixtures.ne, rowFieldsPresent,
        rowHasZeroTraffic, neFieldsPresent])]
    norm_num [energy, rowEnergy, neShare, fixtures.carbonRow, fixtures.row, fixtures.ne]
  refine ⟨hE, ?_⟩
  rw [(C2_carbon_is_energy_times_factor (35 / 100000) fixtures.ctx fixtures.carbonRow).2.2.2.1
    _ hE]
  norm_num [Float64.mul, NewSimpleClient]

end calculator


/-! ## Calculator: validation, zero traffic, purity -/

namespace calculator

open spec

theorem validateNetworkElements_missing (nes : List (String × NetworkElementResult))
    (h : ∃ ne ∈ nes, neFieldsPresent ne.2 = false) :
    validateNetworkElements nes
      = .err (.errorString "Missing energy consumption for network element") := by
  induction nes with
  | nil => simp at h
  | cons hd tl ih =>
    obtain ⟨k, ne⟩ := hd
    obtain ⟨e, a, t⟩ := ne
    simp only [validateNetworkElements]
    by_cases hp : neFieldsPresent ⟨e, a, t⟩ = true
    · have htl : ∃ ne ∈ tl, neFieldsPresent ne.2 = false := by
        obtain ⟨x, hx, hxf⟩ := h
        rcases List.mem_cons.mp hx with rfl | hx
        · simp [hp] at hxf
        · exact ⟨x, hx, hxf⟩
      rw [ih htl]
      simp
    · cases e <;> cases a <;> cases t <;> simp [neFieldsPresent] at hp ⊢

theorem first_row_missing_field_is_error (c : simpleClient) (ctx : Context)
    (d0 : JobAppResult) (rest : List JobAppResult) (res : TaskResult)
    (hres : d0.Result = some res)
    (hbad : res.AppInstanceEnergyConsumption = none ∨
      ∃ ne ∈ res.NetworkElements, neFieldsPresent ne.2 = false) :
    ∃ e, CalculateEnergyConsumption c ctx (d0 :: rest) = .err e ∧
         CalculateCarbonFootprint c ctx (d0 :: rest) = .err e := by
  have hv : ∃ e, validateInput d0 = .err e := by
    unfold validateInput
    rw [hres]
    by_cases happ : res.AppInstanceEnergyConsumption = none
    · refine ⟨.errorString "Missing energy consumption for application instance", ?_⟩
      simp [happ]
    · rcases hbad with h | h
      · exact absurd h happ
      · refine ⟨.errorString "Missing energy consumption for network element", ?_⟩
        simp only [Option.isNone_iff_eq_none, happ, if_false]
        exact validateNetworkElements_missing _ h
  obtain ⟨e, he⟩ := hv
  have hE : CalculateEnergyConsumption c ctx (d0 :: rest) = .err e := by
    simp only [CalculateEnergyConsumption, he]
  exact ⟨e, hE, by simp only [CalculateCarbonFootprint, hE]⟩

theorem rowsLoop_ignores_count (n : JobAppResult → Int) (data : List JobAppResult) :
    ∀ acc : Float64,
      rowsLoop acc (data.map (fun r => { r with NumberOfTotalNEs := n r })) = rowsLoop acc data := by
  induction data with
  | nil => intro acc; rfl
  | cons d tl ih =>
    intro acc
    simp only [List.map_cons, rowsLoop]
    cases d.Result with
    | none => rfl
    | some res =>
      simp only []
      cases res.AppInstanceEnergyConsumption with
      | none => rfl
      | some app =>
        simp only []
        cases networkElementsLoop (acc.add (.fin app)) res.NetworkElements with
        | ok r => exact ih r
        | err e => rfl
        | panic m => rfl

theorem calculation_ignores_count (c : simpleClient) (ctx : Context)
    (n : JobAppResult → Int) (data : List JobAppResult) :
    CalculateEnergyConsumption c ctx (data.map (fun r => { r with NumberOfTotalNEs := n r }))
      = CalculateEnergyConsumption c ctx data := by
  cases data with
  | nil => rfl
  | cons d0 tl =>
    have h := rowsLoop_ignores_count n (d0 :: tl) (.fin 0)
    simp only [List.map_cons] at h
    simp only [List.map_cons, CalculateEnergyConsumption, validateInput, h]

/-- C8, as the code has it: when the first row has a result in which
`appInstanceEnergyConsumption` is missing, or in which some network-element entry misses
`energyConsumption`, `appInstanceTraffic` or `totalTraffic`, both calculations return an
error and no result; and neither calculation reads `numberOfTotalNEs`: changing it in
any row leaves the outcome unchanged. -/
theorem C8_first_row_missing_field_is_error (c : simpleClient) (ctx : Context) :
    (∀ (d0 : JobAppResult) (rest : List JobAppResult) (res : TaskResult),
      d0.Result = some res →
      (res.AppInstanceEnergyConsumption = none ∨
        ∃ ne ∈ res.NetworkElements, neFieldsPresent ne.2 = false) →
      ∃ e, CalculateEnergyConsumption c ctx (d0 :: rest) = .err e ∧
           CalculateCarbonFootprint c ctx (d0 :: rest) = .err e) ∧
    (∀ (n : JobAppResult → Int) (data : List JobAppResult),
      CalculateEnergyConsumption c ctx (data.map (fun r => { r with NumberOfTotalNEs := n r }))
        = CalculateEnergyConsumption c ctx data ∧
      CalculateCarbonFootprint c ctx (data.map (fun r => { r with NumberOfTotalNEs := n r }))
        = CalculateCarbonFootprint c ctx data) := by
  refine ⟨fun d0 rest res hres hbad =>
    first_row_missing_field_is_error c ctx d0 rest res hres hbad, fun n data => ?_⟩
  have h := calculation_ignores_count c ctx n data
  exact ⟨h, by simp only [CalculateCarbonFootprint, h]⟩

/-- C8 at the inputs of the tests: a single row with `appInstanceEnergyConsumption = nil`,
and a single row whose network element has `energyConsumption = nil`. -/
theorem C8_first_row_missing_field_is_error_witness :
    (∃ e, CalculateEnergyConsumption (NewSimpleClient (35 / 100000)) fixtures.ctx
            fixtures.missingAppEnergy = .err e ∧
          CalculateCarbonFootprint (NewSimpleClient (35 / 100000)) fixtures.ctx
            fixtures.missingAppEnergy = .err e) ∧
    (∃ e, CalculateEnergyConsumption (NewSimpleClient (35 / 100000)) fixtures.ctx
            fixtures.missingNEField = .err e ∧
          CalculateCarbonFootprint (NewSimpleClient (35 / 100000)) fixtures.ctx
            fixtures.missingNEField = .err e) :=
  ⟨(C8_first_row_missing_field_is_error _ _).1 _ [] _ rfl (Or.inl rfl),
   (C8_first_row_missing_field_is_error _ _).1 _ [] _ rfl
     (Or.inr ⟨("ne1", ⟨none, some 100, some 1000⟩), by simp, by simp [neFieldsPresent]⟩)⟩

/-- C8 fails as stated: a row without application energy in second position makes the
calculation panic on the nil dereference instead of returning an error, and a row whose
number of network elements differs from `numberOfTotalNEs` is computed without any error. -/
theorem C8_counterexample :
    (fixtures.missingAppEnergySecondRow ≠ [] ∧
      (∃ r ∈ fixtures.missingAppEnergySecondRow, ¬ rowComplete r) ∧
      CalculateEnergyConsumption (NewSimpleClient (35 / 100000)) fixtures.ctx
        fixtures.missingAppEnergySecondRow
        = .panic "invalid memory address or nil pointer dereference" ∧
      CalculateCarbonFootprint (NewSimpleClient (35 / 100000)) fixtures.ctx
        fixtures.missingAppEnergySecondRow
        = .panic "invalid memory address or nil pointer dereference") ∧
    (fixtures.countMismatch ≠ [] ∧
      (∃ r ∈ fixtures.countMismatch, ¬ rowComplete r) ∧
      CalculateEnergyConsumption (NewSimpleClient (35 / 100000)) fixtures.ctx
        fixtures.countMismatch = .ok (.fin (11 / 10)) ∧
      CalculateCarbonFootprint (NewSimpleClient (35 / 100000)) fixtures.ctx
        fixtures.countMismatch = .ok (.fin (11 / 10 * (35 / 100000)))) := by
  have h1 : CalculateEnergyConsumption (NewSimpleClient (35 / 100000)) fixtures.ctx
      fixtures.missingAppEnergySecondRow
      = .panic "invalid memory address or nil pointer dereference" := by
    simp [CalculateEnergyConsumption, validateInput, validateNetworkElements, rowsLoop,
      networkElementsLoop, fixtures.missingAppEnergySecondRow, fixtures.rowTwoNEs, fixtures.row,
      fixtures.ne]
  have h2 : CalculateEnergyConsumption (NewSimpleClient (35 / 100000)) fixtures.ctx
      fixtures.countMismatch = .ok (.fin (11 / 10)) := by
    simp [CalculateEnergyConsumption, validateInput, validateNetworkElements, rowsLoop,
      networkElementsLoop, fixtures.countMismatch, fixtures.row, fixtures.ne, Float64.div,
      Float64.mul, Float64.add]
    norm_num
  refine ⟨⟨by simp [fixtures.missingAppEnergySecondRow], ?_, h1, ?_⟩,
    ⟨by simp [fixtures.countMismatch], ?_, h2, ?_⟩⟩
  · refine ⟨fixtures.row "app2" 0 ⟨none, []⟩, by simp [fixtures.missingAppEnergySecondRow], ?_⟩
    rintro ⟨res, hres, happ, -⟩
    simp only [fixtures.row, Option.some.injEq] at hres
    subst hres
    simp at happ
  · simp only [CalculateCarbonFootprint, h1]
  · refine ⟨_, List.mem_singleton.mpr rfl, ?_⟩
    rintro ⟨res, hres, -, hlen, -⟩
    simp only [fixtures.row, Option.some.injEq] at hres
    subst hres
    simp [fixtures.row] at hlen
  · rw [CalculateCarbonFootprint, h2]
    norm_num [Float64.mul, NewSimpleClient]

end calculator


namespace calculator

open spec

/-- The event `handleCalculationRequested` hands to the sender for a computed result. -/
theorem handleCalculationRequested_sends (r : mock.Returns) (ctx : Context)
    (e : event.CloudEvent) (job : Job) (data : List JobAppResult) (v : Float64)
    (hjob : r.GetJob = .ok job) (hrows : r.GetAllJobAppResults = .ok data)
    (hE : CalculateEnergyConsumption (mock.handler r).calculator ctx data = .ok v)
    (hC : CalculateCarbonFootprint (mock.handler r).calculator ctx data = .ok v) :
    (worker.handleCalculationRequested (mock.handler r) ctx e mock.start).2.sends
      = [{ ID := e.ID, EventType := event.EventTypeNotificationRequested,
           Source := event.SourceEFNWorker,
           Data := .notificationRequested { RequestID := e.ID, Result := v } }] := by
  unfold worker.handleCalculationRequested
  have h1 : (mock.handler r).database.GetAllJobAppResults e.ID mock.start
      = (.ok data, mock.start.called "GetAllJobAppResults") := by
    simp [mock.handler, mock.mockDatabase, hrows]
  have h2 : ∀ s, (mock.handler r).database.GetJob e.ID s = (.ok job, s.called "GetJob") := by
    intro s
    simp [mock.handler, mock.mockDatabase, hjob]
  simp only [h1, h2, hE, hC]
  by_cases hk1 : job.RequestKind = RequestKindEnergyConsumption
  · simp only [hk1, if_true]
    cases hs : r.Send <;>
      simp [mock.handler, mock.mockSender, hs, mock.start, mock.Recorder.called,
        event.NewNotificationRequestedData]
  · by_cases hk2 : job.RequestKind = RequestKindCarbonFootprint
    · simp only [hk1, hk2, if_true, if_false]
      cases hs : r.Send <;>
        simp [mock.handler, mock.mockSender, hs, mock.start, mock.Recorder.called,
          event.NewNotificationRequestedData]
    · simp only [hk1, hk2, if_false]
      cases hs : r.Send <;>
        simp [mock.handler, mock.mockSender, hs, mock.start, mock.Recorder.called,
          event.NewNotificationRequestedData]

/-- C9, as the code has it: no zero check is made.  On a non-empty list of rows with every
field present in which some network element has `totalTraffic = 0`,
`CalculateEnergyConsumption` returns no error but a non-finite float (an infinity or NaN),
`CalculateCarbonFootprint` likewise, and `handleCalculationRequested`, reading these rows
and a job from the store, hands a `NotificationRequested` event carrying that value to the
sender. -/
theorem C9_zero_total_traffic_is_not_an_error (c : simpleClient) (ctx : Context)
    (data : List JobAppResult) (hne : data ≠ [])
    (h : ∀ r ∈ data, rowFieldsPresent r = true)
    (hz : ∃ r ∈ data, rowHasZeroTraffic r = true) :
    CalculateEnergyConsumption c ctx data = .ok .nonFinite ∧
    CalculateCarbonFootprint c ctx data = .ok .nonFinite ∧
    ∀ (r : mock.Returns) (job : Job) (e : event.CloudEvent),
      r.GetJob = .ok job → r.GetAllJobAppResults = .ok data →
      (worker.handleCalculationRequested (mock.handler r) ctx e mock.start).2.sends
        = [{ ID := e.ID, EventType := event.EventTypeNotificationRequested,
             Source := event.SourceEFNWorker,
             Data := .notificationRequested { RequestID := e.ID, Result := .nonFinite } }] := by
  have hE : ∀ c1 : simpleClient, CalculateEnergyConsumption c1 ctx data = .ok .nonFinite := by
    intro c1
    rw [CalculateEnergyConsumption_present c1 ctx data hne h, rowsValue_of_zero data _ hz]
  have hC : ∀ c1 : simpleClient, CalculateCarbonFootprint c1 ctx data = .ok .nonFinite := by
    intro c1
    simp only [CalculateCarbonFootprint, hE c1, Float64.mul]
  refine ⟨hE c, hC c, ?_⟩
  intro r job e hjob hrows
  exact handleCalculationRequested_sends r ctx e job data .nonFinite hjob hrows (hE _) (hC _)

/-- C9 at one otherwise complete row whose network element has `totalTraffic = 0`. -/
theorem C9_zero_total_traffic_is_not_an_error_witness :
    fixtures.zeroTotalTraffic ≠ [] ∧
    (∀ r ∈ fixtures.zeroTotalTraffic, rowFieldsPresent r = true) ∧
    (∃ r ∈ fixtures.zeroTotalTraffic, rowHasZeroTraffic r = true) ∧
    CalculateEnergyConsumption (NewSimpleClient (35 / 100000)) fixtures.ctx
      fixtures.zeroTotalTraffic = .ok .nonFinite := by
  have h1 : fixtures.zeroTotalTraffic ≠ [] := by simp [fixtures.zeroTotalTraffic]
  have h2 : ∀ r ∈ fixtures.zeroTotalTraffic, rowFieldsPresent r = true := by
    simp [fixtures.zeroTotalTraffic, fixtures.row, fixtures.ne, rowFieldsPresent,
      neFieldsPresent]
  have h3 : ∃ r ∈ fixtures.zeroTotalTraffic, rowHasZeroTraffic r = true := by
    simp [fixtures.zeroTotalTraffic, fixtures.row, fixtures.ne, rowHasZeroTraffic]
  exact ⟨h1, h2, h3,
    (C9_zero_total_traffic_is_not_an_error _ fixtures.ctx _ h1 h2 h3).1⟩

/-- C9 fails as stated: rows that are complete in the sense of invariant 5 and hold a
network element with `totalTraffic = 0` do not make `CalculateEnergyConsumption` or
`CalculateCarbonFootprint` return an error; each returns a (non-finite) value. -/
theorem C9_counterexample :
    (∀ r ∈ fixtures.zeroTotalTraffic, rowComplete r) ∧
    (∃ r ∈ fixtures.zeroTotalTraffic, rowHasZeroTraffic r = true) ∧
    (CalculateEnergyConsumption (NewSimpleClient (35 / 100000)) fixtures.ctx
      fixtures.zeroTotalTraffic).isErr = false ∧
    CalculateEnergyConsumption (NewSimpleClient (35 / 100000)) fixtures.ctx
      fixtures.zeroTotalTraffic = .ok .nonFinite ∧
    CalculateCarbonFootprint (NewSimpleClient (35 / 100000)) fixtures.ctx
      fixtures.zeroTotalTraffic = .ok .nonFinite := by
  have hE : CalculateEnergyConsumption (NewSimpleClient (35 / 100000)) fixtures.ctx
      fixtures.zeroTotalTraffic = .ok .nonFinite := by
    simp [CalculateEnergyConsumption, validateInput, validateNetworkElements, rowsLoop,
      networkElementsLoop, fixtures.zeroTotalTraffic, fixtures.row, fixtures.ne, Float64.div,
      Float64.mul, Float64.add]
  refine ⟨?_, ?_, ?_, hE, ?_⟩
  · intro r hr
    simp only [fixtures.zeroTotalTraffic, List.mem_singleton] at hr
    subst hr
    exact ⟨_, rfl, by simp, by simp [fixtures.row], by simp [fixtures.ne, neFieldsPresent]⟩
  · simp [fixtures.zeroTotalTraffic, fixtures.row, fixtures.ne, rowHasZeroTraffic]
  · rw [hE]; rfl
  · simp only [CalculateCarbonFootprint, hE, Float64.mul]

theorem SameRowUpToMapOrder_facts (r r1 : JobAppResult) (h : SameRowUpToMapOrder r r1) :
    rowFieldsPresent r = rowFieldsPresent r1 ∧ rowHasZeroTraffic r = rowHasZeroTraffic r1 ∧
    rowEnergy r = rowEnergy r1 := by
  obtain ⟨j, a, n, res⟩ := r
  obtain ⟨j1, a1, n1, res1⟩ := r1
  obtain ⟨-, -, -, h⟩ := h
  cases res with
  | none =>
    cases res1 with
    | none => exact ⟨rfl, rfl, rfl⟩
    | some b => exact absurd h (by simp)
  | some x =>
    cases res1 with
    | none => exact absurd h (by simp)
    | some y =>
      obtain ⟨happ, hperm⟩ := h
      refine ⟨?_, ?_, ?_⟩
      · simp only [rowFieldsPresent, happ]
        congr 1
        rw [Bool.eq_iff_iff]
        simp only [List.all_eq_true]
        exact ⟨fun hh ne hne => hh ne (hperm.mem_iff.mpr hne),
          fun hh ne hne => hh ne (hperm.mem_iff.mp hne)⟩
      · simp only [rowHasZeroTraffic]
        rw [Bool.eq_iff_iff]
        simp only [List.any_eq_true]
        exact ⟨fun ⟨ne, hne, hh⟩ => ⟨ne, hperm.mem_iff.mp hne, hh⟩,
          fun ⟨ne, hne, hh⟩ => ⟨ne, hperm.mem_iff.mpr hne, hh⟩⟩
      · simp only [rowEnergy, happ]
        congr 1
        exact (hperm.map _).sum_eq

theorem Forall₂_SameRow_facts (data mid : List JobAppResult)
    (h : List.Forall₂ SameRowUpToMapOrder data mid) :
    ((∀ r ∈ data, rowFieldsPresent r = true) → ∀ r ∈ mid, rowFieldsPresent r = true) ∧
    data.any rowHasZeroTraffic = mid.any rowHasZeroTraffic ∧ energy data = energy mid ∧
    (data = [] ↔ mid = []) := by
  induction h with
  | nil => simp
  | cons hrow _ ih =>
    obtain ⟨h1, h2, h3⟩ := SameRowUpToMapOrder_facts _ _ hrow
    obtain ⟨i1, i2, i3, -⟩ := ih
    refine ⟨?_, ?_, ?_, by simp⟩
    · intro hall r hr
      rcases List.mem_cons.mp hr with rfl | hr
      · rw [← h1]; exact hall _ (List.mem_cons_self _ _)
      · exact i1 (fun x hx => hall x (List.mem_cons_of_mem _ hx)) r hr
    · simp only [List.any_cons, h2, i2]
    · simp only [energy, List.map_cons, List.sum_cons] at i3 ⊢
      rw [h3, i3]

theorem Perm_rows_facts (mid data1 : List JobAppResult) (h : mid.Perm data1) :
    mid.any rowHasZeroTraffic = data1.any rowHasZeroTraffic ∧ energy mid = energy data1 := by
  refine ⟨?_, (h.map _).sum_eq⟩
  rw [Bool.eq_iff_iff]
  simp only [List.any_eq_true]
  exact ⟨fun ⟨r, hr, hh⟩ => ⟨r, h.mem_iff.mp hr, hh⟩,
    fun ⟨r, hr, hh⟩ => ⟨r, h.mem_iff.mpr hr, hh⟩⟩

/-- Rows that are the same up to the order of the list and of each map are present
together, and empty together. -/
theorem SameStoredRows_present (data data1 : List JobAppResult)
    (h : ∀ r ∈ data, rowFieldsPresent r = true) (hsame : SameStoredRows data data1) :
    (∀ r ∈ data1, rowFieldsPresent r = true) ∧ (data = [] ↔ data1 = []) := by
  obtain ⟨mid, hmid, hperm⟩ := hsame
  obtain ⟨f1, -, -, f4⟩ := Forall₂_SameRow_facts data mid hmid
  refine ⟨fun r hr => f1 h r (hperm.mem_iff.mpr hr), ?_⟩
  rw [f4]
  constructor
  · intro hm
    rw [hm] at hperm
    exact List.Perm.eq_nil hperm.symm
  · intro hd1
    rw [hd1] at hperm
    exact List.Perm.eq_nil hperm

/-- Over exact arithmetic the calculation returns the same on rows that are the same up to
the order of the list and of each map. -/
theorem CalculateEnergyConsumption_rearranged (c c1 : simpleClient) (ctx ctx1 : Context)
    (data data1 : List JobAppResult)
    (h : ∀ r ∈ data, rowFieldsPresent r = true)
    (hsame : SameStoredRows data data1) :
    CalculateEnergyConsumption c ctx data = CalculateEnergyConsumption c1 ctx1 data1 := by
  obtain ⟨h1, hnil⟩ := SameStoredRows_present data data1 h hsame
  obtain ⟨mid, hmid, hperm⟩ := hsame
  obtain ⟨-, f2, f3, -⟩ := Forall₂_SameRow_facts data mid hmid
  obtain ⟨p1, p2⟩ := Perm_rows_facts mid data1 hperm
  by_cases hne : data = []
  · have hd1 : data1 = [] := hnil.mp hne
    subst hne
    subst hd1
    rfl
  · have hne1 : data1 ≠ [] := fun hd1 => hne (hnil.mpr hd1)
    rw [CalculateEnergyConsumption_present c ctx data hne h,
      CalculateEnergyConsumption_present c1 ctx1 data1 hne1 h1]
    simp only [rowsValue, f2, p1, f3, p2]

theorem float64_networkElementsLoop_present (nes : List (String × NetworkElementResult))
    (acc : Float64) (h : nes.all (fun ne => neFieldsPresent ne.2) = true) :
    float64.networkElementsLoop acc nes
      = .ok ((nes.map (fun ne => float64Share ne.2)).foldl binary64.add acc) := by
  induction nes generalizing acc with
  | nil => rfl
  | cons hd tl ih =>
    obtain ⟨k, ne⟩ := hd
    simp only [List.all_cons, Bool.and_eq_true] at h
    obtain ⟨hp, htl⟩ := h
    simp only [neFieldsPresent, Bool.and_eq_true, Option.isSome_iff_exists] at hp
    obtain ⟨⟨⟨e, he⟩, ⟨a, ha⟩⟩, ⟨t, ht⟩⟩ := hp
    simp only [float64.networkElementsLoop, he, ha, ht]
    rw [ih _ htl]
    simp [float64Share, he, ha, ht]

theorem float64_rowsLoop_present (data : List JobAppResult) (acc : Float64)
    (h : ∀ r ∈ data, rowFieldsPresent r = true) :
    float64.rowsLoop acc data
      = .ok (((data.map float64Terms).flatten).foldl binary64.add acc) := by
  induction data generalizing acc with
  | nil => rfl
  | cons d tl ih =>
    have hd := h d (List.mem_cons_self _ _)
    have htl : ∀ r ∈ tl, rowFieldsPresent r = true :=
      fun r hr => h r (List.mem_cons_of_mem _ hr)
    obtain ⟨j, ap, n, res⟩ := d
    cases res with
    | none => simp [rowFieldsPresent] at hd
    | some res =>
      obtain ⟨appE, nes⟩ := res
      simp only [rowFieldsPresent, Bool.and_eq_true, Option.isSome_iff_exists] at hd
      obtain ⟨⟨app, rfl⟩, hnes⟩ := hd
      simp only [float64.rowsLoop]
      rw [float64_networkElementsLoop_present nes _ hnes]
      simp only []
      rw [ih _ htl]
      simp [float64Terms, List.foldl_append]

/-- On a non-empty list of rows with every field present the float64 calculation returns
the terms added from the left in the order of the list and of each map. -/
theorem float64_CalculateEnergyConsumption_present (c : simpleClient) (ctx : Context)
    (data : List JobAppResult) (hne : data ≠ [])
    (h : ∀ r ∈ data, rowFieldsPresent r = true) :
    float64.CalculateEnergyConsumption c ctx data = .ok (float64Sum data) := by
  cases data with
  | nil => exact absurd rfl hne
  | cons d0 tl =>
    simp only [float64.CalculateEnergyConsumption]
    rw [validateInput_present d0 (h d0 (List.mem_cons_self _ _))]
    simp only []
    exact float64_rowsLoop_present _ _ h

/-- C10, as the code has it: for a non-empty list of rows with every field present, over exact
arithmetic the value `CalculateEnergyConsumption` returns is unchanged by any permutation
of the row list, by any iteration order of each row's `networkElements` map, by the context
argument and by the calculator. In float64 the calculation returns, under every context and
calculator, the terms added from the left in the order in which the rows and each map are
iterated, every partial sum rounded: the same number for two runs that iterate in the same
order, and for rows iterated in another order the sum of the same terms in that order. -/
theorem C10_calculation_depends_on_rows_and_iteration_order (c c1 : simpleClient)
    (ctx ctx1 : Context) (data data1 : List JobAppResult) (hne : data ≠ [])
    (h : ∀ r ∈ data, rowFieldsPresent r = true)
    (hsame : SameStoredRows data data1) :
    CalculateEnergyConsumption c ctx data = CalculateEnergyConsumption c1 ctx1 data1 ∧
    float64.CalculateEnergyConsumption c ctx data = .ok (float64Sum data) ∧
    float64.CalculateEnergyConsumption c1 ctx1 data = .ok (float64Sum data) ∧
    float64.CalculateEnergyConsumption c1 ctx1 data1 = .ok (float64Sum data1) := by
  obtain ⟨h1, hnil⟩ := SameStoredRows_present data data1 h hsame
  exact ⟨CalculateEnergyConsumption_rearranged c c1 ctx ctx1 data data1 h hsame,
    float64_CalculateEnergyConsumption_present c ctx data hne h,
    float64_CalculateEnergyConsumption_present c1 ctx1 data hne h,
    float64_CalculateEnergyConsumption_present c1 ctx1 data1
      (fun hd1 => hne (hnil.mpr hd1)) h1⟩

theorem fixtures_rearranged : SameStoredRows fixtures.twoAppsTwoNEs
    fixtures.twoAppsTwoNEsRearranged := by
  refine ⟨[fixtures.row "app1" 2 ⟨some (2 / 1000),
      [("ne2", fixtures.ne (1 / 1000) 100 1000), ("ne1", fixtures.ne (1 / 1000) 100 1000)]⟩,
    fixtures.rowTwoNEs "app2"], ?_, ?_⟩
  · refine List.Forall₂.cons ?_ (List.Forall₂.cons ?_ List.Forall₂.nil)
    · refine ⟨rfl, rfl, rfl, rfl, ?_⟩
      exact List.Perm.swap _ _ _
    · exact ⟨rfl, rfl, rfl, rfl, List.Perm.refl _⟩
  · exact List.Perm.swap _ _ _

/-- C10 at the rows of the first test case and the same rows in the other order with the
first map iterated backwards, under two calculators and two contexts. -/
theorem C10_calculation_depends_on_rows_and_iteration_order_witness :
    fixtures.twoAppsTwoNEs ≠ [] ∧
    (∀ r ∈ fixtures.twoAppsTwoNEs, rowFieldsPresent r = true) ∧
    SameStoredRows fixtures.twoAppsTwoNEs fixtures.twoAppsTwoNEsRearranged ∧
    CalculateEnergyConsumption (NewSimpleClient (35 / 100000)) fixtures.ctx
        fixtures.twoAppsTwoNEs
      = CalculateEnergyConsumption (NewSimpleClient 1) ⟨true, some 5⟩
        fixtures.twoAppsTwoNEsRearranged ∧
    float64.CalculateEnergyConsumption (NewSimpleClient (35 / 100000)) fixtures.ctx
        fixtures.twoAppsTwoNEs = .ok (float64Sum fixtures.twoAppsTwoNEs) ∧
    float64.CalculateEnergyConsumption (NewSimpleClient 1) ⟨true, some 5⟩
        fixtures.twoAppsTwoNEs = .ok (float64Sum fixtures.twoAppsTwoNEs) ∧
    float64.CalculateEnergyConsumption (NewSimpleClient 1) ⟨true, some 5⟩
        fixtures.twoAppsTwoNEsRearranged = .ok (float64Sum fixtures.twoAppsTwoNEsRearranged) :=
  ⟨by simp [fixtures.twoAppsTwoNEs], fun r hr => (fixtures_twoApps_ok r hr).1,
   fixtures_rearranged,
   C10_calculation_depends_on_rows_and_iteration_order _ _ _ _ _ _
     (by simp [fixtures.twoAppsTwoNEs]) (fun r hr => (fixtures_twoApps_ok r hr).1)
     fixtures_rearranged⟩

theorem fixtures_threeNEs_same :
    SameStoredRows fixtures.threeNEs fixtures.threeNEsBackwards := by
  refine ⟨fixtures.threeNEsBackwards, ?_, List.Perm.refl _⟩
  refine List.Forall₂.cons ?_ List.Forall₂.nil
  refine ⟨rfl, rfl, rfl, rfl, ?_⟩
  exact (List.reverse_perm _).symm

/-- Counterexample to C10 as stated, in float64: one row with every field present, its
three network elements (0.1, 1, 1), (0.2, 1, 1), (0.3, 1, 1), gives 0.6000000000000001
when the map is iterated as ne1, ne2, ne3 and 0.6 when it is iterated as ne3, ne2, ne1.
Every quotient is 1 and every product is the energy itself, so only the additions round. -/
theorem C10_counterexample :
    (∀ r ∈ fixtures.threeNEs, rowFieldsPresent r = true) ∧
    SameStoredRows fixtures.threeNEs fixtures.threeNEsBackwards ∧
    float64.CalculateEnergyConsumption (NewSimpleClient 1) fixtures.ctx fixtures.threeNEs
      = .ok (.fin (1351079888211149 / 2251799813685248)) ∧
    float64.CalculateEnergyConsumption (NewSimpleClient 1) fixtures.ctx
        fixtures.threeNEsBackwards
      = .ok (.fin (5404319552844595 / 9007199254740992)) ∧
    float64.CalculateEnergyConsumption (NewSimpleClient 1) fixtures.ctx fixtures.threeNEs
      ≠ float64.CalculateEnergyConsumption (NewSimpleClient 1) fixtures.ctx
        fixtures.threeNEsBackwards := by
  refine ⟨?_, fixtures_threeNEs_same, ?_, ?_, ?_⟩
  · decide!
  · decide!
  · decide!
  · decide!

end calculator


/-! ## Completeness detection -/

namespace worker

open spec

theorem networkElementsPopulated_iff (nes : List (String × NetworkElementResult)) :
    networkElementsPopulated nes = true ↔ ∀ ne ∈ nes, neFieldsPresent ne.2 = true := by
  induction nes with
  | nil => simp [networkElementsPopulated]
  | cons hd tl ih =>
    obtain ⟨k, ne⟩ := hd
    obtain ⟨e, a, t⟩ := ne
    simp only [networkElementsPopulated, List.mem_cons, forall_eq_or_imp]
    rw [← ih]
    cases e <;> cases a <;> cases t <;> simp [neFieldsPresent]

theorem appResultsPopulated_iff (rows : List JobAppResult) :
    appResultsPopulated rows = true ↔ ∀ r ∈ rows, rowComplete r := by
  induction rows with
  | nil => simp [appResultsPopulated]
  | cons d tl ih =>
    obtain ⟨j, a, n, res⟩ := d
    simp only [List.mem_cons, forall_eq_or_imp]
    cases res with
    | none => simp [appResultsPopulated, rowComplete]
    | some res =>
      obtain ⟨app, nes⟩ := res
      simp only [appResultsPopulated]
      rw [← ih]
      have hrc : rowComplete ⟨j, a, n, some ⟨app, nes⟩⟩ ↔
          (app.isSome = true ∧ (nes.length : Int) = n ∧
            ∀ ne ∈ nes, neFieldsPresent ne.2 = true) := by
        constructor
        · rintro ⟨res, hres, h1, h2, h3⟩
          simp only [Option.some.injEq] at hres
          subst hres
          exact ⟨h1, h2, h3⟩
        · rintro ⟨h1, h2, h3⟩
          exact ⟨_, rfl, h1, h2, h3⟩
      rw [hrc, ← networkElementsPopulated_iff]
      cases app with
      | none => simp
      | some v =>
        by_cases hn : n = (nes.length : Int)
        · subst hn
          cases hp : networkElementsPopulated nes <;> simp
        · have hn2 : ¬ (nes.length : Int) = n := fun h => hn h.symm
          simp [hn, hn2]

/-- The completeness check against the doubles, written out. -/
theorem isAllDataGathered_mock (r : mock.Returns) (requestID : String) (s : mock.Recorder)
    (job : Job) (rows : List JobAppResult)
    (hjob : r.GetJob = .ok job) (hrows : r.GetAllJobAppResults = .ok rows) :
    isAllDataGathered (mock.handler r) requestID s =
      if rows.length = job.Service.length ∧ appResultsPopulated rows = true then
        match r.TrySetCalculationTriggered with
        | .error err =>
          (.err (.wrap ("failed to set calculationTriggered for " ++ requestID) err),
            ((s.called "GetJob").called "GetAllJobAppResults").called
              "TrySetCalculationTriggered")
        | .ok set =>
          (.ok set, ((s.called "GetJob").called "GetAllJobAppResults").called
            "TrySetCalculationTriggered")
      else (.ok false, (s.called "GetJob").called "GetAllJobAppResults") := by
  unfold isAllDataGathered
  simp only [mock.handler, mock.mockDatabase, hjob, hrows]
  by_cases hl : rows.length = job.Service.length
  · by_cases hp : appResultsPopulated rows = true
    · simp only [hl, hp, bne_self_eq_false, Bool.false_eq_true, if_false, Bool.not_true,
        and_self, if_true]
      cases r.TrySetCalculationTriggered with
      | error err => rfl
      | ok set => cases set <;> rfl
    · simp [hl, hp]
  · simp [hl]

/-- C3: with both reads succeeding and `TrySetCalculationTriggered` returning true,
`isAllDataGathered` returns true if and only if the job is complete in the sense of
invariant 5; in every incomplete case it returns false with no error and does not call
`TrySetCalculationTriggered`. -/
theorem C3_isAllDataGathered_iff_complete (r : mock.Returns) (requestID : String)
    (job : Job) (rows : List JobAppResult)
    (hjob : r.GetJob = .ok job) (hrows : r.GetAllJobAppResults = .ok rows)
    (hset : r.TrySetCalculationTriggered = .ok true) :
    ((isAllDataGathered (mock.handler r) requestID mock.start).1 = .ok true ↔
      complete job rows) ∧
    (¬ complete job rows →
      (isAllDataGathered (mock.handler r) requestID mock.start).1 = .ok false ∧
      "TrySetCalculationTriggered" ∉
        (isAllDataGathered (mock.handler r) requestID mock.start).2.calls) := by
  rw [isAllDataGathered_mock r requestID mock.start job rows hjob hrows, hset]
  have hc : complete job rows ↔
      (rows.length = job.Service.length ∧ appResultsPopulated rows = true) := by
    unfold complete
    rw [appResultsPopulated_iff]
  rw [hc]
  by_cases h : rows.length = job.Service.length ∧ appResultsPopulated rows = true
  · simp only [h, and_self, if_true, true_iff, not_true_eq_false, false_imp_iff, and_true]
  · simp only [h, if_false]
    refine ⟨by simp, fun _ => ?_⟩
    simp [mock.start, mock.Recorder.called]

end worker


namespace worker

open spec

theorem fixtures_gathered_complete :
    complete (fixtures.job ["app1"]) [fixtures.gatheredRow] := by
  refine ⟨rfl, ?_⟩
  intro r hr
  simp only [List.mem_singleton] at hr
  subst hr
  exact ⟨_, rfl, by simp, by simp [fixtures.gatheredRow, fixtures.row],
    by simp [fixtures.ne, neFieldsPresent]⟩

/-- C3 at the inputs of `TestIsAllDataGathered`: "all data gathered" answers true, and
"missing NE data" answers false without a compare-and-set. -/
theorem C3_isAllDataGathered_iff_complete_witness :
    (complete (fixtures.job ["app1"]) [fixtures.gatheredRow] ∧
      (isAllDataGathered (mock.handler
        (fixtures.returns (fixtures.job ["app1"]) [fixtures.gatheredRow] true))
        "req1" mock.start).1 = .ok true) ∧
    (¬ complete (fixtures.job ["app1"]) [fixtures.missingNERow] ∧
      (isAllDataGathered (mock.handler
        (fixtures.returns (fixtures.job ["app1"]) [fixtures.missingNERow] true))
        "req1" mock.start).1 = .ok false ∧
      "TrySetCalculationTriggered" ∉ (isAllDataGathered (mock.handler
        (fixtures.returns (fixtures.job ["app1"]) [fixtures.missingNERow] true))
        "req1" mock.start).2.calls) := by
  have hc : complete (fixtures.job ["app1"]) [fixtures.gatheredRow] :=
    fixtures_gathered_complete
  have hn : ¬ complete (fixtures.job ["app1"]) [fixtures.missingNERow] := by
    rintro ⟨-, h⟩
    obtain ⟨res, hres, -, hlen, -⟩ := h _ (List.mem_singleton.mpr rfl)
    simp only [fixtures.missingNERow, fixtures.row, Option.some.injEq] at hres
    subst hres
    simp [fixtures.missingNERow, fixtures.row] at hlen
  exact ⟨⟨hc, (C3_isAllDataGathered_iff_complete _ "req1" _ _ rfl rfl rfl).1.mpr hc⟩,
    ⟨hn, (C3_isAllDataGathered_iff_complete _ "req1" _ _ rfl rfl rfl).2 hn⟩⟩

end worker

/-! ## The compare-and-set steps of the store -/

namespace database

theorem run_calc_open (m : mongoDB) (id : String) (job : Job)
    (hjob : m.jobs id = some job) (hflag : job.CalculationTriggered = false) :
    ((TrySetCall.calculationTriggered id).run m).1 = .ok true ∧
    ∃ job1, ((TrySetCall.calculationTriggered id).run m).2.jobs id = some job1 ∧
      job1.CalculationTriggered = true ∧ job1.NotificationSent = job.NotificationSent := by
  simp [TrySetCall.run, mongoDB.TrySetCalculationTriggered, hjob, hflag]

theorem run_calc_closed (m : mongoDB) (id : String) (job : Job)
    (hjob : m.jobs id = some job) (hflag : job.CalculationTriggered = true) :
    (TrySetCall.calculationTriggered id).run m = (.ok false, m) := by
  simp [TrySetCall.run, mongoDB.TrySetCalculationTriggered, hjob, hflag]

theorem run_notif_open (m : mongoDB) (id : String) (job : Job)
    (hjob : m.jobs id = some job) (hflag : job.NotificationSent = false) :
    ((TrySetCall.notificationSent id).run m).1 = .ok true ∧
    ∃ job1, ((TrySetCall.notificationSent id).run m).2.jobs id = some job1 ∧
      job1.NotificationSent = true ∧ job1.CalculationTriggered = job.CalculationTriggered := by
  simp [TrySetCall.run, mongoDB.TrySetNotificationSent, hjob, hflag]

theorem run_notif_closed (m : mongoDB) (id : String) (job : Job)
    (hjob : m.jobs id = some job) (hflag : job.NotificationSent = true) :
    (TrySetCall.notificationSent id).run m = (.ok false, m) := by
  simp [TrySetCall.run, mongoDB.TrySetNotificationSent, hjob, hflag]

/-- A compare-and-set step leaves every job in place and changes at most the flag it
names, on the job it names. -/
theorem run_frame (c : TrySetCall) (m : mongoDB) (id : String) (job : Job)
    (hjob : m.jobs id = some job) :
    ∃ job1, (c.run m).2.jobs id = some job1 ∧
      (c ≠ .calculationTriggered id → job1.CalculationTriggered = job.CalculationTriggered) ∧
      (c ≠ .notificationSent id → job1.NotificationSent = job.NotificationSent) := by
  cases c with
  | calculationTriggered k =>
    by_cases hk : k = id
    · subst hk
      cases hf : job.CalculationTriggered with
      | false =>
        obtain ⟨-, job1, h1, -, h3⟩ := run_calc_open m k job hjob hf
        exact ⟨job1, h1, fun h => absurd rfl h, fun _ => h3⟩
      | true =>
        rw [run_calc_closed m k job hjob hf]
        exact ⟨job, hjob, fun _ => hf, fun _ => rfl⟩
    · refine ⟨job, ?_, fun _ => rfl, fun _ => rfl⟩
      simp only [TrySetCall.run, mongoDB.TrySetCalculationTriggered]
      cases hm : m.jobs k with
      | none => simpa using hjob
      | some jk =>
        by_cases hf : jk.CalculationTriggered = true
        · simpa [hf] using hjob
        · simp [hf, Ne.symm hk, hjob]
  | notificationSent k =>
    by_cases hk : k = id
    · subst hk
      cases hf : job.NotificationSent with
      | false =>
        obtain ⟨-, job1, h1, -, h3⟩ := run_notif_open m k job hjob hf
        exact ⟨job1, h1, fun _ => h3, fun h => absurd rfl h⟩
      | true =>
        rw [run_notif_closed m k job hjob hf]
        exact ⟨job, hjob, fun _ => rfl, fun _ => hf⟩
    · refine ⟨job, ?_, fun _ => rfl, fun _ => rfl⟩
      simp only [TrySetCall.run, mongoDB.TrySetNotificationSent]
      cases hm : m.jobs k with
      | none => simpa using hjob
      | some jk =>
        by_cases hf : jk.NotificationSent = true
        · simpa [hf] using hjob
        · simp [hf, Ne.symm hk, hjob]

theorem answersFor_cons (c c0 : TrySetCall) (a : Except GoError Bool)
    (log : List (TrySetCall × Except GoError Bool)) :
    answersFor c ((c0, a) :: log) =
      if c0 = c then a :: answersFor c log else answersFor c log := by
  unfold answersFor
  by_cases h : c0 = c
  · simp [h]
  · simp [h]

/-- Once the flag is set, every later call on it answers false. -/
theorem answers_closed (target : TrySetCall) (id : String)
    (htarget : target = .calculationTriggered id ∨ target = .notificationSent id)
    (flag : Job → Bool)
    (hflag : flag = (if target = .calculationTriggered id then
      (fun j => j.CalculationTriggered) else (fun j => j.NotificationSent)))
    (calls : List TrySetCall) :
    ∀ (m : mongoDB) (job : Job), m.jobs id = some job → flag job = true →
      answersFor target (runTrySetCalls calls m).1
        = List.replicate (calls.count target) (.ok false) := by
  induction calls with
  | nil => intro m job _ _; rfl
  | cons c rest ih =>
    intro m job hjob hset
    simp only [runTrySetCalls, answersFor_cons, List.count_cons]
    by_cases hc : c = target
    · subst hc
      have hrun : c.run m = (.ok false, m) := by
        rcases htarget with h | h
        · subst h
          simp only [if_true] at hflag
          subst hflag
          exact run_calc_closed m id job hjob hset
        · subst h
          simp only [reduceCtorEq, if_false] at hflag
          subst hflag
          exact run_notif_closed m id job hjob hset
      simp only [hrun, if_true, beq_self_eq_true, List.replicate_succ]
      rw [ih m job hjob hset]
    · obtain ⟨job1, h1, h2, h3⟩ := run_frame c m id job hjob
      have hset1 : flag job1 = true := by
        rcases htarget with h | h
        · subst h
          simp only [if_true] at hflag
          subst hflag
          simp only []
          rw [h2 hc]
          exact hset
        · subst h
          simp only [reduceCtorEq, if_false] at hflag
          subst hflag
          simp only []
          rw [h3 hc]
          exact hset
      have hbeq : (c == target) = false := by simpa using hc
      simp only [hc, if_false, hbeq, Bool.false_eq_true, add_zero]
      exact ih _ job1 h1 hset1

/-- While the flag is unset, the first call on it wins and all later ones lose. -/
theorem answers_open (target : TrySetCall) (id : String)
    (htarget : target = .calculationTriggered id ∨ target = .notificationSent id)
    (flag : Job → Bool)
    (hflag : flag = (if target = .calculationTriggered id then
      (fun j => j.CalculationTriggered) else (fun j => j.NotificationSent)))
    (calls : List TrySetCall) :
    ∀ (m : mongoDB) (job : Job), m.jobs id = some job → flag job = false →
      answersFor target (runTrySetCalls calls m).1 = firstWins (calls.count target) := by
  induction calls with
  | nil => intro m job _ _; rfl
  | cons c rest ih =>
    intro m job hjob hunset
    simp only [runTrySetCalls, answersFor_cons, List.count_cons]
    by_cases hc : c = target
    · subst hc
      have hrun : (c.run m).1 = .ok true ∧
          ∃ job1, (c.run m).2.jobs id = some job1 ∧ flag job1 = true := by
        rcases htarget with h | h
        · subst h
          simp only [if_true] at hflag
          subst hflag
          obtain ⟨h1, job1, h2, h3, -⟩ := run_calc_open m id job hjob hunset
          exact ⟨h1, job1, h2, h3⟩
        · subst h
          simp only [reduceCtorEq, if_false] at hflag
          subst hflag
          obtain ⟨h1, job1, h2, h3, -⟩ := run_notif_open m id job hjob hunset
          exact ⟨h1, job1, h2, h3⟩
      obtain ⟨h1, job1, h2, h3⟩ := hrun
      simp only [h1, if_true, beq_self_eq_true, firstWins]
      rw [answers_closed c id htarget flag hflag rest _ job1 h2 h3]
    · obtain ⟨job1, h1, h2, h3⟩ := run_frame c m id job hjob
      have hunset1 : flag job1 = false := by
        rcases htarget with h | h
        · subst h
          simp only [if_true] at hflag
          subst hflag
          simp only []
          rw [h2 hc]
          exact hunset
        · subst h
          simp only [reduceCtorEq, if_false] at hflag
          subst hflag
          simp only []
          rw [h3 hc]
          exact hunset
      have hbeq : (c == target) = false := by simpa using hc
      simp only [hc, if_false, hbeq, Bool.false_eq_true, add_zero]
      exact ih _ job1 h1 hunset1

/-- C4: in the store model where each `TrySetCalculationTriggered(id)` /
`TrySetNotificationSent(id)` is one atomic step, for every existing job whose flag starts
false and every finite sequence of compare-and-set calls (in any interleaving, also with
calls on the other flag and on other jobs), exactly one call on that flag of that job, the
first, returns true and every other one returns false. -/
theorem C4_first_cas_wins_all_others_lose (m : mongoDB) (id : String) (job : Job)
    (calls : List TrySetCall) (hjob : m.jobs id = some job) :
    (job.CalculationTriggered = false →
      answersFor (.calculationTriggered id) (runTrySetCalls calls m).1
        = firstWins (calls.count (.calculationTriggered id))) ∧
    (job.NotificationSent = false →
      answersFor (.notificationSent id) (runTrySetCalls calls m).1
        = firstWins (calls.count (.notificationSent id))) :=
  ⟨fun h => answers_open (.calculationTriggered id) id (Or.inl rfl)
      (fun j => j.CalculationTriggered) (by simp) calls m job hjob h,
   fun h => answers_open (.notificationSent id) id (Or.inr rfl)
      (fun j => j.NotificationSent) (by simp) calls m job hjob h⟩

/-- C4 at the store of scenario S1 and five interleaved calls: of the three calls on
`calculationTriggered` of `job1` the first answers true and the others false, and likewise
for the two calls on `notificationSent`. -/
theorem C4_first_cas_wins_all_others_lose_witness :
    fixtures.store.jobs "job1" = some (fixtures.job ["app1"]) ∧
    answersFor (.calculationTriggered "job1")
      (runTrySetCalls [.calculationTriggered "job1", .notificationSent "job1",
        .calculationTriggered "job1", .calculationTriggered "job1",
        .notificationSent "job1"] fixtures.store).1
      = [.ok true, .ok false, .ok false] ∧
    answersFor (.notificationSent "job1")
      (runTrySetCalls [.calculationTriggered "job1", .notificationSent "job1",
        .calculationTriggered "job1", .calculationTriggered "job1",
        .notificationSent "job1"] fixtures.store).1
      = [.ok true, .ok false] := by
  have h := C4_first_cas_wins_all_others_lose fixtures.store "job1" (fixtures.job ["app1"])
    [.calculationTriggered "job1", .notificationSent "job1",
      .calculationTriggered "job1", .calculationTriggered "job1",
      .notificationSent "job1"] (by simp [fixtures.store])
  refine ⟨by simp [fixtures.store], ?_, ?_⟩
  · rw [h.1 rfl]
    simp [firstWins, List.count_cons]
  · rw [h.2 rfl]
    simp [firstWins, List.count_cons]

end database


/-! ## The partial-result handlers and the trigger -/

namespace worker

open spec

theorem isAllDataGathered_mock_facts (r : mock.Returns) (requestID : String)
    (s : mock.Recorder) :
    (isAllDataGathered (mock.handler r) requestID s).2.sends = s.sends ∧
    ((isAllDataGathered (mock.handler r) requestID s).1 = .ok true ↔ mock.triggered r) ∧
    (∀ m, (isAllDataGathered (mock.handler r) requestID s).1 ≠ .panic m) ∧
    (∀ job rows, r.GetJob = .ok job → r.GetAllJobAppResults = .ok rows →
      complete job rows → r.TrySetCalculationTriggered = .ok false →
      (isAllDataGathered (mock.handler r) requestID s).1 = .ok false) := by
  have hcj : (∃ err, r.GetJob = .error err) ∨ (∃ job, r.GetJob = .ok job) := by
    cases r.GetJob with
    | error err => exact Or.inl ⟨err, rfl⟩
    | ok job => exact Or.inr ⟨job, rfl⟩
  have hcr : (∃ err, r.GetAllJobAppResults = .error err) ∨
      (∃ rows, r.GetAllJobAppResults = .ok rows) := by
    cases r.GetAllJobAppResults with
    | error err => exact Or.inl ⟨err, rfl⟩
    | ok rows => exact Or.inr ⟨rows, rfl⟩
  rcases hcj with ⟨err, hjob⟩ | ⟨job, hjob⟩
  · have h : isAllDataGathered (mock.handler r) requestID s
        = (.err (.wrap ("failed to read job " ++ requestID) err), s.called "GetJob") := by
      simp [isAllDataGathered, mock.handler, mock.mockDatabase, hjob]
    rw [h]
    refine ⟨rfl, ⟨fun hh => by simp at hh, ?_⟩, fun m => by simp, ?_⟩
    · rintro ⟨job, rows, hj, -⟩
      rw [hjob] at hj
      simp at hj
    · intro job rows hj
      rw [hjob] at hj
      simp at hj
  · rcases hcr with ⟨err, hrows⟩ | ⟨rows, hrows⟩
    · have h : isAllDataGathered (mock.handler r) requestID s
          = (.err (.wrap ("failed to get all job app results for requestID " ++ requestID) err),
              (s.called "GetJob").called "GetAllJobAppResults") := by
        simp [isAllDataGathered, mock.handler, mock.mockDatabase, hjob, hrows]
      rw [h]
      refine ⟨rfl, ⟨fun hh => by simp at hh, ?_⟩, fun m => by simp, ?_⟩
      · rintro ⟨job1, rows, -, hr, -⟩
        rw [hrows] at hr
        simp at hr
      · intro job1 rows _ hr
        rw [hrows] at hr
        simp at hr
    · rw [isAllDataGathered_mock r requestID s job rows hjob hrows]
      have hc : complete job rows ↔
          (rows.length = job.Service.length ∧ appResultsPopulated rows = true) := by
        unfold complete
        rw [appResultsPopulated_iff]
      have ht : mock.triggered r ↔
          (complete job rows ∧ r.TrySetCalculationTriggered = .ok true) := by
        constructor
        · rintro ⟨job1, rows1, hj, hr, hcomp, hset⟩
          rw [hjob] at hj
          rw [hrows] at hr
          simp only [Except.ok.injEq] at hj hr
          subst hj
          subst hr
          exact ⟨hcomp, hset⟩
        · rintro ⟨hcomp, hset⟩
          exact ⟨job, rows, hjob, hrows, hcomp, hset⟩
      have hsame : ∀ job1 rows1, r.GetJob = .ok job1 → r.GetAllJobAppResults = .ok rows1 →
          complete job1 rows1 → complete job rows := by
        intro job1 rows1 hj hr hcomp
        rw [hjob] at hj
        rw [hrows] at hr
        simp only [Except.ok.injEq] at hj hr
        subst hj
        subst hr
        exact hcomp
      rw [ht]
      by_cases h : rows.length = job.Service.length ∧ appResultsPopulated rows = true
      · have hcomp : complete job rows := hc.mpr h
        simp only [h, and_self, if_true]
        rcases hset : r.TrySetCalculationTriggered with err | set
        · refine ⟨rfl, ⟨fun hh => by simp at hh, fun hh => by simp at hh⟩,
            fun m => by simp, ?_⟩
          intro job1 rows1 _ _ _ hh
          simp at hh
        · refine ⟨rfl, ⟨fun hh => ?_, fun hh => ?_⟩, fun m => by simp, ?_⟩
          · simp only [Outcome.ok.injEq] at hh
            exact ⟨hcomp, by rw [hh]⟩
          · have := hh.2
            simp only [Except.ok.injEq] at this
            rw [this]
          · intro job1 rows1 _ _ _ hh
            simp only [Except.ok.injEq] at hh
            rw [hh]
      · have hncomp : ¬ complete job rows := fun hcomp => h (hc.mp hcomp)
        simp only [h, if_false]
        refine ⟨rfl, ⟨fun hh => by simp at hh, fun hh => absurd hh.1 hncomp⟩,
          fun m => by simp, ?_⟩
        intro job1 rows1 hj hr hcomp _
        exact absurd (hsame job1 rows1 hj hr hcomp) hncomp

theorem checkAndTrigger_mock (r : mock.Returns) (requestID : String) (s : mock.Recorder)
    (hs : s.sends = []) :
    mock.TriggersExactlyWhenWon r requestID (checkAndTrigger (mock.handler r) requestID s) := by
  obtain ⟨h1, h2, h3, h4⟩ := isAllDataGathered_mock_facts r requestID s
  unfold mock.TriggersExactlyWhenWon checkAndTrigger
  cases hres : isAllDataGathered (mock.handler r) requestID s with
  | mk o s1 =>
    rw [hres] at h1 h2 h3 h4
    simp only at h1 h2 h3 h4
    cases o with
    | panic m => exact absurd rfl (h3 m)
    | err err =>
      have hnt : ¬ mock.triggered r := fun ht => by
        have := h2.mpr ht
        simp at this
      refine ⟨fun ht => absurd ht hnt, fun _ => by simp [h1, hs], ?_⟩
      intro job rows hj hr hc hset
      have := h4 job rows hj hr hc hset
      simp at this
    | ok gathered =>
      cases gathered with
      | false =>
        have hnt : ¬ mock.triggered r := fun ht => by
          have := h2.mpr ht
          simp at this
        refine ⟨fun ht => absurd ht hnt, fun _ => by simp [h1, hs], ?_⟩
        intro job rows _ _ _ _
        simp [h1, hs]
      | true =>
        have ht : mock.triggered r := h2.mp rfl
        have hsend : ((mock.handler r).events.Send requestID event.EventTypeCalculationRequested
            event.SourceEFNWorker (.calculationRequested event.NewCalculationRequestedData) s1)
            = (r.Send, { s1 with sends := [mock.calculationRequested requestID] }) := by
          simp [mock.handler, mock.mockSender, h1, hs, mock.calculationRequested]
        simp only [if_true, hsend]
        refine ⟨fun _ => ?_, fun hnt => absurd ht hnt, ?_⟩
        · cases r.Send <;> rfl
        · intro job rows hj hr hc hset
          have := h4 job rows hj hr hc hset
          simp at this

theorem storeTrafficLoop_mock (r : mock.Returns) (data : event.NetworkElementTrafficData)
    (measures : List trafficvolume.TrafficVolumeMeasure) (hwrite : r.write = none)
    (nes : List event.NetworkElementInfo) :
    ∀ s : mock.Recorder,
      (∀ ne ∈ nes, trafficVolumeMapLookup measures ne.NEInstanceID ≠ none) →
      (storeTrafficLoop (mock.handler r) data measures nes s).1 = none ∧
      (storeTrafficLoop (mock.handler r) data measures nes s).2.sends = s.sends := by
  induction nes with
  | nil => intro s _; exact ⟨rfl, rfl⟩
  | cons ne rest ih =>
    intro s hfound
    have hne := hfound ne (List.mem_cons_self _ _)
    obtain ⟨tv, htv⟩ := Option.ne_none_iff_exists'.mp hne
    have hrest := ih (s.called "SetNetworkElementTraffic")
      (fun x hx => hfound x (List.mem_cons_of_mem _ hx))
    simp only [storeTrafficLoop, htv]
    have hw : ∀ md id a t, (mock.handler r).database.SetNetworkElementTraffic md id a t s
        = (none, s.called "SetNetworkElementTraffic") := by
      intro md id a t
      simp [mock.handler, mock.mockDatabase, hwrite]
    rw [hw]
    exact hrest

/-- C5: in each of the three partial-result handlers, once the upstream call and the
partial write have succeeded, a `CalculationRequested` event (empty data, event id =
request id) is handed to the sender if and only if the job is complete and this
invocation's `TrySetCalculationTriggered` returned true; when the job is complete but the
compare-and-set returns false, the handler sends no event and returns success. -/
theorem C5_only_the_cas_winner_emits (r : mock.Returns) (ctx : Context)
    (e : event.CloudEvent) (f : event.Fields)
    (hdata : e.Data = some f) (hwrite : r.write = none) :
    (∀ v, r.RetrieveEnergy = .ok v →
      mock.TriggersExactlyWhenWon r (f.requestId.getD "")
        (handleAppConsumptionRequested (mock.handler r) ctx e mock.start) ∧
      mock.TriggersExactlyWhenWon r (f.requestId.getD "")
        (handleNetworkElementEnergyRequested (mock.handler r) ctx e mock.start)) ∧
    (∀ measures, r.RetrieveTrafficVolumes = .ok measures →
      (∀ ne ∈ f.networkElements.getD [],
        trafficVolumeMapLookup measures ne.NEInstanceID ≠ none) →
      mock.TriggersExactlyWhenWon r (f.requestId.getD "")
        (handleNetworkElementTrafficRequested (mock.handler r) ctx e mock.start)) := by
  refine ⟨fun v henergy => ⟨?_, ?_⟩, fun measures htraffic hfound => ?_⟩
  · have h : handleAppConsumptionRequested (mock.handler r) ctx e mock.start
        = checkAndTrigger (mock.handler r) (f.requestId.getD "")
            (mock.start.called "CreateOrUpdateApplicationResult") := by
      simp [handleAppConsumptionRequested, event.DataAsAppConsumptionData, hdata,
        mock.handler, mock.mockDatabase, henergy, hwrite]
    rw [h]
    exact checkAndTrigger_mock r _ _ rfl
  · have h : handleNetworkElementEnergyRequested (mock.handler r) ctx e mock.start
        = checkAndTrigger (mock.handler r) (f.requestId.getD "")
            (mock.start.called "SetNetworkElementEnergy") := by
      simp [handleNetworkElementEnergyRequested, event.DataAsNetworkElementEnergyData, hdata,
        mock.handler, mock.mockDatabase, henergy, hwrite]
    rw [h]
    exact checkAndTrigger_mock r _ _ rfl
  · obtain ⟨data, hd⟩ : ∃ data, event.DataAsNetworkElementTrafficData e = .ok data ∧
        data.RequestID = f.requestId.getD "" ∧
        data.NetworkElements = f.networkElements.getD [] := by
      simp [event.DataAsNetworkElementTrafficData, hdata]
    obtain ⟨hd1, hd2, hd3⟩ := hd
    obtain ⟨hl1, hl2⟩ := storeTrafficLoop_mock r data measures hwrite data.NetworkElements
      mock.start (by rw [hd3]; exact hfound)
    have hup : ∀ ips nes tp s, (mock.handler r).trafficVolume.RetrieveTrafficVolumes ips nes tp s
        = (.ok measures, s) := by
      intro ips nes tp s
      simp [mock.handler, htraffic]
    unfold handleNetworkElementTrafficRequested
    simp only [hd1, hup]
    cases hloop : storeTrafficLoop (mock.handler r) data measures data.NetworkElements
        mock.start with
    | mk o s2 =>
      rw [hloop] at hl1 hl2
      simp only at hl1 hl2
      subst hl1
      simp only [hd2]
      exact checkAndTrigger_mock r _ _ (by rw [hl2]; rfl)

end worker


namespace worker

/-- C5 at a complete job whose compare-and-set is won: each of the three handlers hands
exactly the `CalculationRequested` event of `job1` to the sender. -/
theorem C5_only_the_cas_winner_emits_witness :
    mock.triggered fixtures.returnsWon ∧
    (handleAppConsumptionRequested (mock.handler fixtures.returnsWon) fixtures.ctx
      (fixtures.received event.EventTypeAppConsumptionRequested) mock.start).2.sends
      = [mock.calculationRequested "job1"] ∧
    (handleNetworkElementEnergyRequested (mock.handler fixtures.returnsWon) fixtures.ctx
      (fixtures.received event.EventTypeNetworkElementEnergyRequested) mock.start).2.sends
      = [mock.calculationRequested "job1"] ∧
    (handleNetworkElementTrafficRequested (mock.handler fixtures.returnsWon) fixtures.ctx
      (fixtures.received event.EventTypeNetworkElementTrafficRequested) mock.start).2.sends
      = [mock.calculationRequested "job1"] := by
  have ht : mock.triggered fixtures.returnsWon :=
    ⟨fixtures.job ["app1"], [fixtures.gatheredRow], rfl, rfl,
      fixtures_gathered_complete, rfl⟩
  have hfound : ∀ ne ∈ fixtures.fields.networkElements.getD [],
      trafficVolumeMapLookup fixtures.measures ne.NEInstanceID ≠ none := by
    simp [fixtures.fields, trafficVolumeMapLookup, fixtures.measures]
  have h := fun e he => C5_only_the_cas_winner_emits fixtures.returnsWon fixtures.ctx e
    fixtures.fields he rfl
  exact ⟨ht, ((h _ rfl).1 1 rfl).1.1 ht, ((h _ rfl).1 1 rfl).2.1 ht,
    ((h _ rfl).2 fixtures.measures rfl hfound).1 ht⟩

end worker


/-! ## The trigger flag and the event -/

namespace worker

/-- C6 fails on the code: `isAllDataGathered` sets `calculationTriggered` before the
`CalculationRequested` event is sent.  On a job that the write of the last missing value
completes, a run whose `Send` fails returns an error, has sent nothing, and leaves the
flag set; the redelivered event then loses the compare-and-set, sends nothing and returns
success, so the calculation is never triggered. -/
theorem C6_flag_set_before_event_is_sent :
    (fixtures.worldAwaitingNEEnergy.db.jobs "job1").map (fun j => j.CalculationTriggered)
      = some false ∧
    (handleNetworkElementEnergyRequested (World.worker fixtures.upstream false) fixtures.ctx
      (fixtures.received event.EventTypeNetworkElementEnergyRequested)
      fixtures.worldAwaitingNEEnergy).1
      = .err (.wrap "Failed to send CalculationRequested event"
          (.errorString "failed to send event")) ∧
    (handleNetworkElementEnergyRequested (World.worker fixtures.upstream false) fixtures.ctx
      (fixtures.received event.EventTypeNetworkElementEnergyRequested)
      fixtures.worldAwaitingNEEnergy).2.sent = [] ∧
    ((handleNetworkElementEnergyRequested (World.worker fixtures.upstream false) fixtures.ctx
      (fixtures.received event.EventTypeNetworkElementEnergyRequested)
      fixtures.worldAwaitingNEEnergy).2.db.jobs "job1").map (fun j => j.CalculationTriggered)
      = some true ∧
    (handleNetworkElementEnergyRequested (World.worker fixtures.upstream true) fixtures.ctx
      (fixtures.received event.EventTypeNetworkElementEnergyRequested)
      (handleNetworkElementEnergyRequested (World.worker fixtures.upstream false) fixtures.ctx
        (fixtures.received event.EventTypeNetworkElementEnergyRequested)
        fixtures.worldAwaitingNEEnergy).2).1 = .ok none ∧
    (handleNetworkElementEnergyRequested (World.worker fixtures.upstream true) fixtures.ctx
      (fixtures.received event.EventTypeNetworkElementEnergyRequested)
      (handleNetworkElementEnergyRequested (World.worker fixtures.upstream false) fixtures.ctx
        (fixtures.received event.EventTypeNetworkElementEnergyRequested)
        fixtures.worldAwaitingNEEnergy).2).2.sent = [] := by
  simp [handleNetworkElementEnergyRequested, checkAndTrigger, isAllDataGathered,
    appResultsPopulated, networkElementsPopulated,
    event.DataAsNetworkElementEnergyData, fixtures.received, fixtures.fields,
    World.worker, World.database, World.sender, World.onDB, fixtures.upstream,
    fixtures.worldAwaitingNEEnergy, fixtures.storeAwaitingNEEnergy, fixtures.job, fixtures.row,
    database.mongoDB.GetJob, database.mongoDB.GetAllJobAppResults,
    database.mongoDB.SetNetworkElementEnergy, database.mongoDB.TrySetCalculationTriggered,
    database.mongoDB.upsert, database.mongoDB.setNetworkElement]

end worker


/-! ## Notify: at most one POST per request -/

namespace World

/-- What one run of `Handle` does to the store and to the sink: either nothing, or it won
the compare-and-set of the request it parsed and posted at most once. -/
theorem deliver_cases (cfg : config.HTTP) (d : Delivery) (w : World) :
    ((deliver cfg d w).2.db = w.db ∧ (deliver cfg d w).2.posts = w.posts) ∨
    (∃ p job, notification.parseNotification d.e = .ok p ∧ w.db.jobs p.1 = some job ∧
      job.NotificationSent = false ∧
      (deliver cfg d w).2.db = (mongoDB.TrySetNotificationSent p.1 w.db).2 ∧
      ((deliver cfg d w).2.posts = w.posts ∨
        ∃ req, (deliver cfg d w).2.posts = w.posts ++ [req])) := by
  simp only [deliver, notification.Handle]
  by_cases hty : (d.e.EventType != event.EventTypeNotificationRequested &&
      d.e.EventType != event.EventTypeNotificationErrorRequested) = true
  · left
    simp only [hty, if_true, and_self]
  · simp only [hty, if_false, Bool.false_eq_true]
    cases hp : notification.parseNotification d.e with
    | error err => left; exact ⟨rfl, rfl⟩
    | ok p =>
      obtain ⟨pid, v⟩ := p
      cases hj : w.db.jobs pid with
      | none =>
        left
        simp [notify, World.database, onDB, mongoDB.TrySetNotificationSent, hj]
      | some job =>
        cases hf : job.NotificationSent with
        | true =>
          left
          simp [notify, World.database, onDB, mongoDB.TrySetNotificationSent, hj, hf]
        | false =>
          right
          refine ⟨(pid, v), job, rfl, hj, hf, ?_⟩
          simp only [notify, World.database, onDB, mongoDB.TrySetNotificationSent, hj, hf,
            mongoDB.GetJob, runtime]
          simp only [bne_iff_ne, ne_eq, Bool.false_eq_true, not_false_eq_true, if_true,
            Bool.not_true, if_false]
          cases d.response with
          | error err => split_ifs <;> simp
          | ok status => split_ifs <;> simp <;> split_ifs <;> simp

theorem deliver_step (cfg : config.HTTP) (rid : String) (d : Delivery) (w : World)
    (hd : ∀ p, notification.parseNotification d.e = .ok p → p.1 = rid) :
    (¬ awaiting rid w →
      (deliver cfg d w).2.posts = w.posts ∧ ¬ awaiting rid (deliver cfg d w).2) ∧
    ((deliver cfg d w).2.posts = w.posts ∨
      (¬ awaiting rid (deliver cfg d w).2 ∧
        ∃ req, (deliver cfg d w).2.posts = w.posts ++ [req])) := by
  rcases deliver_cases cfg d w with ⟨hdb, hposts⟩ | ⟨p, job, hp, hj, hf, hdb, hposts⟩
  · refine ⟨fun hna => ⟨hposts, ?_⟩, Or.inl hposts⟩
    unfold awaiting at hna ⊢
    rw [hdb]
    exact hna
  · have hpid := hd p hp
    rw [hpid] at hj hdb
    have hclosed : ¬ awaiting rid (deliver cfg d w).2 := by
      rintro ⟨job1, hj1, hf1⟩
      rw [hdb] at hj1
      simp [mongoDB.TrySetNotificationSent, hj, hf] at hj1
      rw [← hj1] at hf1
      simp at hf1
    refine ⟨fun hna => absurd ⟨job, hj, hf⟩ hna, ?_⟩
    rcases hposts with h | ⟨req, h⟩
    · exact Or.inl h
    · exact Or.inr ⟨hclosed, req, h⟩

theorem deliverAll_posts (cfg : config.HTTP) (rid : String) (ds : List Delivery) :
    ∀ w : World, (∀ d ∈ ds, ∀ p, notification.parseNotification d.e = .ok p → p.1 = rid) →
      (¬ awaiting rid w → (deliverAll cfg ds w).posts = w.posts) ∧
      ((deliverAll cfg ds w).posts = w.posts ∨
        ∃ req, (deliverAll cfg ds w).posts = w.posts ++ [req]) := by
  induction ds with
  | nil => intro w _; exact ⟨fun _ => rfl, Or.inl rfl⟩
  | cons d rest ih =>
    intro w hd
    obtain ⟨hA, hB⟩ := deliver_step cfg rid d w (hd d (List.mem_cons_self _ _))
    obtain ⟨ih1, ih2⟩ := ih (deliver cfg d w).2 (fun x hx => hd x (List.mem_cons_of_mem _ hx))
    simp only [deliverAll]
    refine ⟨fun hna => ?_, ?_⟩
    · obtain ⟨h1, h2⟩ := hA hna
      rw [ih1 h2, h1]
    · rcases hB with h | ⟨hcl, req, hreq⟩
      · rw [h] at ih2
        exact ih2
      · rw [ih1 hcl, hreq]
        exact Or.inr ⟨req, rfl⟩

/-- C7: over the store model with atomic `TrySetNotificationSent`, for every request id and
every finite sequence of runs of the Notify `Handle` on events carrying that request id
(duplicates in any order, whatever the sink answers to a POST), the sink receives at most
one POST; and a run reaches the POST only if its `TrySetNotificationSent` returned true. -/
theorem C7_at_most_one_post_per_request (cfg : config.HTTP) (rid : String)
    (ds : List Delivery) (w : World)
    (hd : ∀ d ∈ ds, ∀ p, notification.parseNotification d.e = .ok p → p.1 = rid) :
    ((deliverAll cfg ds w).posts = w.posts ∨
      ∃ req, (deliverAll cfg ds w).posts = w.posts ++ [req]) ∧
    (∀ d ∈ ds, ∀ w1 : World, (deliver cfg d w1).2.posts ≠ w1.posts →
      (mongoDB.TrySetNotificationSent rid w1.db).1 = .ok true) := by
  refine ⟨(deliverAll_posts cfg rid ds w hd).2, ?_⟩
  intro d hdm w1 hne
  rcases deliver_cases cfg d w1 with ⟨-, hposts⟩ | ⟨p, job, hp, hj, hf, -, -⟩
  · exact absurd hposts hne
  · rw [hd d hdm p hp] at hj
    simp [mongoDB.TrySetNotificationSent, hj, hf]

/-- C7 at scenario S1 with the notification delivered three times (a success event whose
POST the sink answers with 500, an error event, and the success event again): the sink
receives at most one POST. -/
theorem C7_at_most_one_post_per_request_witness :
    (∀ d ∈ [fixtures.delivery event.EventTypeNotificationRequested 500,
            fixtures.delivery event.EventTypeNotificationErrorRequested 200,
            fixtures.delivery event.EventTypeNotificationRequested 200],
      ∀ p, notification.parseNotification d.e = .ok p → p.1 = "job1") ∧
    ((deliverAll ⟨false⟩
        [fixtures.delivery event.EventTypeNotificationRequested 500,
         fixtures.delivery event.EventTypeNotificationErrorRequested 200,
         fixtures.delivery event.EventTypeNotificationRequested 200] fixtures.world).posts
        = fixtures.world.posts ∨
      ∃ req, (deliverAll ⟨false⟩
        [fixtures.delivery event.EventTypeNotificationRequested 500,
         fixtures.delivery event.EventTypeNotificationErrorRequested 200,
         fixtures.delivery event.EventTypeNotificationRequested 200] fixtures.world).posts
        = fixtures.world.posts ++ [req]) := by
  have hd : ∀ d ∈ [fixtures.delivery event.EventTypeNotificationRequested 500,
            fixtures.delivery event.EventTypeNotificationErrorRequested 200,
            fixtures.delivery event.EventTypeNotificationRequested 200],
      ∀ p, notification.parseNotification d.e = .ok p → p.1 = "job1" := by
    intro d hdm p hp
    simp only [List.mem_cons, List.mem_singleton, List.not_mem_nil, or_false] at hdm
    rcases hdm with rfl | rfl | rfl <;>
      · simp [notification.parseNotification, fixtures.delivery, fixtures.received,
          fixtures.fields, event.DataAsNotificationRequestedData,
          event.DataAsNotificationErrorRequestedData, event.EventTypeNotificationRequested,
          event.EventTypeNotificationErrorRequested] at hp
        rw [← hp]
  exact ⟨hd, (C7_at_most_one_post_per_request ⟨false⟩ "job1" _ fixtures.world hd).1⟩

end World


/-! ## Upstream failures in the partial-result handlers -/

namespace worker

/-- C11: in `handleAppConsumptionRequested` and `handleNetworkElementEnergyRequested`, for
every error of the observability client: a throttling error makes the handler return an
error, send no event and call no store method; any other error makes it send exactly one
`NotificationErrorRequested` event (event id and `requestId` the event's request id,
status 500), call no store method, and return success when that send succeeds. -/
theorem C11_observability_errors_classified (r : mock.Returns) (ctx : Context)
    (e : event.CloudEvent) (f : event.Fields) (err : GoError)
    (hdata : e.Data = some f) (herr : r.RetrieveEnergy = .error err) :
    (cloudobservability.IsThrottlingError err = true →
      (handleAppConsumptionRequested (mock.handler r) ctx e mock.start).1.isErr = true ∧
      (handleAppConsumptionRequested (mock.handler r) ctx e mock.start).2 = mock.start ∧
      (handleNetworkElementEnergyRequested (mock.handler r) ctx e mock.start).1.isErr = true ∧
      (handleNetworkElementEnergyRequested (mock.handler r) ctx e mock.start).2 = mock.start) ∧
    (cloudobservability.IsThrottlingError err = false →
      (handleAppConsumptionRequested (mock.handler r) ctx e mock.start).2.sends
        = [spec.errorNotification (f.requestId.getD "")
            "Failed to retrieve app energy consumption"] ∧
      (handleAppConsumptionRequested (mock.handler r) ctx e mock.start).2.calls = [] ∧
      (r.Send = none →
        (handleAppConsumptionRequested (mock.handler r) ctx e mock.start).1 = .ok none) ∧
      (handleNetworkElementEnergyRequested (mock.handler r) ctx e mock.start).2.sends
        = [spec.errorNotification (f.requestId.getD "")
            "Failed to retrieve network element energy consumption"] ∧
      (handleNetworkElementEnergyRequested (mock.handler r) ctx e mock.start).2.calls = [] ∧
      (r.Send = none →
        (handleNetworkElementEnergyRequested (mock.handler r) ctx e mock.start).1
          = .ok none)) := by
  constructor
  · intro ht
    simp [handleAppConsumptionRequested, handleNetworkElementEnergyRequested,
      event.DataAsAppConsumptionData, event.DataAsNetworkElementEnergyData, hdata,
      mock.handler, herr, ht, Outcome.isErr]
  · intro ht
    simp [handleAppConsumptionRequested, handleNetworkElementEnergyRequested,
      event.DataAsAppConsumptionData, event.DataAsNetworkElementEnergyData, hdata,
      mock.handler, herr, ht, sendErrorNotification, mock.mockSender, mock.start,
      spec.errorNotification, event.NewNotificationErrorRequestedData, event.StatusText]
    constructor
    · cases hs : r.Send <;> simp [hs]
    · cases hs : r.Send <;> simp [hs]

/-- C11 at the two errors of the error stub: the throttling error "Max requests queued per
destination 1024 exceeded" is returned to the broker with nothing sent, and the permanent
failure gives the error notification of `job1` and success. -/
theorem C11_observability_errors_classified_witness :
    ((handleAppConsumptionRequested
        (mock.handler (fixtures.returnsEnergyError
          (.cloudObsThrottling "Max requests queued per destination 1024 exceeded")))
        fixtures.ctx (fixtures.received event.EventTypeAppConsumptionRequested)
        mock.start).1.isErr = true ∧
      (handleAppConsumptionRequested
        (mock.handler (fixtures.returnsEnergyError
          (.cloudObsThrottling "Max requests queued per destination 1024 exceeded")))
        fixtures.ctx (fixtures.received event.EventTypeAppConsumptionRequested)
        mock.start).2 = mock.start) ∧
    ((handleNetworkElementEnergyRequested
        (mock.handler (fixtures.returnsEnergyError (.errorString "permanent failure")))
        fixtures.ctx (fixtures.received event.EventTypeNetworkElementEnergyRequested)
        mock.start).2.sends
        = [spec.errorNotification "job1"
            "Failed to retrieve network element energy consumption"] ∧
      (handleNetworkElementEnergyRequested
        (mock.handler (fixtures.returnsEnergyError (.errorString "permanent failure")))
        fixtures.ctx (fixtures.received event.EventTypeNetworkElementEnergyRequested)
        mock.start).1 = .ok none) := by
  have h1 := (C11_observability_errors_classified
    (fixtures.returnsEnergyError
      (.cloudObsThrottling "Max requests queued per destination 1024 exceeded"))
    fixtures.ctx (fixtures.received event.EventTypeAppConsumptionRequested) fixtures.fields
    _ rfl rfl).1 rfl
  have h2 := (C11_observability_errors_classified
    (fixtures.returnsEnergyError (.errorString "permanent failure"))
    fixtures.ctx (fixtures.received event.EventTypeNetworkElementEnergyRequested)
    fixtures.fields _ rfl rfl).2 rfl
  exact ⟨⟨h1.1, h1.2.1⟩, ⟨h2.2.2.2.1, h2.2.2.2.2.2 rfl⟩⟩

/-- C12 fails on the code: `handleNetworkElementTrafficRequested` does not classify the
error of `RetrieveTrafficVolumes`.  On the permanent failure `ErrPermanentFailure`, which
is not a throttling error, it returns an error to the broker and sends no
`NotificationErrorRequested` event, where the two observability handlers send the error
notification and return success. -/
theorem C12_traffic_error_is_never_classified :
    trafficvolume.IsThrottlingError trafficvolume.ErrPermanentFailure = false ∧
    (handleNetworkElementTrafficRequested
      (mock.handler (fixtures.returnsTrafficError trafficvolume.ErrPermanentFailure))
      fixtures.ctx (fixtures.received event.EventTypeNetworkElementTrafficRequested)
      mock.start).1
      = .err (.wrap "Failed to retrieve traffic volumes from Traffic Volume API"
          trafficvolume.ErrPermanentFailure) ∧
    (handleNetworkElementTrafficRequested
      (mock.handler (fixtures.returnsTrafficError trafficvolume.ErrPermanentFailure))
      fixtures.ctx (fixtures.received event.EventTypeNetworkElementTrafficRequested)
      mock.start).2.sends = [] ∧
    (handleNetworkElementEnergyRequested
      (mock.handler (fixtures.returnsEnergyError trafficvolume.ErrPermanentFailure))
      fixtures.ctx (fixtures.received event.EventTypeNetworkElementEnergyRequested)
      mock.start).1 = .ok none := by
  refine ⟨rfl, ?_, ?_, ?_⟩
  · simp [handleNetworkElementTrafficRequested, event.DataAsNetworkElementTrafficData,
      fixtures.received, mock.handler, fixtures.returnsTrafficError, fixtures.returns]
  · simp [handleNetworkElementTrafficRequested, event.DataAsNetworkElementTrafficData,
      fixtures.received, mock.handler, fixtures.returnsTrafficError, fixtures.returns,
      mock.start]
  · simp [handleNetworkElementEnergyRequested, event.DataAsNetworkElementEnergyData,
      fixtures.received, mock.handler, fixtures.returnsEnergyError, fixtures.returns,
      trafficvolume.ErrPermanentFailure, cloudobservability.IsThrottlingError,
      sendErrorNotification, mock.mockSender]

end worker

/-! ## Gather-info -/

namespace worker

/-- C13, as the code has it: for a `GatherInfoRequested(requestId, appId)` event whose job
is missing from the store, `handleGatherInfoRequested` returns the error of the failed read
to the broker and leaves the world as it was: it sends no event, neither an error
notification nor a follow-on data-gathering event. -/
theorem C13_missing_job_is_returned_as_error (up : World.Upstream) (brokerUp : Bool)
    (u : uuid.SHA1) (ctx : Context) (e : event.CloudEvent) (f : event.Fields) (w : World)
    (hdata : e.Data = some f) (hjob : w.db.jobs (f.requestId.getD "") = none) :
    handleGatherInfoRequested (World.worker up brokerUp) u ctx e w
      = (.err (.wrap ("failed to read job " ++ f.requestId.getD "" ++ " from DB")
          ErrNoDocuments), w) := by
  simp [handleGatherInfoRequested, event.DataAsGatherInfoData, hdata, World.worker,
    World.database, World.onDB, mongoDB.GetJob, hjob]

/-- C13 at the event of `job1` on an empty store. -/
theorem C13_missing_job_is_returned_as_error_witness :
    (fixtures.received event.EventTypeGatherInfoRequested).Data = some fixtures.fields ∧
    fixtures.emptyWorld.db.jobs (fixtures.fields.requestId.getD "") = none ∧
    handleGatherInfoRequested (World.worker fixtures.upstream true) fixtures.uuid fixtures.ctx
      (fixtures.received event.EventTypeGatherInfoRequested) fixtures.emptyWorld
      = (.err (.wrap ("failed to read job " ++ fixtures.fields.requestId.getD "" ++ " from DB")
          ErrNoDocuments), fixtures.emptyWorld) :=
  ⟨rfl, rfl, C13_missing_job_is_returned_as_error _ _ _ _ _ _ _ rfl rfl⟩

/-- C13 fails as stated: on an empty store the gather-info event of `job1` is answered
with an error, not with success, and no error-notification event is sent. -/
theorem C13_counterexample :
    fixtures.emptyWorld.db.jobs "job1" = none ∧
    (handleGatherInfoRequested (World.worker fixtures.upstream true) fixtures.uuid fixtures.ctx
      (fixtures.received event.EventTypeGatherInfoRequested) fixtures.emptyWorld).1.isErr
      = true ∧
    (handleGatherInfoRequested (World.worker fixtures.upstream true) fixtures.uuid fixtures.ctx
      (fixtures.received event.EventTypeGatherInfoRequested) fixtures.emptyWorld).1
      ≠ .ok none ∧
    (handleGatherInfoRequested (World.worker fixtures.upstream true) fixtures.uuid fixtures.ctx
      (fixtures.received event.EventTypeGatherInfoRequested) fixtures.emptyWorld).2.sent
      = [] := by
  simp [handleGatherInfoRequested, event.DataAsGatherInfoData, fixtures.received,
    fixtures.fields, World.worker, World.database, World.onDB, mongoDB.GetJob,
    fixtures.emptyWorld, Outcome.isErr]

theorem sendNetworkElementEnergyEvents_mock (r : mock.Returns) (u : uuid.SHA1)
    (jobID appID : String) (tp : Option models.TimePeriod) (n : Int) (hsend : r.Send = none)
    (nes : List orchestrator.NEInfo) :
    ∀ s : mock.Recorder,
      sendNetworkElementEnergyEvents (mock.handler r) u jobID appID tp n nes s
        = (none, { s with sends := s.sends ++ nes.map (fun ne =>
            { ID := event.EventIDForNE u jobID appID ne.InstanceID,
              EventType := event.EventTypeNetworkElementEnergyRequested,
              Source := event.SourceEFNWorker,
              Data := .networkElementEnergy
                { RequestID := jobID, ApplicationInstanceID := appID,
                  NEInstanceID := ne.InstanceID, NEInfraType := ne.InfraType,
                  TimePeriod := tp, NumberOfTotalNEs := n } }) }) := by
  have h3 : ∀ id ty src d (s1 : mock.Recorder), (mock.handler r).events.Send id ty src d s1
      = (none, { s1 with sends := s1.sends ++
          [{ ID := id, EventType := ty, Source := src, Data := d }] }) := by
    intro id ty src d s1
    simp [mock.handler, mock.mockSender, hsend]
  induction nes with
  | nil => intro s; simp [sendNetworkElementEnergyEvents]
  | cons ne rest ih =>
    intro s
    simp only [sendNetworkElementEnergyEvents, h3]
    rw [ih]
    simp [event.NewNetworkElementEnergyData]

theorem handleGatherInfoRequested_mock (r : mock.Returns) (u : uuid.SHA1) (ctx : Context)
    (e : event.CloudEvent) (f : event.Fields) (job : Job) (info : orchestrator.Information)
    (s : mock.Recorder)
    (hdata : e.Data = some f) (hjob : r.GetJob = .ok job)
    (hinfo : r.GatherInformation = .ok info) (hsend : r.Send = none) :
    handleGatherInfoRequested (mock.handler r) u ctx e s
      = (.ok none, { calls := s.calls ++ ["GetJob"],
                     sends := s.sends ++ spec.gatherInfoFollowOns u (f.requestId.getD "")
                       (f.applicationInstanceId.getD "") job.TimePeriod info }) := by
  unfold handleGatherInfoRequested
  simp only [event.DataAsGatherInfoData, hdata]
  have h1 : (mock.handler r).database.GetJob (f.requestId.getD "") s
      = (.ok job, s.called "GetJob") := by
    simp [mock.handler, mock.mockDatabase, hjob]
  have h2 : ∀ x s1, (mock.handler r).orchestrator.GatherInformation x s1 = (.ok info, s1) := by
    intro x s1
    simp [mock.handler, hinfo]
  have h3 : ∀ id ty src d (s1 : mock.Recorder), (mock.handler r).events.Send id ty src d s1
      = (none, { s1 with sends := s1.sends ++
          [{ ID := id, EventType := ty, Source := src, Data := d }] }) := by
    intro id ty src d s1
    simp [mock.handler, mock.mockSender, hsend]
  simp only [h1, h2, h3, sendNetworkElementEnergyEvents_mock r u _ _ _ _ hsend]
  simp [spec.gatherInfoFollowOns, mock.Recorder.called, event.NewAppConsumptionData,
    event.NewNetworkElementTrafficData, event.EventIDForApp, event.EventIDForNE,
    event.EventIDForTraffic, spec.UUIDv5Pair, spec.UUIDv5Triple, spec.nsApp, spec.nsNE,
    spec.nsTraffic]

/-- C14: for every `GatherInfoRequested(requestId, appId)` whose job exists and for which
the orchestrator returns `N` network elements, with every send succeeding,
`handleGatherInfoRequested` succeeds and sends exactly the `N + 2` events of §4.3: one
`AppConsumptionRequested` with id `UUIDv5(nsApp, requestId ‖ 0x00 ‖ appId)` and
`numberOfTotalNEs = N`, one `NetworkElementEnergyRequested` per network element with id
`UUIDv5(nsNE, requestId ‖ 0x00 ‖ appId ‖ 0x00 ‖ neInstanceId)` and `numberOfTotalNEs = N`,
and one `NetworkElementTrafficRequested` with id `UUIDv5(nsTraffic, requestId ‖ 0x00 ‖ appId)`
listing all network elements in orchestrator order. These are the values of
`EventIDForApp`, `EventIDForNE` and `EventIDForTraffic`, functions of
`(requestId, appId, neInstanceId)` only; handling the same event twice sends the same
events, hence the same ids, again. -/
theorem C14_gather_info_follow_on_events (r : mock.Returns) (u : uuid.SHA1) (ctx : Context)
    (e : event.CloudEvent) (f : event.Fields) (job : Job) (info : orchestrator.Information)
    (s : mock.Recorder)
    (hdata : e.Data = some f) (hjob : r.GetJob = .ok job)
    (hinfo : r.GatherInformation = .ok info) (hsend : r.Send = none) :
    (handleGatherInfoRequested (mock.handler r) u ctx e s).1 = .ok none ∧
    (handleGatherInfoRequested (mock.handler r) u ctx e s).2.sends
      = s.sends ++ spec.gatherInfoFollowOns u (f.requestId.getD "")
          (f.applicationInstanceId.getD "") job.TimePeriod info ∧
    (spec.gatherInfoFollowOns u (f.requestId.getD "")
      (f.applicationInstanceId.getD "") job.TimePeriod info).length = info.NE.length + 2 ∧
    (handleGatherInfoRequested (mock.handler r) u ctx e
      (handleGatherInfoRequested (mock.handler r) u ctx e s).2).2.sends
      = s.sends ++ spec.gatherInfoFollowOns u (f.requestId.getD "")
          (f.applicationInstanceId.getD "") job.TimePeriod info
        ++ spec.gatherInfoFollowOns u (f.requestId.getD "")
          (f.applicationInstanceId.getD "") job.TimePeriod info ∧
    (∀ requestID appID neInstanceID,
      event.EventIDForApp u requestID appID
        = spec.UUIDv5Pair u (spec.nsApp u) requestID appID ∧
      event.EventIDForNE u requestID appID neInstanceID
        = spec.UUIDv5Triple u (spec.nsNE u) requestID appID neInstanceID ∧
      event.EventIDForTraffic u requestID appID
        = spec.UUIDv5Pair u (spec.nsTraffic u) requestID appID) := by
  have H := fun s1 => handleGatherInfoRequested_mock r u ctx e f job info s1 hdata hjob
    hinfo hsend
  rw [H, H]
  refine ⟨rfl, rfl, ?_, ?_, fun _ _ _ => ⟨rfl, rfl, rfl⟩⟩
  · simp [spec.gatherInfoFollowOns]
  · simp

/-- C14 at scenario S1: the job exists and the orchestrator returns two network elements;
four events are sent. -/
theorem C14_gather_info_follow_on_events_witness :
    (handleGatherInfoRequested (mock.handler fixtures.returnsGatherInfo) fixtures.uuid
      fixtures.ctx (fixtures.received event.EventTypeGatherInfoRequested) mock.start).1
      = .ok none ∧
    (handleGatherInfoRequested (mock.handler fixtures.returnsGatherInfo) fixtures.uuid
      fixtures.ctx (fixtures.received event.EventTypeGatherInfoRequested) mock.start).2.sends
      = spec.gatherInfoFollowOns fixtures.uuid "job1" "app1" none fixtures.information ∧
    (spec.gatherInfoFollowOns fixtures.uuid "job1" "app1" none fixtures.information).length
      = 4 := by
  have h := C14_gather_info_follow_on_events fixtures.returnsGatherInfo fixtures.uuid
    fixtures.ctx (fixtures.received event.EventTypeGatherInfoRequested) fixtures.fields
    (fixtures.job ["app1"]) fixtures.information mock.start rfl rfl rfl rfl
  exact ⟨h.1, h.2.1, h.2.2.1⟩

end worker

/-! ## API: validation -/

namespace api

/-- A value inside the range of `int64` is not changed by the wrap-around. -/
theorem wrapInt64_of_range (x : Int) (h1 : -(2 ^ 63) ≤ x) (h2 : x < 2 ^ 63) :
    time.wrapInt64 x = x := by
  unfold time.wrapInt64
  rw [Int.emod_eq_of_lt (by omega) (by omega)]
  omega

/-- For a configured `MaxTimePeriodDays` between 0 and 106751 the `time.Duration`
arithmetic of `oldestAllowedDate` does not overflow: it is `now` minus that many days. -/
theorem oldestAllowedDate_of_days (cfg : config.API) (now : Int)
    (h1 : 0 ≤ cfg.MaxTimePeriodDays) (h2 : cfg.MaxTimePeriodDays ≤ 106751) :
    oldestAllowedDate cfg now = now - cfg.MaxTimePeriodDays * (24 * time.Hour) := by
  unfold oldestAllowedDate maxDuration
  rw [wrapInt64_of_range (cfg.MaxTimePeriodDays * 24) (by omega) (by omega)]
  rw [wrapInt64_of_range (cfg.MaxTimePeriodDays * 24 * time.Hour)
    (by unfold time.Hour; omega) (by unfold time.Hour; omega)]
  rw [wrapInt64_of_range (-(cfg.MaxTimePeriodDays * 24 * time.Hour))
    (by unfold time.Hour; omega) (by unfold time.Hour; omega)]
  ring

/-- C16: a request with an empty service list is answered 400, and so is a request with a
non-empty service list whose `timePeriod` has an `endDate` not strictly after `startDate`
(`endDate == startDate` included); in both cases the handler returns before it touches a
collaborator, so the state is unchanged: no job stored, no event sent. -/
theorem C16_bad_period_or_empty_service {σ : Type} (hd : handler σ) (s : σ)
    (u : uuid.SHA1) (call : Call) (kind : String)
    (req : models.ReportCreationRequest) (hbound : call.bound = .ok req) :
    (req.Service = [] →
      (handleReportCalculation hd u call kind s).1.status
        = 400 ∧
      (handleReportCalculation hd u call kind s).2
        = s) ∧
    (req.Service ≠ [] → ∀ tp endDate, req.TimePeriod = some tp → tp.EndDate = some endDate →
      endDate ≤ tp.StartDate →
      (handleReportCalculation hd u call kind s).1.status
        = 400 ∧
      (handleReportCalculation hd u call kind s).2
        = s) := by
  constructor
  · intro hsv
    simp [handleReportCalculation, hbound, hsv, servererr.SendFromStatusCode]
  · intro hsv tp endDate htp hend hle
    have hlen : req.Service.length ≠ 0 := by
      simpa [List.length_eq_zero] using hsv
    simp [handleReportCalculation, hbound, hlen, withTimePeriod, htp, hend,
      not_lt.mpr hle, servererr.SendFromStatusCode]


/-- Witness of C16: `endDate == startDate` on the energy endpoint. -/
theorem C16_bad_period_or_empty_service_witness :
    (fixtures.request ["app1"] (1000 * fixtures.day) (some (1000 * fixtures.day))
      [models.EventTypeNotificationEnergy]).Service ≠ [] ∧
    (handleReportCalculation (World.api fixtures.apiConfig none (fun _ => true)) fixtures.uuid
      (fixtures.call (fixtures.request ["app1"] (1000 * fixtures.day)
        (some (1000 * fixtures.day)) [models.EventTypeNotificationEnergy]))
      RequestKindEnergyConsumption fixtures.emptyWorld).1.status = 400 ∧
    (handleReportCalculation (World.api fixtures.apiConfig none (fun _ => true)) fixtures.uuid
      (fixtures.call (fixtures.request ["app1"] (1000 * fixtures.day)
        (some (1000 * fixtures.day)) [models.EventTypeNotificationEnergy]))
      RequestKindEnergyConsumption fixtures.emptyWorld).2 = fixtures.emptyWorld :=
  ⟨by simp [fixtures.request],
   (C16_bad_period_or_empty_service (World.api fixtures.apiConfig none (fun _ => true))
      fixtures.emptyWorld fixtures.uuid
      (fixtures.call (fixtures.request ["app1"] (1000 * fixtures.day)
        (some (1000 * fixtures.day)) [models.EventTypeNotificationEnergy]))
      RequestKindEnergyConsumption _ rfl).2 (by simp [fixtures.request])
      { StartDate := 1000 * fixtures.day, EndDate := some (1000 * fixtures.day) } (1000 * fixtures.day) rfl rfl
      (le_refl _)⟩

/-- C17, as the code has it: for a request with a non-empty service list, a `timePeriod`
whose `endDate` (if present) is strictly after `startDate`, and a `subscriptionRequest.types`
that is empty or starts with the type of the endpoint: if `startDate` or `endDate` is later
than `now`, or earlier than `oldestAllowedDate`, the response is 400 with code
`OUT_OF_RANGE` and the state is unchanged (no job stored). `oldestAllowedDate` is
`now - MaxTimePeriodDays` days whenever `0 ≤ MaxTimePeriodDays ≤ 106751`. -/
theorem C17_out_of_range {σ : Type} (hd : handler σ) (s : σ)
    (u : uuid.SHA1) (call : Call) (kind : String)
    (req : models.ReportCreationRequest) (tp : models.TimePeriod)
    (hbound : call.bound = .ok req) (hservice : req.Service ≠ [])
    (htp : req.TimePeriod = some tp)
    (hend : ∀ endDate, tp.EndDate = some endDate → tp.StartDate < endDate)
    (htypes : ∀ actualType rest, req.SubscriptionRequest.Types = actualType :: rest →
      actualType = getExpectedEventType kind)
    (hrange : call.now < tp.StartDate ∨ (∃ endDate, tp.EndDate = some endDate ∧
        call.now < endDate) ∨ tp.StartDate < oldestAllowedDate hd.config call.now ∨
      (∃ endDate, tp.EndDate = some endDate ∧ endDate < oldestAllowedDate hd.config call.now)) :
    (∃ msg, (handleReportCalculation hd u call kind s).1
      = servererr.SendFromStatusCodeWithCode 400 "OUT_OF_RANGE" msg) ∧
    (handleReportCalculation hd u call kind s).2
      = s ∧
    (0 ≤ hd.config.MaxTimePeriodDays → hd.config.MaxTimePeriodDays ≤ 106751 →
      oldestAllowedDate hd.config call.now
        = call.now - hd.config.MaxTimePeriodDays * (24 * time.Hour)) := by
  refine ⟨?_, ?_, oldestAllowedDate_of_days hd.config call.now⟩
  all_goals
    have hlen : req.Service.length ≠ 0 := by
      simpa [List.length_eq_zero] using hservice
    have hT : req.SubscriptionRequest.Types = [] ∨
        ∃ rest, req.SubscriptionRequest.Types = getExpectedEventType kind :: rest := by
      cases hT : req.SubscriptionRequest.Types with
      | nil => exact Or.inl rfl
      | cons a rest => exact Or.inr ⟨rest, by rw [htypes a rest hT]⟩
    simp only [handleReportCalculation, hbound, hlen, if_false, withTimePeriod, htp]
    cases hE : tp.EndDate with
    | none =>
      simp only [hE] at hrange
      rcases hT with hT | ⟨rest, hT⟩ <;>
      · simp only [hT, ne_eq, not_true_eq_false, if_false, Bool.false_eq_true]
        rcases hrange with h | ⟨e, h, -⟩ | h | ⟨e, h, -⟩
        · simp [h]
        · simp at h
        · by_cases h0 : call.now < tp.StartDate
          · simp [h0]
          · simp [h0, h]
        · simp at h
    | some e =>
      have hse := hend e hE
      simp only [hE] at hrange
      rcases hT with hT | ⟨rest, hT⟩ <;>
      · simp only [hT, ne_eq, not_true_eq_false, if_false, hse, decide_True, Bool.not_true,
          Bool.false_eq_true]
        by_cases h0 : call.now < tp.StartDate
        · simp [h0]
        · by_cases h1 : call.now < e
          · simp [h0, h1]
          · by_cases h2 : tp.StartDate < oldestAllowedDate hd.config call.now
            · simp [h0, h1, h2]
            · rcases hrange with h | ⟨e1, h, h3⟩ | h | ⟨e1, h, h3⟩
              · exact absurd h h0
              · simp only [Option.some.injEq] at h
                subst h
                exact absurd h3 h1
              · exact absurd h h2
              · simp only [Option.some.injEq] at h
                subst h
                simp [h0, h1, h2, h3]


/-- Witness of C17: a period that starts one day after `now`. -/
theorem C17_out_of_range_witness :
    (fixtures.call (fixtures.request ["app1"] (1003 * fixtures.day)
      (some (1004 * fixtures.day)) [models.EventTypeNotificationEnergy])).now
      < 1003 * fixtures.day ∧
    (∃ msg, (handleReportCalculation (World.api fixtures.apiConfig none (fun _ => true))
      fixtures.uuid
      (fixtures.call (fixtures.request ["app1"] (1003 * fixtures.day)
        (some (1004 * fixtures.day)) [models.EventTypeNotificationEnergy]))
      RequestKindEnergyConsumption fixtures.emptyWorld).1
      = servererr.SendFromStatusCodeWithCode 400 "OUT_OF_RANGE" msg) ∧
    (handleReportCalculation (World.api fixtures.apiConfig none (fun _ => true))
      fixtures.uuid
      (fixtures.call (fixtures.request ["app1"] (1003 * fixtures.day)
        (some (1004 * fixtures.day)) [models.EventTypeNotificationEnergy]))
      RequestKindEnergyConsumption fixtures.emptyWorld).2 = fixtures.emptyWorld := by
  have hnow : (fixtures.call (fixtures.request ["app1"] (1003 * fixtures.day)
      (some (1004 * fixtures.day)) [models.EventTypeNotificationEnergy])).now
      < 1003 * fixtures.day := by
    norm_num [fixtures.call, fixtures.day, time.Hour]
  have h := C17_out_of_range (World.api fixtures.apiConfig none (fun _ => true))
    fixtures.emptyWorld fixtures.uuid
    (fixtures.call (fixtures.request ["app1"] (1003 * fixtures.day)
      (some (1004 * fixtures.day)) [models.EventTypeNotificationEnergy]))
    RequestKindEnergyConsumption _ { StartDate := 1003 * fixtures.day, EndDate := some (1004 * fixtures.day) } rfl
    (by simp [fixtures.request]) rfl
    (by
      intro e he
      simp only [Option.some.injEq] at he
      subst he
      norm_num [fixtures.day, time.Hour])
    (by
      intro a rest ha
      simp only [fixtures.request, List.cons.injEq] at ha
      rw [← ha.1]
      rfl)
    (Or.inl hnow)
  exact ⟨hnow, h.1, h.2.1⟩

/-- Counterexample to C17 as stated: a period in the future with a first subscription type
of the other endpoint is answered by the type check, which runs first: status 400 with
code `Bad Request`, not `OUT_OF_RANGE`. -/
theorem C17_counterexample :
    (fixtures.request ["app1"] (1003 * fixtures.day) (some (1004 * fixtures.day))
      [models.EventTypeNotificationCarbonFootprint]).Service ≠ [] ∧
    1003 * fixtures.day < 1004 * fixtures.day ∧
    (fixtures.call (fixtures.request ["app1"] (1003 * fixtures.day)
      (some (1004 * fixtures.day)) [models.EventTypeNotificationCarbonFootprint])).now
      < 1003 * fixtures.day ∧
    (handleReportCalculation
      (mock.apiHandler (fixtures.returns (fixtures.job ["app1"]) [] true) none
        fixtures.apiConfig)
      fixtures.uuid
      (fixtures.call (fixtures.request ["app1"] (1003 * fixtures.day)
        (some (1004 * fixtures.day)) [models.EventTypeNotificationCarbonFootprint]))
      RequestKindEnergyConsumption mock.start).1
      = { status := 400,
          body := .errorInfo
            { Code := "Bad Request",
              Message := "Subscription event type 'org.camaraproject.energy-footprint-notification.v1.carbon-footprint' does not match endpoint (expected 'org.camaraproject.energy-footprint-notification.v1.energy')",
              Status := 400 } } := by
  refine ⟨by simp [fixtures.request], by norm_num [fixtures.day, time.Hour],
    by norm_num [fixtures.call, fixtures.day, time.Hour], ?_⟩
  simp [handleReportCalculation, fixtures.call, fixtures.request, withTimePeriod,
    fixtures.subscription, getExpectedEventType, RequestKindEnergyConsumption,
    models.EventTypeNotificationCarbonFootprint, servererr.SendFromStatusCode,
    event.StatusText, fixtures.day, time.Hour]
  rfl

end api

/-! ## API: job creation and the gather-info events -/

namespace api

/-- The loop over the service list against the world: the events are appended in order up
to the first one the broker refuses. -/
theorem sendGatherInfoEvents_world (cfg : config.API) (access : Option GoError)
    (accepts : event.Event → Bool) (u : uuid.SHA1) (rid : String) (ids : List String) :
    ∀ w : World,
      sendGatherInfoEvents (World.api cfg access accepts) u rid ids w
        = ((ids.map (gatherInfoEvent u rid)).all accepts,
           { w with sent := w.sent ++ (ids.map (gatherInfoEvent u rid)).takeWhile accepts }) := by
  induction ids with
  | nil => intro w; simp [sendGatherInfoEvents]
  | cons id rest ih =>
    intro w
    by_cases ha : accepts (gatherInfoEvent u rid id) = true
    · have hs : (World.api cfg access accepts).events.Send (event.EventIDForApp u rid id)
          event.EventTypeGatherInfoRequested event.SourceEFNAPI
          (.gatherInfo (event.NewGatherInfoData rid id)) w
          = (none, { w with sent := w.sent ++ [gatherInfoEvent u rid id] }) := by
        simp only [gatherInfoEvent] at ha
        simp [World.api, World.senderWith, ha, gatherInfoEvent]
      simp only [sendGatherInfoEvents, hs]
      rw [ih]
      simp [ha, List.takeWhile_cons]
    · have hs : (World.api cfg access accepts).events.Send (event.EventIDForApp u rid id)
          event.EventTypeGatherInfoRequested event.SourceEFNAPI
          (.gatherInfo (event.NewGatherInfoData rid id)) w
          = (some (.errorString "failed to send event"), w) := by
        simp only [gatherInfoEvent] at ha
        simp [World.api, World.senderWith, ha]
      simp only [sendGatherInfoEvents, hs]
      simp [ha, List.takeWhile_cons]

/-- A request that passes every validation reaches the authorization and job creation with
its time period defaulted. -/
theorem validation_reaches_commit {σ : Type} (h : handler σ) (u : uuid.SHA1) (call : Call)
    (kind : String) (req : models.ReportCreationRequest) (s : σ)
    (hbound : call.bound = .ok req)
    (hvalid : spec.validationPasses h.config kind call.now req) :
    handleReportCalculation h u call kind s
      = commit h u call kind
          { req with TimePeriod := some (withTimePeriod h.config call.now req) } s := by
  obtain ⟨hservice, hend, hstart, hold, htypes, hproto, hcred⟩ := hvalid
  have hlen : req.Service.length ≠ 0 := by
    simpa [List.length_eq_zero] using hservice
  have hT : req.SubscriptionRequest.Types = [] ∨
      ∃ rest, req.SubscriptionRequest.Types = getExpectedEventType kind :: rest := by
    cases hT : req.SubscriptionRequest.Types with
    | nil => exact Or.inl rfl
    | cons a rest => exact Or.inr ⟨rest, by rw [htypes a rest hT]⟩
  have hP : req.SubscriptionRequest.ValidateProtocol = none := by
    simp [models.SubscriptionRequest.ValidateProtocol, hproto]
  have hV : ∀ cred, req.SubscriptionRequest.SinkCredential = some cred →
      cred.Validate = none := by
    intro cred hc
    obtain ⟨h1, h2⟩ := hcred cred hc
    simp [models.SinkCredential.Validate, h1, h2]
  simp only [handleReportCalculation, hbound, hlen, if_false]
  cases hE : (withTimePeriod h.config call.now req).EndDate with
  | none =>
    rcases hT with hT | ⟨rest, hT⟩ <;>
    · simp only [hT, ne_eq, not_true_eq_false, if_false, Bool.false_eq_true,
        not_lt.mpr hstart, not_lt.mpr hold, hP]
      cases hc : req.SubscriptionRequest.SinkCredential with
      | none => rfl
      | some cred => simp only [hV cred hc]
  | some e =>
    obtain ⟨h1, h2, h3⟩ := hend e hE
    rcases hT with hT | ⟨rest, hT⟩ <;>
    · simp only [hT, ne_eq, not_true_eq_false, if_false, Bool.false_eq_true,
        not_lt.mpr hstart, not_lt.mpr hold, hP, h1, decide_True, Bool.not_true,
        not_lt.mpr h2, not_lt.mpr h3, decide_False]
      cases hc : req.SubscriptionRequest.SinkCredential with
      | none => rfl
      | some cred => simp only [hV cred hc]


/-- Authorization granted and the id fresh: the job is stored under the id and the events
are sent up to the first refused one. -/
theorem commit_world (cfg : config.API) (accepts : event.Event → Bool) (u : uuid.SHA1)
    (call : Call) (kind : String) (req : models.ReportCreationRequest) (w : World)
    (hfresh : w.db.jobs call.requestID = none) :
    (commit (World.api cfg none accepts) u call kind req w).1
      = cond ((req.Service.map (gatherInfoEvent u call.requestID)).all accepts)
          ⟨201, .report { req with RequestId := some call.requestID }⟩
          (servererr.SendFromStatusCode 500 "failed to send event") ∧
    (commit (World.api cfg none accepts) u call kind req w).2.sent
      = w.sent ++ (req.Service.map (gatherInfoEvent u call.requestID)).takeWhile accepts ∧
    (commit (World.api cfg none accepts) u call kind req w).2.db.jobs call.requestID
      = some (newJob { req with RequestId := some call.requestID } kind) := by
  have hp : ∀ sub ids (w1 : World),
      (World.api cfg none accepts).pdp.HasAccessToApplicationIDs sub ids w1 = (none, w1) := by
    intro sub ids w1
    rfl
  have hm : database.mongoDB.CreateJob
      (newJob { req with RequestId := some call.requestID } kind) w.db
      = (none, (database.mongoDB.CreateJob
          (newJob { req with RequestId := some call.requestID } kind) w.db).2) ∧
      (database.mongoDB.CreateJob
          (newJob { req with RequestId := some call.requestID } kind) w.db).2.jobs call.requestID
        = some (newJob { req with RequestId := some call.requestID } kind) := by
    simp [database.mongoDB.CreateJob, newJob, hfresh]
  have hc : (World.api cfg none accepts).database.CreateJob
      (newJob { req with RequestId := some call.requestID } kind) w
      = (none, { w with db := (database.mongoDB.CreateJob
          (newJob { req with RequestId := some call.requestID } kind) w.db).2 }) := by
    show World.onDB _ w = _
    unfold World.onDB
    rw [hm.1]
  simp only [commit, hp, hc, sendGatherInfoEvents_world]
  cases hall : (req.Service.map (gatherInfoEvent u call.requestID)).all accepts <;>
    simp [hm.2]


/-- The request of scenario S1 passes the validations of the energy endpoint. -/
theorem fixtures_validRequest_passes :
    spec.validationPasses fixtures.apiConfig RequestKindEnergyConsumption
      (fixtures.call fixtures.validRequest).now fixtures.validRequest := by
  have ho := oldestAllowedDate_of_days fixtures.apiConfig (1002 * fixtures.day)
    (by simp [fixtures.apiConfig]) (by simp [fixtures.apiConfig])
  refine ⟨by simp [fixtures.validRequest, fixtures.request], ?_, ?_, ?_, ?_, ?_, ?_⟩
  · intro e he
    simp only [withTimePeriod, fixtures.validRequest, fixtures.request, Option.some.injEq] at he
    subst he
    simp only [withTimePeriod, fixtures.validRequest, fixtures.request, fixtures.call, ho]
    simp only [fixtures.apiConfig, fixtures.day, time.Hour]
    norm_num
  · simp only [withTimePeriod, fixtures.validRequest, fixtures.request, fixtures.call]
    simp only [fixtures.day, time.Hour]
    norm_num
  · simp only [withTimePeriod, fixtures.validRequest, fixtures.request, fixtures.call, ho]
    simp only [fixtures.apiConfig, fixtures.day, time.Hour]
    norm_num
  · intro a rest h
    simp only [fixtures.validRequest, fixtures.request, List.cons.injEq] at h
    rw [← h.1]
    rfl
  · rfl
  · intro cred h
    simp [fixtures.validRequest, fixtures.request, fixtures.subscription] at h

/-- C15, as the code has it: for a request that passes validation and authorization and
whose fresh id is not yet a stored `_id`, the job is stored under that id, the
`GatherInfoRequested` events of the service entries are sent in order up to and excluding
the first one the broker refuses, each with source `urn:tim:efn-api`, id
`EventIDForApp(requestId, service[i])` and data `{requestId, service[i]}`; when every send
succeeds there is one event per entry and the response is 201 with the request echoed under
the same id, and when a send fails the response is 500 and the job stays stored. -/
theorem C15_gather_info_events_until_first_failed_send (cfg : config.API)
    (accepts : event.Event → Bool) (u : uuid.SHA1) (call : Call) (kind : String)
    (req : models.ReportCreationRequest) (w : World)
    (hbound : call.bound = .ok req)
    (hvalid : spec.validationPasses cfg kind call.now req)
    (hfresh : w.db.jobs call.requestID = none) :
    (handleReportCalculation (World.api cfg none accepts) u call kind w).2.db.jobs call.requestID
      = some (newJob { req with RequestId := some call.requestID,
                                TimePeriod := some (withTimePeriod cfg call.now req) } kind) ∧
    (handleReportCalculation (World.api cfg none accepts) u call kind w).2.sent
      = w.sent ++ (req.Service.map (fun appInstanceID =>
          ({ ID := event.EventIDForApp u call.requestID appInstanceID,
             EventType := "it.tim.efn.gatherinfo.requested", Source := "urn:tim:efn-api",
             Data := .gatherInfo { RequestID := call.requestID,
                                   ApplicationInstanceID := appInstanceID } } :
            event.Event))).takeWhile accepts ∧
    ((∀ appInstanceID ∈ req.Service,
        accepts (gatherInfoEvent u call.requestID appInstanceID) = true) →
      (handleReportCalculation (World.api cfg none accepts) u call kind w).1
        = ⟨201, .report { req with RequestId := some call.requestID,
                                   TimePeriod := some (withTimePeriod cfg call.now req) }⟩ ∧
      (handleReportCalculation (World.api cfg none accepts) u call kind w).2.sent
        = w.sent ++ req.Service.map (gatherInfoEvent u call.requestID)) ∧
    ((∃ appInstanceID ∈ req.Service,
        accepts (gatherInfoEvent u call.requestID appInstanceID) = false) →
      (handleReportCalculation (World.api cfg none accepts) u call kind w).1.status = 500) := by
  have hv := validation_reaches_commit (World.api cfg none accepts) u call kind req w hbound
    hvalid
  have hcfg : (World.api cfg none accepts).config = cfg := rfl
  rw [hcfg] at hv
  obtain ⟨h1, h2, h3⟩ := commit_world cfg accepts u call kind
    { req with TimePeriod := some (withTimePeriod cfg call.now req) } w hfresh
  rw [hv]
  refine ⟨h3, ?_, ?_, ?_⟩
  · rw [h2]
    rfl
  · intro hall
    have ha : (req.Service.map (gatherInfoEvent u call.requestID)).all accepts = true := by
      simpa [List.all_eq_true] using hall
    rw [h1, h2]
    refine ⟨by simp [ha], ?_⟩
    congr 1
    rw [List.takeWhile_eq_self_iff]
    simpa using hall
  · rintro ⟨a, ha, hr⟩
    have hf : (req.Service.map (gatherInfoEvent u call.requestID)).all accepts = false := by
      rw [Bool.eq_false_iff]
      intro hall
      rw [List.all_eq_true] at hall
      have := hall _ (List.mem_map_of_mem _ ha)
      rw [hr] at this
      exact Bool.noConfusion this
    rw [h1]
    simp [hf, servererr.SendFromStatusCode]

/-- Witness of C15 in scenario S1 with a broker that accepts every event: two events, 201. -/
theorem C15_gather_info_events_until_first_failed_send_witness :
    (fixtures.call fixtures.validRequest).bound = .ok fixtures.validRequest ∧
    fixtures.emptyWorld.db.jobs "job1" = none ∧
    (handleReportCalculation (World.api fixtures.apiConfig none (fun _ => true)) fixtures.uuid
      (fixtures.call fixtures.validRequest) RequestKindEnergyConsumption
      fixtures.emptyWorld).1.status = 201 ∧
    (handleReportCalculation (World.api fixtures.apiConfig none (fun _ => true)) fixtures.uuid
      (fixtures.call fixtures.validRequest) RequestKindEnergyConsumption
      fixtures.emptyWorld).2.sent
      = [gatherInfoEvent fixtures.uuid "job1" "app1",
         gatherInfoEvent fixtures.uuid "job1" "app2"] := by
  have h := (C15_gather_info_events_until_first_failed_send fixtures.apiConfig (fun _ => true)
    fixtures.uuid (fixtures.call fixtures.validRequest) RequestKindEnergyConsumption
    fixtures.validRequest fixtures.emptyWorld rfl fixtures_validRequest_passes rfl).2.2.1
    (fun _ _ => rfl)
  refine ⟨rfl, rfl, ?_, ?_⟩
  · rw [h.1]
  · rw [h.2]
    rfl

/-- Counterexample to C15 as stated: the request passes validation and authorization and
its job is stored, the broker refuses the event of `app1` only, and no event at all is sent:
the event of `app2`, which the broker would accept, is never attempted. -/
theorem C15_counterexample :
    spec.validationPasses fixtures.apiConfig RequestKindEnergyConsumption
      (fixtures.call fixtures.validRequest).now fixtures.validRequest ∧
    fixtures.validRequest.Service = ["app1", "app2"] ∧
    fixtures.refusesApp1 (gatherInfoEvent fixtures.uuid "job1" "app2") = true ∧
    (handleReportCalculation (World.api fixtures.apiConfig none fixtures.refusesApp1)
      fixtures.uuid (fixtures.call fixtures.validRequest) RequestKindEnergyConsumption
      fixtures.emptyWorld).2.sent = [] ∧
    (handleReportCalculation (World.api fixtures.apiConfig none fixtures.refusesApp1)
      fixtures.uuid (fixtures.call fixtures.validRequest) RequestKindEnergyConsumption
      fixtures.emptyWorld).1.status = 500 ∧
    ((handleReportCalculation (World.api fixtures.apiConfig none fixtures.refusesApp1)
      fixtures.uuid (fixtures.call fixtures.validRequest) RequestKindEnergyConsumption
      fixtures.emptyWorld).2.db.jobs "job1").isSome = true := by
  have hv := validation_reaches_commit (World.api fixtures.apiConfig none fixtures.refusesApp1)
    fixtures.uuid (fixtures.call fixtures.validRequest) RequestKindEnergyConsumption
    fixtures.validRequest fixtures.emptyWorld rfl fixtures_validRequest_passes
  obtain ⟨h1, h2, h3⟩ := commit_world fixtures.apiConfig fixtures.refusesApp1 fixtures.uuid
    (fixtures.call fixtures.validRequest) RequestKindEnergyConsumption
    { fixtures.validRequest with TimePeriod := some (withTimePeriod fixtures.apiConfig
        (fixtures.call fixtures.validRequest).now fixtures.validRequest) }
    fixtures.emptyWorld rfl
  have hr : fixtures.refusesApp1 (gatherInfoEvent fixtures.uuid "job1" "app1") = false := by
    decide
  refine ⟨fixtures_validRequest_passes, rfl, by decide, ?_, ?_, ?_⟩
  · rw [hv]
    exact h2.trans (by
      simp [fixtures.validRequest, fixtures.request, fixtures.call, List.takeWhile, hr,
        fixtures.emptyWorld])
  · rw [hv]
    rw [show (World.api fixtures.apiConfig none fixtures.refusesApp1).config
      = fixtures.apiConfig from rfl, h1]
    simp [fixtures.validRequest, fixtures.request, fixtures.call, hr,
      servererr.SendFromStatusCode]
  · rw [hv]
    exact (congrArg Option.isSome h3).trans rfl

end api

/-! ## Notify: the posted CloudEvent, expiry and the empty sink -/

namespace World

/-- An event that parses has one of the two notification types. -/
theorem parse_ok_type (e : event.CloudEvent) (p : String × ℚ)
    (hp : notification.parseNotification e = .ok p) :
    (e.EventType != event.EventTypeNotificationRequested &&
      e.EventType != event.EventTypeNotificationErrorRequested) = false := by
  unfold notification.parseNotification at hp
  by_cases h1 : e.EventType = event.EventTypeNotificationErrorRequested
  · simp [h1]
  · by_cases h2 : e.EventType = event.EventTypeNotificationRequested
    · simp [h2]
    · simp [h1, h2] at hp

/-- A run that loses the compare-and-set returns success and changes nothing but the
clock. -/
theorem deliver_lost (cfg : config.HTTP) (d : Delivery) (w : World) (p : String × ℚ)
    (job : Job) (hp : notification.parseNotification d.e = .ok p)
    (hj : w.db.jobs p.1 = some job) (hf : job.NotificationSent = true) :
    deliver cfg d w = (.ok none, { w with now := d.now }) := by
  simp [deliver, notification.Handle, parse_ok_type d.e p hp, hp, notify, World.database, onDB,
    mongoDB.TrySetNotificationSent, hj, hf]

/-- A run that wins the compare-and-set: what it returns and posts on an expired
subscription, on an empty sink, and when the request is created. -/
theorem deliver_won (cfg : config.HTTP) (d : Delivery) (w : World) (p : String × ℚ)
    (job : Job) (hp : notification.parseNotification d.e = .ok p)
    (hj : w.db.jobs p.1 = some job) (hf : job.NotificationSent = false) :
    (∀ t, job.SubscriptionRequest.SubscriptionExpireTime = some t → t < d.now →
      (deliver cfg d w).1 = .ok none ∧ (deliver cfg d w).2.posts = w.posts ∧
      (deliver cfg d w).2.db = (mongoDB.TrySetNotificationSent p.1 w.db).2) ∧
    ((∀ t, job.SubscriptionRequest.SubscriptionExpireTime = some t → ¬ t < d.now) →
      (job.SubscriptionRequest.Sink = "" →
        (deliver cfg d w).1 = .err (.errorString
          ("missing sink in subscription request for job " ++ d.e.ID)) ∧
        (deliver cfg d w).2.posts = w.posts ∧
        (deliver cfg d w).2.db = (mongoDB.TrySetNotificationSent p.1 w.db).2) ∧
      (job.SubscriptionRequest.Sink ≠ "" → d.newRequestOK = true →
        (deliver cfg d w).2.posts = w.posts ++
          [{ Sink := job.SubscriptionRequest.Sink,
             Body :=
               { Id := d.e.ID, Source := event.SourceEFNNotify, Specversion := "1.0",
                 Type_ :=
                   if job.RequestKind = RequestKindEnergyConsumption then
                     models.EventTypeNotificationEnergy
                   else if job.RequestKind = RequestKindCarbonFootprint then
                     models.EventTypeNotificationCarbonFootprint
                   else models.EventTypeNotificationEnergy,
                 Time := d.now, Datacontenttype := some "application/json",
                 Data := [("requestId", .str p.1),
                   (if job.RequestKind = RequestKindEnergyConsumption then "energyConsumption"
                    else if job.RequestKind = RequestKindCarbonFootprint then "carbonFootprint"
                    else "energyConsumption", .num p.2)] } }])) := by
  obtain ⟨rid, v⟩ := p
  have hty := parse_ok_type d.e _ hp
  refine ⟨?_, ?_⟩
  · intro t ht hlt
    simp [deliver, notification.Handle, hty, hp, notify, World.database, onDB,
      mongoDB.TrySetNotificationSent, hj, hf, mongoDB.GetJob, runtime, ht, hlt]
  · intro hexp
    refine ⟨?_, ?_⟩
    · intro hs
      cases ht : job.SubscriptionRequest.SubscriptionExpireTime with
      | none =>
        simp [deliver, notification.Handle, hty, hp, notify, World.database, onDB,
          mongoDB.TrySetNotificationSent, hj, hf, mongoDB.GetJob, runtime, ht, hs]
      | some t =>
        simp [deliver, notification.Handle, hty, hp, notify, World.database, onDB,
          mongoDB.TrySetNotificationSent, hj, hf, mongoDB.GetJob, runtime, ht, hs,
          hexp t ht]
    · intro hs hnew
      cases ht : job.SubscriptionRequest.SubscriptionExpireTime with
      | none =>
        simp only [deliver, notification.Handle, hty, hp, notify, World.database, onDB,
          mongoDB.TrySetNotificationSent, hj, hf, mongoDB.GetJob, runtime, ht, hs, hnew]
        simp only [ht, hs, hnew, bne_iff_ne, ne_eq, Bool.false_eq_true, not_false_eq_true,
          if_true, Bool.not_true, if_false, not_true_eq_false]
        cases d.response with
        | error err => simp
        | ok status => simp; split_ifs <;> simp
      | some t =>
        simp only [deliver, notification.Handle, hty, hp, notify, World.database, onDB,
          mongoDB.TrySetNotificationSent, hj, hf, mongoDB.GetJob, runtime, ht, hs, hnew,
          hexp t ht]
        simp only [ht, hs, hnew, hexp t ht, bne_iff_ne, ne_eq, Bool.false_eq_true,
          not_false_eq_true, if_true, Bool.not_true, if_false, not_true_eq_false, decide_False]
        cases d.response with
        | error err => simp
        | ok status => simp; split_ifs <;> simp

/-- The event of `fixtures.delivery` parses to request `job1`. -/
theorem fixtures_delivery_parses (status : Int) :
    notification.parseNotification
        (fixtures.delivery event.EventTypeNotificationRequested status).e
      = .ok ("job1", 22 / 10000) := by
  simp [notification.parseNotification, fixtures.delivery, fixtures.received,
    fixtures.fields, event.DataAsNotificationRequestedData,
    event.EventTypeNotificationRequested, event.EventTypeNotificationErrorRequested]

/-- C18: when a notification event wins the compare-and-set (its job exists with
`notificationSent` unset) and reaches delivery (subscription not expired, sink not empty,
request created), one request is posted to the job's sink. Its CloudEvent has source
`urn:tim:efn-notify`, specversion `1.0`, the id of the inbound event, and a data object
of exactly two fields, `requestId` and the result field: `carbonFootprint` with the
carbon-footprint type iff `job.requestKind` is `carbon_footprint`, else
`energyConsumption` with the energy type. The value is `-1` for
`NotificationErrorRequested` and the inbound `result` for `NotificationRequested`. -/
theorem C18_posted_cloud_event (cfg : config.HTTP) (d : Delivery) (w : World)
    (rid : String) (v : ℚ) (job : Job)
    (hp : notification.parseNotification d.e = .ok (rid, v))
    (hj : w.db.jobs rid = some job) (hf : job.NotificationSent = false)
    (hexp : ∀ t, job.SubscriptionRequest.SubscriptionExpireTime = some t → ¬ t < d.now)
    (hsink : job.SubscriptionRequest.Sink ≠ "") (hnew : d.newRequestOK = true) :
    ∃ body, (deliver cfg d w).2.posts
        = w.posts ++ [{ Sink := job.SubscriptionRequest.Sink, Body := body }] ∧
      body.Source = "urn:tim:efn-notify" ∧ body.Specversion = "1.0" ∧ body.Id = d.e.ID ∧
      (job.RequestKind = "carbon_footprint" →
        body.Type_ = "org.camaraproject.energy-footprint-notification.v1.carbon-footprint" ∧
        body.Data = [("requestId", .str rid), ("carbonFootprint", .num v)]) ∧
      (job.RequestKind ≠ "carbon_footprint" →
        body.Type_ = "org.camaraproject.energy-footprint-notification.v1.energy" ∧
        body.Data = [("requestId", .str rid), ("energyConsumption", .num v)]) ∧
      (d.e.EventType = event.EventTypeNotificationErrorRequested → v = -1) ∧
      (d.e.EventType = event.EventTypeNotificationRequested →
        ∃ f, d.e.Data = some f ∧ v = f.result.getD 0) := by
  refine ⟨_, ((deliver_won cfg d w (rid, v) job hp hj hf).2 hexp).2 hsink hnew, rfl, rfl, rfl,
    ?_, ?_, ?_, ?_⟩
  · intro hk
    simp [hk, RequestKindEnergyConsumption, RequestKindCarbonFootprint,
      models.EventTypeNotificationCarbonFootprint]
  · intro hk
    have hk1 : ¬ job.RequestKind = RequestKindCarbonFootprint := hk
    by_cases he : job.RequestKind = RequestKindEnergyConsumption
    · simp [he, models.EventTypeNotificationEnergy]
    · simp [he, hk1, models.EventTypeNotificationEnergy]
  · intro hty
    unfold notification.parseNotification at hp
    rw [if_pos hty] at hp
    cases hd : event.DataAsNotificationErrorRequestedData d.e with
    | error err => simp [hd] at hp
    | ok data =>
      simp [hd] at hp
      exact hp.2.symm
  · intro hty
    have hne : ¬ d.e.EventType = event.EventTypeNotificationErrorRequested := by
      rw [hty]
      decide
    unfold notification.parseNotification at hp
    rw [if_neg hne, if_pos hty] at hp
    cases hd : d.e.Data with
    | none => simp [event.DataAsNotificationRequestedData, hd] at hp
    | some f =>
      simp [event.DataAsNotificationRequestedData, hd] at hp
      exact ⟨f, rfl, hp.2.symm⟩

/-- Witness of C18 in scenario S1: the success notification of `job1` with result 0.0022. -/
theorem C18_posted_cloud_event_witness :
    ∃ body, (deliver ⟨false⟩ (fixtures.delivery event.EventTypeNotificationRequested 200)
        fixtures.world).2.posts = [{ Sink := "http://sink.example/", Body := body }] ∧
      body.Id = "job1" ∧
      body.Type_ = "org.camaraproject.energy-footprint-notification.v1.energy" ∧
      body.Data = [("requestId", .str "job1"), ("energyConsumption", .num (22 / 10000))] := by
  obtain ⟨body, h1, -, -, h2, -, h3, -, -⟩ :=
    C18_posted_cloud_event ⟨false⟩ (fixtures.delivery event.EventTypeNotificationRequested 200)
      fixtures.world "job1" (22 / 10000) (fixtures.job ["app1"])
      (fixtures_delivery_parses 200) rfl rfl
      (by intro t ht; simp [fixtures.job, fixtures.subscription] at ht)
      (by simp [fixtures.job, fixtures.subscription]) rfl
  exact ⟨body, h1, h2, h3 (by decide)⟩

/-- After a run of `TrySetNotificationSent` on an existing job its flag is set. -/
theorem flag_set_after_cas (rid : String) (m : mongoDB) (job : Job)
    (hj : m.jobs rid = some job) :
    ∃ job1, (mongoDB.TrySetNotificationSent rid m).2.jobs rid = some job1 ∧
      job1.NotificationSent = true := by
  cases hf : job.NotificationSent with
  | true => exact ⟨job, by simp [mongoDB.TrySetNotificationSent, hj, hf], hf⟩
  | false =>
    exact ⟨{ job with NotificationSent := true },
      by simp [mongoDB.TrySetNotificationSent, hj, hf], rfl⟩

/-- The event of `fixtures.delivery` finds the job of `fixtures.worldWith`. -/
theorem fixtures_worldWith_job (sub : models.SubscriptionRequest) :
    (fixtures.worldWith sub).db.jobs "job1"
      = some { fixtures.job ["app1"] with SubscriptionRequest := sub } := by
  simp [fixtures.worldWith]

/-- C19: for a notification event whose job has a `subscriptionExpireTime` strictly earlier
than the current time, `Handle` returns success with no event, performs no POST, and the
job's `notificationSent` flag is true afterwards. When the expiry time is absent or not
earlier than now, the expiry check does not stop delivery: a run that won the
compare-and-set, with a sink and a well-formed request, performs the POST. -/
theorem C19_expired_subscription_is_silent (cfg : config.HTTP) (d : Delivery) (w : World)
    (rid : String) (v : ℚ) (job : Job)
    (hp : notification.parseNotification d.e = .ok (rid, v))
    (hj : w.db.jobs rid = some job) :
    (∀ t, job.SubscriptionRequest.SubscriptionExpireTime = some t → t < d.now →
      (deliver cfg d w).1 = .ok none ∧ (deliver cfg d w).2.posts = w.posts ∧
      ∃ job1, (deliver cfg d w).2.db.jobs rid = some job1 ∧ job1.NotificationSent = true) ∧
    ((∀ t, job.SubscriptionRequest.SubscriptionExpireTime = some t → ¬ t < d.now) →
      job.NotificationSent = false → job.SubscriptionRequest.Sink ≠ "" →
      d.newRequestOK = true →
      ∃ req, (deliver cfg d w).2.posts = w.posts ++ [req]) := by
  refine ⟨?_, ?_⟩
  · intro t ht hlt
    cases hf : job.NotificationSent with
    | true =>
      rw [deliver_lost cfg d w (rid, v) job hp hj hf]
      exact ⟨rfl, rfl, job, hj, hf⟩
    | false =>
      obtain ⟨h1, h2, h3⟩ := (deliver_won cfg d w (rid, v) job hp hj hf).1 t ht hlt
      refine ⟨h1, h2, ?_⟩
      rw [h3]
      exact flag_set_after_cas rid w.db job hj
  · intro hexp hf hsink hnew
    exact ⟨_, ((deliver_won cfg d w (rid, v) job hp hj hf).2 hexp).2 hsink hnew⟩

/-- Witness of C19 in scenario S5: the subscription expired at time 5, the event is handled
at time 10. -/
theorem C19_expired_subscription_is_silent_witness :
    (deliver ⟨false⟩ (fixtures.delivery event.EventTypeNotificationRequested 200)
      (fixtures.worldWith fixtures.expiredSubscription)).1 = .ok none ∧
    (deliver ⟨false⟩ (fixtures.delivery event.EventTypeNotificationRequested 200)
      (fixtures.worldWith fixtures.expiredSubscription)).2.posts = [] ∧
    ∃ job1, (deliver ⟨false⟩ (fixtures.delivery event.EventTypeNotificationRequested 200)
      (fixtures.worldWith fixtures.expiredSubscription)).2.db.jobs "job1" = some job1 ∧
      job1.NotificationSent = true :=
  (C19_expired_subscription_is_silent ⟨false⟩
    (fixtures.delivery event.EventTypeNotificationRequested 200)
    (fixtures.worldWith fixtures.expiredSubscription) "job1" (22 / 10000) _
    (fixtures_delivery_parses 200) (fixtures_worldWith_job _)).1 5 rfl (by decide)

/-- C20, as the code has it: for a notification event that won the compare-and-set and
whose job has an empty sink and no expired subscription, `Handle` performs no POST and
returns the error `missing sink in subscription request for job <event id>` to the broker,
with the `notificationSent` flag already set; every later delivery of an event of the same
request returns success without a POST, so the notification is never delivered. -/
theorem C20_empty_sink_returns_error (cfg : config.HTTP) (d : Delivery) (w : World)
    (rid : String) (v : ℚ) (job : Job)
    (hp : notification.parseNotification d.e = .ok (rid, v))
    (hj : w.db.jobs rid = some job) (hf : job.NotificationSent = false)
    (hexp : ∀ t, job.SubscriptionRequest.SubscriptionExpireTime = some t → ¬ t < d.now)
    (hsink : job.SubscriptionRequest.Sink = "") :
    (deliver cfg d w).1
      = .err (.errorString ("missing sink in subscription request for job " ++ d.e.ID)) ∧
    (deliver cfg d w).2.posts = w.posts ∧
    (∃ job1, (deliver cfg d w).2.db.jobs rid = some job1 ∧ job1.NotificationSent = true) ∧
    (∀ d2 : Delivery, ∀ v2, notification.parseNotification d2.e = .ok (rid, v2) →
      (deliver cfg d2 (deliver cfg d w).2).1 = .ok none ∧
      (deliver cfg d2 (deliver cfg d w).2).2.posts = w.posts) := by
  obtain ⟨h1, h2, h3⟩ := ((deliver_won cfg d w (rid, v) job hp hj hf).2 hexp).1 hsink
  have hflag : ∃ job1, (deliver cfg d w).2.db.jobs rid = some job1 ∧
      job1.NotificationSent = true := by
    rw [h3]
    exact flag_set_after_cas rid w.db job hj
  refine ⟨h1, h2, hflag, ?_⟩
  intro d2 v2 hp2
  obtain ⟨job1, hj1, hf1⟩ := hflag
  rw [deliver_lost cfg d2 (deliver cfg d w).2 (rid, v2) job1 hp2 hj1 hf1]
  exact ⟨rfl, h2⟩

/-- Witness of C20: the job of scenario S1 without a sink, the event delivered twice. -/
theorem C20_empty_sink_returns_error_witness :
    (deliver ⟨false⟩ (fixtures.delivery event.EventTypeNotificationRequested 200)
      (fixtures.worldWith fixtures.sinklessSubscription)).2.posts = [] ∧
    (deliver ⟨false⟩ (fixtures.delivery event.EventTypeNotificationRequested 200)
      (deliver ⟨false⟩ (fixtures.delivery event.EventTypeNotificationRequested 200)
        (fixtures.worldWith fixtures.sinklessSubscription)).2).1 = .ok none := by
  have h := C20_empty_sink_returns_error ⟨false⟩
    (fixtures.delivery event.EventTypeNotificationRequested 200)
    (fixtures.worldWith fixtures.sinklessSubscription) "job1" (22 / 10000) _
    (fixtures_delivery_parses 200) (fixtures_worldWith_job _) rfl
    (by intro t ht; simp [fixtures.sinklessSubscription, fixtures.subscription] at ht) rfl
  exact ⟨h.2.1, (h.2.2.2 _ _ (fixtures_delivery_parses 200)).1⟩

/-- Counterexample to C20 as stated: the job has an empty sink and no expiry time, and the
outcome of `Handle` is the error result, which the broker answers with a redelivery. -/
theorem C20_counterexample :
    ((fixtures.worldWith fixtures.sinklessSubscription).db.jobs "job1").map
        (fun job => (job.SubscriptionRequest.Sink,
          job.SubscriptionRequest.SubscriptionExpireTime)) = some ("", none) ∧
    (deliver ⟨false⟩ (fixtures.delivery event.EventTypeNotificationRequested 200)
      (fixtures.worldWith fixtures.sinklessSubscription)).1
      = .err (.errorString "missing sink in subscription request for job job1") := by
  refine ⟨by simp [fixtures.worldWith, fixtures.sinklessSubscription, fixtures.subscription],
    ?_⟩
  have h := ((deliver_won ⟨false⟩ (fixtures.delivery event.EventTypeNotificationRequested 200)
    (fixtures.worldWith fixtures.sinklessSubscription) ("job1", 22 / 10000) _
    (fixtures_delivery_parses 200) (fixtures_worldWith_job _) rfl).2
    (by intro t ht; simp [fixtures.sinklessSubscription, fixtures.subscription] at ht)).1 rfl
  rw [h.1]
  rfl

end World

/-! ## Store: idempotence and frame of the partial-result upserts -/

namespace database

/-- After a `$set` below an entry, the entry reads as the old one with the `$set` applied. -/
theorem lookup_setNetworkElement_self (k : String)
    (f : NetworkElementResult → NetworkElementResult) :
    ∀ nes : List (String × NetworkElementResult),
      List.lookup k (mongoDB.setNetworkElement k f nes)
        = some (f ((List.lookup k nes).getD
            { EnergyConsumption := none, AppInstanceTraffic := none, TotalTraffic := none }))
  | [] => by simp [mongoDB.setNetworkElement, List.lookup]
  | (k1, ne) :: rest => by
    by_cases h : k1 = k
    · subst h
      simp [mongoDB.setNetworkElement, List.lookup]
    · have h1 : (k == k1) = false := by
        simpa using fun h2 : k = k1 => h h2.symm
      simp only [mongoDB.setNetworkElement, h, if_false, List.lookup, h1]
      exact lookup_setNetworkElement_self k f rest

/-- A `$set` below an entry leaves every other entry as it reads. -/
theorem lookup_setNetworkElement_other (k k1 : String) (hk : k1 ≠ k)
    (f : NetworkElementResult → NetworkElementResult) :
    ∀ nes : List (String × NetworkElementResult),
      List.lookup k1 (mongoDB.setNetworkElement k f nes) = List.lookup k1 nes
  | [] => by
    have h1 : (k1 == k) = false := by simpa using hk
    simp [mongoDB.setNetworkElement, List.lookup, h1]
  | (k2, ne) :: rest => by
    by_cases h : k2 = k
    · subst h
      have h1 : (k1 == k2) = false := by simpa using hk
      simp [mongoDB.setNetworkElement, List.lookup, h1]
    · simp only [mongoDB.setNetworkElement, h, if_false, List.lookup]
      rw [lookup_setNetworkElement_other k k1 hk f rest]

/-- A `$set` of constants below an entry is idempotent. -/
theorem setNetworkElement_idem (k : String)
    (f : NetworkElementResult → NetworkElementResult) (hf : ∀ x, f (f x) = f x) :
    ∀ nes : List (String × NetworkElementResult),
      mongoDB.setNetworkElement k f (mongoDB.setNetworkElement k f nes)
        = mongoDB.setNetworkElement k f nes
  | [] => by simp [mongoDB.setNetworkElement, hf]
  | (k1, ne) :: rest => by
    by_cases h : k1 = k
    · simp [mongoDB.setNetworkElement, h, hf]
    · simp only [mongoDB.setNetworkElement, h, if_false]
      rw [setNetworkElement_idem k f hf rest]

/-- An upsert with an idempotent `$set` is idempotent. -/
theorem upsert_idem (md : JobAppResultMetadata) (set : TaskResult → TaskResult)
    (hset : ∀ x, set (set x) = set x) :
    ∀ rows : List JobAppResult,
      mongoDB.upsert md set (mongoDB.upsert md set rows) = mongoDB.upsert md set rows
  | [] => by simp [mongoDB.upsert, hset]
  | r :: rest => by
    by_cases h : r.JobID = md.JobID ∧ r.AppID = md.AppID
    · simp [mongoDB.upsert, h, hset]
    · simp only [mongoDB.upsert, h, if_false]
      rw [upsert_idem md set hset rest]

/-- An upsert without a matching row appends the row of the metadata. -/
theorem upsert_miss (md : JobAppResultMetadata) (set : TaskResult → TaskResult) :
    ∀ rows : List JobAppResult,
      (∀ r ∈ rows, ¬ (r.JobID = md.JobID ∧ r.AppID = md.AppID)) →
      mongoDB.upsert md set rows = rows ++
        [{ JobID := md.JobID, AppID := md.AppID, NumberOfTotalNEs := md.NumberOfTotalNEs,
           Result := some (set { AppInstanceEnergyConsumption := none,
                                 NetworkElements := [] }) }]
  | [], _ => rfl
  | r :: rest, h => by
    have hr := h r (List.mem_cons_self _ _)
    simp only [mongoDB.upsert, hr, if_false, List.cons_append]
    rw [upsert_miss md set rest (fun x hx => h x (List.mem_cons_of_mem _ hx))]

/-- An upsert with a matching row changes the result of the first match and nothing else. -/
theorem upsert_hit (md : JobAppResultMetadata) :
    ∀ (rows : List JobAppResult) (r : JobAppResult),
      rows.find? (fun x => x.JobID == md.JobID && x.AppID == md.AppID) = some r →
      ∃ pre post, rows = pre ++ r :: post ∧
        (∀ x ∈ pre, ¬ (x.JobID = md.JobID ∧ x.AppID = md.AppID)) ∧
        r.JobID = md.JobID ∧ r.AppID = md.AppID ∧
        ∀ set : TaskResult → TaskResult, mongoDB.upsert md set rows = pre ++
          ⟨r.JobID, r.AppID, r.NumberOfTotalNEs,
            some (set (r.Result.getD ⟨none, []⟩))⟩ :: post
  | [], r, h => by simp at h
  | x :: rest, r, h => by
    by_cases hx : x.JobID = md.JobID ∧ x.AppID = md.AppID
    · have hb : (x.JobID == md.JobID && x.AppID == md.AppID) = true := by simp [hx]
      simp only [List.find?, hb, Option.some.injEq] at h
      subst h
      exact ⟨[], rest, rfl, by simp, hx.1, hx.2, fun set => by simp [mongoDB.upsert, hx]⟩
    · have hb : (x.JobID == md.JobID && x.AppID == md.AppID) = false := by
        simpa [Bool.and_eq_true] using hx
      simp only [List.find?, hb] at h
      obtain ⟨pre, post, h1, h2, h3, h4, h5⟩ := upsert_hit md rest r h
      refine ⟨x :: pre, post, by simp [h1], ?_, h3, h4, fun set => ?_⟩
      · intro y hy
        rcases List.mem_cons.mp hy with rfl | hy
        · exact hx
        · exact h2 y hy
      · simp only [mongoDB.upsert, hx, if_false, List.cons_append]
        rw [h5]

/-- No row of `(jobId, appId)` is found iff no row has that pair. -/
theorem find_none_iff (md : JobAppResultMetadata) (rows : List JobAppResult) :
    rows.find? (fun x => x.JobID == md.JobID && x.AppID == md.AppID) = none ↔
      ∀ r ∈ rows, ¬ (r.JobID = md.JobID ∧ r.AppID = md.AppID) := by
  simp [List.find?_eq_none]

/-- The number of rows of `(jobId, appId)` after an upsert. -/
theorem countP_upsert (md : JobAppResultMetadata) (set : TaskResult → TaskResult)
    (rows : List JobAppResult) :
    (mongoDB.upsert md set rows).countP (fun x => x.JobID == md.JobID && x.AppID == md.AppID)
      = max 1 (rows.countP (fun x => x.JobID == md.JobID && x.AppID == md.AppID)) := by
  cases hf : rows.find? (fun x => x.JobID == md.JobID && x.AppID == md.AppID) with
  | none =>
    have hmiss := (find_none_iff md rows).mp hf
    rw [upsert_miss md set rows hmiss]
    have h0 : rows.countP (fun x => x.JobID == md.JobID && x.AppID == md.AppID) = 0 := by
      rw [List.countP_eq_zero]
      intro a ha
      simpa [Bool.and_eq_true] using hmiss a ha
    simp [List.countP_append, h0]
  | some r =>
    obtain ⟨pre, post, h1, -, h3, h4, h5⟩ := upsert_hit md rows r hf
    rw [h5 set, h1]
    simp only [List.countP_append, List.countP_cons, h3, h4, beq_self_eq_true, Bool.and_self,
      if_true]
    omega

/-- What `GetJobAppResult` reads back after an upsert: the row it read before with the
`$set` applied, or the inserted row. -/
theorem get_after_upsert (md : JobAppResultMetadata) (set : TaskResult → TaskResult)
    (m : mongoDB) :
    ∃ row, (mongoDB.GetJobAppResult md.JobID md.AppID
        { m with jobApps := mongoDB.upsert md set m.jobApps }).1 = .ok row ∧
      row.JobID = md.JobID ∧ row.AppID = md.AppID ∧
      row.NumberOfTotalNEs = (match (mongoDB.GetJobAppResult md.JobID md.AppID m).1 with
        | .ok r => r.NumberOfTotalNEs
        | .error _ => md.NumberOfTotalNEs) ∧
      row.Result = some (set ((match (mongoDB.GetJobAppResult md.JobID md.AppID m).1 with
        | .ok r => r.Result
        | .error _ => none).getD { AppInstanceEnergyConsumption := none,
                                   NetworkElements := [] })) := by
  cases hf : m.jobApps.find? (fun x => x.JobID == md.JobID && x.AppID == md.AppID) with
  | none =>
    have hmiss := (find_none_iff md m.jobApps).mp hf
    have hfind : ∀ x : JobAppResult, x.JobID = md.JobID → x.AppID = md.AppID →
        (m.jobApps ++ [x]).find? (fun x => x.JobID == md.JobID && x.AppID == md.AppID)
          = some x := by
      intro x h1 h2
      rw [List.find?_append, hf]
      simp [h1, h2]
    refine ⟨⟨md.JobID, md.AppID, md.NumberOfTotalNEs, some (set ⟨none, []⟩)⟩, ?_, rfl, rfl,
      ?_, ?_⟩
    · simp only [mongoDB.GetJobAppResult, upsert_miss md _ m.jobApps hmiss]
      rw [hfind _ rfl rfl]
    · simp [mongoDB.GetJobAppResult, hf]
    · simp [mongoDB.GetJobAppResult, hf]
  | some r =>
    obtain ⟨pre, post, h1, h2, h3, h4, h5⟩ := upsert_hit md m.jobApps r hf
    have hpre : pre.find? (fun x => x.JobID == md.JobID && x.AppID == md.AppID) = none := by
      rw [List.find?_eq_none]
      intro x hx
      simpa [Bool.and_eq_true] using h2 x hx
    refine ⟨⟨r.JobID, r.AppID, r.NumberOfTotalNEs, some (set (r.Result.getD ⟨none, []⟩))⟩,
      ?_, h3, h4, ?_, ?_⟩
    · simp only [mongoDB.GetJobAppResult, h5 set]
      rw [List.find?_append, hpre]
      simp [h3, h4]
    · simp [mongoDB.GetJobAppResult, hf]
    · simp [mongoDB.GetJobAppResult, hf]

/-- C24: in the store model, `SetNetworkElementEnergy(meta, neId, v)` applied twice in
succession leaves exactly the store that one application leaves, from any starting store.
After it the number of rows of `(jobId, appId)` is what it was, or one if there was none;
the row read back by `GetJobAppResult` has `result.networkElements.<neId>` with
`energyConsumption = v` and with `appInstanceTraffic` and `totalTraffic` as they were
before (absent if the entry did not exist). -/
theorem C24_SetNetworkElementEnergy_idempotent (md : JobAppResultMetadata) (neId : String)
    (v : ℚ) (m : mongoDB) :
    (mongoDB.SetNetworkElementEnergy md neId v
        (mongoDB.SetNetworkElementEnergy md neId v m).2).2
      = (mongoDB.SetNetworkElementEnergy md neId v m).2 ∧
    (mongoDB.SetNetworkElementEnergy md neId v m).2.jobApps.countP
        (fun x => x.JobID == md.JobID && x.AppID == md.AppID)
      = max 1 (m.jobApps.countP (fun x => x.JobID == md.JobID && x.AppID == md.AppID)) ∧
    ∃ row res ne,
      (mongoDB.GetJobAppResult md.JobID md.AppID
        (mongoDB.SetNetworkElementEnergy md neId v m).2).1 = .ok row ∧
      row.Result = some res ∧ List.lookup neId res.NetworkElements = some ne ∧
      ne.EnergyConsumption = some v ∧
      ne.AppInstanceTraffic
        = (match (mongoDB.GetJobAppResult md.JobID md.AppID m).1 with
          | .ok r => r.Result.bind (fun res0 => List.lookup neId res0.NetworkElements)
          | .error _ => none).bind (fun old => old.AppInstanceTraffic) ∧
      ne.TotalTraffic
        = (match (mongoDB.GetJobAppResult md.JobID md.AppID m).1 with
          | .ok r => r.Result.bind (fun res0 => List.lookup neId res0.NetworkElements)
          | .error _ => none).bind (fun old => old.TotalTraffic) := by
  refine ⟨?_, ?_, ?_⟩
  · simp only [mongoDB.SetNetworkElementEnergy]
    rw [upsert_idem]
    intro x
    simp only [TaskResult.mk.injEq, true_and]
    exact setNetworkElement_idem neId (fun ne => { ne with EnergyConsumption := some v })
      (fun _ => rfl) _
  · exact countP_upsert md _ m.jobApps
  · obtain ⟨row, h1, -, -, -, h5⟩ := get_after_upsert md (fun res =>
      ⟨res.AppInstanceEnergyConsumption, mongoDB.setNetworkElement neId
        (fun ne => ⟨some v, ne.AppInstanceTraffic, ne.TotalTraffic⟩) res.NetworkElements⟩) m
    refine ⟨row, _, _, h1, h5, lookup_setNetworkElement_self neId _ _, rfl, ?_, ?_⟩
    · cases (mongoDB.GetJobAppResult md.JobID md.AppID m).1 with
      | error e => rfl
      | ok r =>
        obtain ⟨j, a, n, res⟩ := r
        cases res with
        | none => rfl
        | some res0 =>
          dsimp only [Option.getD, Option.bind]
          cases List.lookup neId res0.NetworkElements <;> rfl
    · cases (mongoDB.GetJobAppResult md.JobID md.AppID m).1 with
      | error e => rfl
      | ok r =>
        obtain ⟨j, a, n, res⟩ := r
        cases res with
        | none => rfl
        | some res0 =>
          dsimp only [Option.getD, Option.bind]
          cases List.lookup neId res0.NetworkElements <;> rfl

/-- The row of `(jobId, appId)` that `GetJobAppResult` reads is the first match of the
collection. -/
theorem get_ok_find (jobID appID : String) (m : mongoDB) (r : JobAppResult)
    (h : (mongoDB.GetJobAppResult jobID appID m).1 = .ok r) :
    m.jobApps.find? (fun x => x.JobID == jobID && x.AppID == appID) = some r := by
  unfold mongoDB.GetJobAppResult at h
  cases hf : m.jobApps.find? (fun x => x.JobID == jobID && x.AppID == appID) with
  | none => simp [hf] at h
  | some r1 =>
    simp only [hf, Except.ok.injEq] at h
    rw [h]

/-- A failed read of `(jobId, appId)` means that no row matches. -/
theorem get_error_find (jobID appID : String) (m : mongoDB) (e : GoError)
    (h : (mongoDB.GetJobAppResult jobID appID m).1 = .error e) :
    m.jobApps.find? (fun x => x.JobID == jobID && x.AppID == appID) = none := by
  unfold mongoDB.GetJobAppResult at h
  cases hf : m.jobApps.find? (fun x => x.JobID == jobID && x.AppID == appID) with
  | none => rfl
  | some r1 => simp [hf] at h

/-- C25: for `CreateOrUpdateApplicationResult`, `SetNetworkElementEnergy` and
`SetNetworkElementTraffic` on a store that holds a row for `(jobId, appId)`: the rows
before and after that row are unchanged, the row keeps its `jobId`, `appId` and
`numberOfTotalNEs` whatever `numberOfTotalNEs` the call's metadata carries, and in its
result only the named field changes: `appInstanceEnergyConsumption`, or the
`energyConsumption`, or the `appInstanceTraffic` and `totalTraffic` of the entry `neId`,
every other entry of `networkElements` reading as before. The `jobs` collection is
unchanged. When the store holds no such row, exactly one row is appended, with the
call's metadata and only the named field set. -/
theorem C25_upserts_touch_only_their_fields (md : JobAppResultMetadata) (m : mongoDB) :
    (∀ r, (mongoDB.GetJobAppResult md.JobID md.AppID m).1 = .ok r →
      ∃ pre post, m.jobApps = pre ++ r :: post ∧
        (∀ v, (mongoDB.CreateOrUpdateApplicationResult md v m).2.jobs = m.jobs ∧
          (mongoDB.CreateOrUpdateApplicationResult md v m).2.jobApps
            = pre ++ ⟨r.JobID, r.AppID, r.NumberOfTotalNEs,
                some ⟨some v, (r.Result.getD ⟨none, []⟩).NetworkElements⟩⟩ :: post) ∧
        (∀ neId v, ∃ nes,
          (mongoDB.SetNetworkElementEnergy md neId v m).2.jobs = m.jobs ∧
          (mongoDB.SetNetworkElementEnergy md neId v m).2.jobApps
            = pre ++ ⟨r.JobID, r.AppID, r.NumberOfTotalNEs,
                some ⟨(r.Result.getD ⟨none, []⟩).AppInstanceEnergyConsumption, nes⟩⟩ :: post ∧
          (∀ k, k ≠ neId →
            List.lookup k nes = List.lookup k (r.Result.getD ⟨none, []⟩).NetworkElements) ∧
          List.lookup neId nes = some ⟨some v,
            ((List.lookup neId (r.Result.getD ⟨none, []⟩).NetworkElements).getD
              ⟨none, none, none⟩).AppInstanceTraffic,
            ((List.lookup neId (r.Result.getD ⟨none, []⟩).NetworkElements).getD
              ⟨none, none, none⟩).TotalTraffic⟩) ∧
        (∀ neId a t, ∃ nes,
          (mongoDB.SetNetworkElementTraffic md neId a t m).2.jobs = m.jobs ∧
          (mongoDB.SetNetworkElementTraffic md neId a t m).2.jobApps
            = pre ++ ⟨r.JobID, r.AppID, r.NumberOfTotalNEs,
                some ⟨(r.Result.getD ⟨none, []⟩).AppInstanceEnergyConsumption, nes⟩⟩ :: post ∧
          (∀ k, k ≠ neId →
            List.lookup k nes = List.lookup k (r.Result.getD ⟨none, []⟩).NetworkElements) ∧
          List.lookup neId nes = some
            ⟨((List.lookup neId (r.Result.getD ⟨none, []⟩).NetworkElements).getD
              ⟨none, none, none⟩).EnergyConsumption, some a, some t⟩)) ∧
    (∀ e, (mongoDB.GetJobAppResult md.JobID md.AppID m).1 = .error e →
      (∀ v, (mongoDB.CreateOrUpdateApplicationResult md v m).2.jobApps
        = m.jobApps ++ [⟨md.JobID, md.AppID, md.NumberOfTotalNEs, some ⟨some v, []⟩⟩]) ∧
      (∀ neId v, (mongoDB.SetNetworkElementEnergy md neId v m).2.jobApps
        = m.jobApps ++ [⟨md.JobID, md.AppID, md.NumberOfTotalNEs,
            some ⟨none, [(neId, ⟨some v, none, none⟩)]⟩⟩]) ∧
      (∀ neId a t, (mongoDB.SetNetworkElementTraffic md neId a t m).2.jobApps
        = m.jobApps ++ [⟨md.JobID, md.AppID, md.NumberOfTotalNEs,
            some ⟨none, [(neId, ⟨none, some a, some t⟩)]⟩⟩])) := by
  refine ⟨?_, ?_⟩
  · intro r hr
    have hf := get_ok_find _ _ _ _ hr
    obtain ⟨pre, post, h1, -, -, -, hup⟩ := upsert_hit md m.jobApps r hf
    refine ⟨pre, post, h1, ?_, ?_, ?_⟩
    · intro v
      exact ⟨rfl, hup _⟩
    · intro neId v
      exact ⟨_, rfl, hup _, fun k hk => lookup_setNetworkElement_other neId k hk _ _,
        lookup_setNetworkElement_self neId _ _⟩
    · intro neId a t
      exact ⟨_, rfl, hup _, fun k hk => lookup_setNetworkElement_other neId k hk _ _,
        lookup_setNetworkElement_self neId _ _⟩
  · intro e he
    have hmiss := (find_none_iff md m.jobApps).mp (get_error_find _ _ _ _ he)
    refine ⟨fun v => ?_, fun neId v => ?_, fun neId a t => ?_⟩
    · exact upsert_miss md _ m.jobApps hmiss
    · exact upsert_miss md _ m.jobApps hmiss
    · exact upsert_miss md _ m.jobApps hmiss

/-- Witness of C25 on the store of scenario S1 that awaits the energy of `ne1`, with a call
whose metadata says 7 network elements: the row keeps its 1. -/
theorem C25_upserts_touch_only_their_fields_witness :
    ∃ pre post, fixtures.storeAwaitingNEEnergy.jobApps
        = pre ++ fixtures.row "app1" 1 ⟨some (2 / 1000), [("ne1", ⟨none, some 100, some 1000⟩)]⟩
            :: post ∧
      (mongoDB.SetNetworkElementEnergy ⟨"job1", "app1", 7⟩ "ne1" (1 / 1000)
          fixtures.storeAwaitingNEEnergy).2.jobApps
        = pre ++ fixtures.row "app1" 1
            ⟨some (2 / 1000), [("ne1", ⟨some (1 / 1000), some 100, some 1000⟩)]⟩ :: post := by
  obtain ⟨pre, post, h1, -, h3, -⟩ :=
    (C25_upserts_touch_only_their_fields ⟨"job1", "app1", 7⟩
      fixtures.storeAwaitingNEEnergy).1
      (fixtures.row "app1" 1 ⟨some (2 / 1000), [("ne1", ⟨none, some 100, some 1000⟩)]⟩) rfl
  refine ⟨pre, post, h1, ?_⟩
  have h4 : (mongoDB.SetNetworkElementEnergy ⟨"job1", "app1", 7⟩ "ne1" (1 / 1000)
      fixtures.storeAwaitingNEEnergy).2.jobApps
      = [fixtures.row "app1" 1
          ⟨some (2 / 1000), [("ne1", ⟨some (1 / 1000), some 100, some 1000⟩)]⟩] := by
    simp [mongoDB.SetNetworkElementEnergy, fixtures.storeAwaitingNEEnergy, fixtures.row,
      mongoDB.upsert, mongoDB.setNetworkElement]
  obtain ⟨nes, -, h5, -, -⟩ := h3 "ne1" (1 / 1000)
  rw [h4] at h5 ⊢
  have hlen := congrArg List.length h5
  have hpre : pre = [] ∧ post = [] := by
    simp only [List.length_cons, List.length_nil, List.length_append] at hlen
    constructor
    · exact List.length_eq_zero.mp (by omega)
    · exact List.length_eq_zero.mp (by omega)
  rw [hpre.1, hpre.2]
  rfl

end database

/-! ## Store: the flags never go back -/

namespace database

/-- One call leaves a stored job as it is, or is the compare-and-set of that job's id on
a flag that was unset and sets that flag only. -/
theorem StoreCall_run_job (c : StoreCall) (m : mongoDB) (id : String) (job : Job)
    (hj : m.jobs id = some job) :
    (c.run m).jobs id = some job ∨
    (c = .TrySetCalculationTriggered id ∧ job.CalculationTriggered = false ∧
      (c.run m).jobs id = some { job with CalculationTriggered := true }) ∨
    (c = .TrySetNotificationSent id ∧ job.NotificationSent = false ∧
      (c.run m).jobs id = some { job with NotificationSent := true }) := by
  cases c with
  | CreateJob r =>
    left
    simp only [StoreCall.run, mongoDB.CreateJob]
    cases hr : r.RequestId with
    | none => exact hj
    | some rid =>
      cases hm : m.jobs rid with
      | some j =>
        simp only [hm]
        exact hj
      | none =>
        have hne : id ≠ rid := by
          rintro rfl
          rw [hm] at hj
          exact Option.noConfusion hj
        simp [hm, hne, hj]
  | GetJob id1 =>
    left
    simp only [StoreCall.run, mongoDB.GetJob]
    cases m.jobs id1 <;> exact hj
  | SetJobStatus jobID status =>
    left
    simp only [StoreCall.run, mongoDB.SetJobStatus]
    cases m.jobs jobID <;> exact hj
  | CreateOrUpdateNetworkElementResult md ne r => left; exact hj
  | SetNetworkElementEnergy md ne v => left; exact hj
  | SetNetworkElementTraffic md ne a t => left; exact hj
  | CreateOrUpdateApplicationResult md v => left; exact hj
  | GetJobAppResult jobID appID =>
    left
    simp only [StoreCall.run, mongoDB.GetJobAppResult]
    cases m.jobApps.find? (fun r => r.JobID == jobID && r.AppID == appID) <;> exact hj
  | GetAllJobAppResults jobID => left; exact hj
  | TrySetCalculationTriggered jobID =>
    by_cases hid : jobID = id
    · subst hid
      cases hf : job.CalculationTriggered with
      | true =>
        left
        simp [StoreCall.run, mongoDB.TrySetCalculationTriggered, hj, hf]
      | false =>
        right; left
        simp [StoreCall.run, mongoDB.TrySetCalculationTriggered, hj, hf]
    · left
      have hne : id ≠ jobID := fun h => hid h.symm
      simp only [StoreCall.run, mongoDB.TrySetCalculationTriggered]
      cases hm : m.jobs jobID with
      | none => exact hj
      | some j1 =>
        by_cases hf : (j1.CalculationTriggered != true) = true
        · simp [hf, hne, hj]
        · simp [hf, hj]
  | TrySetNotificationSent jobID =>
    by_cases hid : jobID = id
    · subst hid
      cases hf : job.NotificationSent with
      | true =>
        left
        simp [StoreCall.run, mongoDB.TrySetNotificationSent, hj, hf]
      | false =>
        right; right
        simp [StoreCall.run, mongoDB.TrySetNotificationSent, hj, hf]
    · left
      have hne : id ≠ jobID := fun h => hid h.symm
      simp only [StoreCall.run, mongoDB.TrySetNotificationSent]
      cases hm : m.jobs jobID with
      | none => exact hj
      | some j1 =>
        by_cases hf : (j1.NotificationSent != true) = true
        · simp [hf, hne, hj]
        · simp [hf, hj]

/-- Along any sequence of calls a stored job stays stored and a set flag stays set. -/
theorem runStoreCalls_flags (calls : List StoreCall) :
    ∀ (m : mongoDB) (id : String) (job : Job), m.jobs id = some job →
      ∃ job1, (runStoreCalls calls m).jobs id = some job1 ∧
        (job.CalculationTriggered = true → job1.CalculationTriggered = true) ∧
        (job.NotificationSent = true → job1.NotificationSent = true) := by
  induction calls with
  | nil => intro m id job hj; exact ⟨job, hj, fun h => h, fun h => h⟩
  | cons c rest ih =>
    intro m id job hj
    rcases StoreCall_run_job c m id job hj with h | ⟨-, -, h⟩ | ⟨-, -, h⟩
    · exact ih _ id job h
    · obtain ⟨job1, h1, h2, h3⟩ := ih _ id _ h
      exact ⟨job1, h1, fun _ => h2 rfl, h3⟩
    · obtain ⟨job1, h1, h2, h3⟩ := ih _ id _ h
      exact ⟨job1, h1, h2, fun _ => h3 rfl⟩

/-- C26: a job made by `newJob` has both flags unset. For a job in the store, along any
sequence of store calls (`CreateJob`, the partial-result upserts, the two compare-and-set
methods, `SetJobStatus`, the reads) the job stays stored and a flag that is true stays true.
A single call leaves the stored job as it is, unless it is `TrySetCalculationTriggered` or
`TrySetNotificationSent` on that job's id with the flag unset, which sets that flag and
nothing else. -/
theorem C26_flags_are_monotonic (req : models.ReportCreationRequest) (kind : String)
    (calls : List StoreCall) (m : mongoDB) (id : String) (job : Job)
    (hj : m.jobs id = some job) :
    ((api.newJob req kind).CalculationTriggered = false ∧
      (api.newJob req kind).NotificationSent = false) ∧
    (∃ job1, (runStoreCalls calls m).jobs id = some job1 ∧
      (job.CalculationTriggered = true → job1.CalculationTriggered = true) ∧
      (job.NotificationSent = true → job1.NotificationSent = true)) ∧
    (∀ c : StoreCall,
      (c.run m).jobs id = some job ∨
      (c = .TrySetCalculationTriggered id ∧ job.CalculationTriggered = false ∧
        (c.run m).jobs id = some { job with CalculationTriggered := true }) ∨
      (c = .TrySetNotificationSent id ∧ job.NotificationSent = false ∧
        (c.run m).jobs id = some { job with NotificationSent := true })) :=
  ⟨⟨rfl, rfl⟩, runStoreCalls_flags calls m id job hj,
    fun c => StoreCall_run_job c m id job hj⟩

/-- Witness of C26 on the store of scenario S1: after the notification flag of `job1` is
set, a second job is created, a partial result is written and both compare-and-set methods
are called again, `job1` is stored with `notificationSent` still true. -/
theorem C26_flags_are_monotonic_witness :
    ∃ job1, (runStoreCalls
        [.CreateJob (fixtures.job ["app2"]), .SetJobStatus "job1" "done",
         .CreateOrUpdateApplicationResult ⟨"job1", "app1", 1⟩ (2 / 1000),
         .TrySetCalculationTriggered "job1", .TrySetNotificationSent "job1"]
        (StoreCall.run (.TrySetNotificationSent "job1") fixtures.store)).jobs "job1"
        = some job1 ∧
      job1.NotificationSent = true := by
  obtain ⟨job1, h1, -, h3⟩ := (C26_flags_are_monotonic fixtures.validRequest
    RequestKindEnergyConsumption
    [.CreateJob (fixtures.job ["app2"]), .SetJobStatus "job1" "done",
     .CreateOrUpdateApplicationResult ⟨"job1", "app1", 1⟩ (2 / 1000),
     .TrySetCalculationTriggered "job1", .TrySetNotificationSent "job1"]
    (StoreCall.run (.TrySetNotificationSent "job1") fixtures.store) "job1"
    { fixtures.job ["app1"] with NotificationSent := true }
    (by simp [StoreCall.run, mongoDB.TrySetNotificationSent, fixtures.store,
      fixtures.job])).2.1
  exact ⟨job1, h1, h3 rfl⟩

end database

/-! ## Notify: the HTTP client of a sink -/

namespace notification

/-- Upper-casing an ASCII letter and lower-casing it again is lower-casing it. -/
theorem toLower_toUpper_ascii (c : Char) : c.toUpper.toLower = c.toLower := by
  by_cases h : c.toNat ≥ 97 ∧ c.toNat ≤ 122
  · have hc : c = Char.ofNat c.toNat := (Char.ofNat_toNat c).symm
    obtain ⟨h1, h2⟩ := h
    generalize c.toNat = n at hc h1 h2
    subst hc
    interval_cases n <;> rfl
  · have : c.toUpper = c := by
      unfold Char.toUpper
      simp only [h, if_false]
    rw [this]

/-- Upper-casing keeps a rune inside or outside ASCII. -/
theorem toUpper_val_lt (c : Char) : c.toUpper.val < 128 ↔ c.val < 128 := by
  by_cases h : c.toNat ≥ 97 ∧ c.toNat ≤ 122
  · have hc : c = Char.ofNat c.toNat := (Char.ofNat_toNat c).symm
    obtain ⟨h1, h2⟩ := h
    generalize c.toNat = n at hc h1 h2
    subst hc
    interval_cases n <;> decide
  · have : c.toUpper = c := by
      unfold Char.toUpper
      simp only [h, if_false]
    rw [this]

/-- Lower-casing does not see the ASCII case of a rune. -/
theorem toLowerRune_toUpper (t : Char → Char) (c : Char) :
    strings.toLowerRune t c.toUpper = strings.toLowerRune t c := by
  unfold strings.toLowerRune
  by_cases h : c.val < 128
  · rw [if_pos ((toUpper_val_lt c).mpr h), if_pos h, toLower_toUpper_ascii]
  · rw [if_neg (fun h1 => h ((toUpper_val_lt c).mp h1)), if_neg h]
    have hu : c.toUpper = c := by
      unfold Char.toUpper
      have hn : ¬ (c.toNat ≥ 97 ∧ c.toNat ≤ 122) := by
        rintro ⟨-, h2⟩
        apply h
        show c.val.toNat < 128
        have : c.toNat = c.val.toNat := rfl
        omega
      simp only [hn, if_false]
    rw [hu]

/-- Lower-casing does not see the ASCII case of a string. -/
theorem ToLower_asciiUpper (t : Char → Char) (s : String) :
    strings.ToLower t (strings.asciiUpper s) = strings.ToLower t s := by
  unfold strings.ToLower strings.asciiUpper
  simp only [List.map_map]
  congr 1
  apply List.map_congr_left
  intro c _
  exact toLowerRune_toUpper t c

/-- The test on the lower-cased hostname, with the redundant third alternative removed. -/
theorem internal_iff (hostname : String) :
    (strings.HasSuffix hostname ".svc.cluster.local" || strings.HasSuffix hostname ".svc" ||
      strings.Contains hostname ".svc.") = true ↔
    (∃ pre, hostname.data = pre ++ ".svc".data) ∨
    (∃ pre post, hostname.data = pre ++ ".svc.".data ++ post) ∨
    (∃ pre, hostname.data = pre ++ ".svc.cluster.local".data) := by
  simp only [strings.HasSuffix, strings.Contains, Bool.or_eq_true, decide_eq_true_eq,
    List.IsSuffix, List.IsInfix]
  constructor
  · rintro ((⟨pre, h⟩ | ⟨pre, h⟩) | ⟨pre, post, h⟩)
    · exact Or.inr (Or.inr ⟨pre, h.symm⟩)
    · exact Or.inl ⟨pre, h.symm⟩
    · exact Or.inr (Or.inl ⟨pre, post, h.symm⟩)
  · rintro (⟨pre, h⟩ | ⟨pre, post, h⟩ | ⟨pre, h⟩)
    · exact Or.inl (Or.inr ⟨pre, h.symm⟩)
    · exact Or.inr ⟨pre, post, h.symm⟩
    · exact Or.inl (Or.inl ⟨pre, h.symm⟩)

/-- C21: `isInternalClusterService` is false on a sink that `url.Parse` rejects; on a
parsed sink it is true iff the lower-cased hostname ends in `.svc`, contains `.svc.`, or
ends in `.svc.cluster.local`. It reads nothing of the URL but the hostname, and not the
ASCII case of the hostname. `getHTTPClient` returns a client with a timeout of 30 s in
both cases, with a transport whose `InsecureSkipVerify` is the configured value exactly
when `isInternalClusterService` is true, and with the default transport otherwise. -/
theorem C21_internal_cluster_service (lib : Stdlib) (sinkURL : String) :
    (∀ err, lib.urlParse sinkURL = .error err →
      isInternalClusterService lib sinkURL = false) ∧
    (∀ u, lib.urlParse sinkURL = .ok u →
      (isInternalClusterService lib sinkURL = true ↔
        (∃ pre, (strings.ToLower lib.unicodeToLower u.Hostname).data = pre ++ ".svc".data) ∨
        (∃ pre post, (strings.ToLower lib.unicodeToLower u.Hostname).data
          = pre ++ ".svc.".data ++ post) ∨
        (∃ pre, (strings.ToLower lib.unicodeToLower u.Hostname).data
          = pre ++ ".svc.cluster.local".data)) ∧
      (∀ sink1 u1, lib.urlParse sink1 = .ok u1 →
        (u1.Hostname = u.Hostname ∨ u1.Hostname = strings.asciiUpper u.Hostname) →
        isInternalClusterService lib sink1 = isInternalClusterService lib sinkURL)) ∧
    (∀ (σ : Type) (h : Handler σ),
      (getHTTPClient h lib sinkURL).Timeout = 30 * time.Second ∧
      (isInternalClusterService lib sinkURL = true →
        (getHTTPClient h lib sinkURL).Transport
          = some { TLSClientConfig := { InsecureSkipVerify := h.config.InsecureSkipVerify } }) ∧
      (isInternalClusterService lib sinkURL = false →
        (getHTTPClient h lib sinkURL).Transport = none)) := by
  refine ⟨?_, ?_, ?_⟩
  · intro err he
    simp [isInternalClusterService, he]
  · intro u hu
    refine ⟨?_, ?_⟩
    · rw [← internal_iff]
      simp [isInternalClusterService, hu]
    · intro sink1 u1 hu1 hh
      have hl : strings.ToLower lib.unicodeToLower u1.Hostname
          = strings.ToLower lib.unicodeToLower u.Hostname := by
        rcases hh with hh | hh
        · rw [hh]
        · rw [hh, ToLower_asciiUpper]
      simp only [isInternalClusterService, hu, hu1, hl]
  · intro σ h
    unfold getHTTPClient
    cases hi : isInternalClusterService lib sinkURL <;> simp

/-- Witness of C21: a sink with userinfo, port and path whose hostname is
`Notify.Sinks.SVC` is an internal cluster service, and its client takes the configured
`InsecureSkipVerify`. -/
theorem C21_internal_cluster_service_witness :
    isInternalClusterService fixtures.stdlib "https://user@Notify.Sinks.SVC:8443/callback"
      = true ∧
    (getHTTPClient (mock.notify (fixtures.returns (fixtures.job ["app1"]) [] true) ⟨true⟩)
      fixtures.stdlib "https://user@Notify.Sinks.SVC:8443/callback").Transport
      = some { TLSClientConfig := { InsecureSkipVerify := true } } := by
  have h := C21_internal_cluster_service fixtures.stdlib
    "https://user@Notify.Sinks.SVC:8443/callback"
  have hi : isInternalClusterService fixtures.stdlib
      "https://user@Notify.Sinks.SVC:8443/callback" = true :=
    ((h.2.1 ⟨"https", some "user", "Notify.Sinks.SVC", "8443", "/callback"⟩ rfl).1).mpr
      (Or.inl ⟨"notify.sinks".data, by decide⟩)
  exact ⟨hi, (h.2.2 _ _).2.1 hi⟩

end notification

/-! ## Worker: the dead-letter path -/

namespace worker

open event

/-- The dead-letter handler against the doubles: the error notification goes to the request
id found under the key `requestId` of the data, the empty string when the key is absent. -/
theorem HandleDLQEvent_mock (r : mock.Returns) (ctx : Context) (e : event.Event)
    (f : event.Fields) (hf : e.Data.fields = some f) :
    (HandleDLQEvent (mock.handler r) ctx e.delivered mock.start).2.sends
      = [spec.errorNotification (f.requestId.getD "")
          "Event processing failed after multiple retries"] := by
  simp only [HandleDLQEvent, DataAsRequestID, Event.delivered, hf, mock.handler,
    mock.mockSender]
  cases r.Send <;> rfl

/-- C22, as the code has it: the `/dlq` ingress answers 202 for every request whose body
parses as a CloudEvent, whatever `HandleDLQEvent` returns, and answers 400 without calling
the handler for a request whose body does not parse. -/
theorem C22_dlq_answers_400_on_invalid_cloud_event {σ : Type} (handler : Handler σ)
    (ctx : Context) (path : String) (s : σ) :
    (∀ evt, (cmd.worker.dlq handler ctx ⟨path, .ok evt⟩ s).1 = 202) ∧
    (∀ err, cmd.worker.dlq handler ctx ⟨path, .error err⟩ s = (400, s)) :=
  ⟨fun _ => rfl, fun _ => rfl⟩

/-- C23, as the code has it: `HandleDLQEvent` reads the request id from the key `requestId`
of the event data. For the six event types whose payload has that field it emits
`NotificationErrorRequested(r, 500, "Event processing failed after multiple retries")`
for the job's request id `r`. The payload of `CalculationRequested` is the empty struct and
`NotificationSent` has no data: for these two the extracted id is the empty string, whatever
the job's request id, and the error notification is emitted for the request id `""`. -/
theorem C23_dlq_request_id_from_data (r : mock.Returns) (ctx : Context)
    (id eventType source : String) :
    (∀ d, (HandleDLQEvent (mock.handler r) ctx
        (Event.delivered ⟨id, eventType, source, .gatherInfo d⟩) mock.start).2.sends
      = [spec.errorNotification d.RequestID
          "Event processing failed after multiple retries"]) ∧
    (∀ d, (HandleDLQEvent (mock.handler r) ctx
        (Event.delivered ⟨id, eventType, source, .appConsumption d⟩) mock.start).2.sends
      = [spec.errorNotification d.RequestID
          "Event processing failed after multiple retries"]) ∧
    (∀ d, (HandleDLQEvent (mock.handler r) ctx
        (Event.delivered ⟨id, eventType, source, .networkElementEnergy d⟩) mock.start).2.sends
      = [spec.errorNotification d.RequestID
          "Event processing failed after multiple retries"]) ∧
    (∀ d, (HandleDLQEvent (mock.handler r) ctx
        (Event.delivered ⟨id, eventType, source, .networkElementTraffic d⟩) mock.start).2.sends
      = [spec.errorNotification d.RequestID
          "Event processing failed after multiple retries"]) ∧
    (∀ requestID q, (HandleDLQEvent (mock.handler r) ctx
        (Event.delivered ⟨id, eventType, source,
          .notificationRequested (NewNotificationRequestedData requestID (.fin q))⟩)
        mock.start).2.sends
      = [spec.errorNotification requestID
          "Event processing failed after multiple retries"]) ∧
    (∀ d, (HandleDLQEvent (mock.handler r) ctx
        (Event.delivered ⟨id, eventType, source, .notificationErrorRequested d⟩)
        mock.start).2.sends
      = [spec.errorNotification d.RequestID
          "Event processing failed after multiple retries"]) ∧
    (∀ requestID, (HandleDLQEvent (mock.handler r) ctx
        (Event.delivered (mock.calculationRequested requestID)) mock.start).2.sends
      = [spec.errorNotification "" "Event processing failed after multiple retries"]) ∧
    (∀ requestID, (HandleDLQEvent (mock.handler r) ctx
        (Event.delivered ⟨requestID, EventTypeNotificationSent, SourceEFNNotify, .nil⟩)
        mock.start).2.sends
      = [spec.errorNotification "" "Event processing failed after multiple retries"]) ∧
    spec.errorNotification "" "Event processing failed after multiple retries"
      ≠ spec.errorNotification "job1" "Event processing failed after multiple retries" := by
  refine ⟨fun d => ?_, fun d => ?_, fun d => ?_, fun d => ?_, fun requestID q => ?_,
    fun d => ?_, fun requestID => ?_, fun requestID => ?_, by decide⟩
  · exact HandleDLQEvent_mock r ctx ⟨id, eventType, source, .gatherInfo d⟩ _ rfl
  · exact HandleDLQEvent_mock r ctx ⟨id, eventType, source, .appConsumption d⟩ _ rfl
  · exact HandleDLQEvent_mock r ctx ⟨id, eventType, source, .networkElementEnergy d⟩ _ rfl
  · exact HandleDLQEvent_mock r ctx ⟨id, eventType, source, .networkElementTraffic d⟩ _ rfl
  · exact HandleDLQEvent_mock r ctx ⟨id, eventType, source,
      .notificationRequested (NewNotificationRequestedData requestID (.fin q))⟩ _ rfl
  · exact HandleDLQEvent_mock r ctx ⟨id, eventType, source, .notificationErrorRequested d⟩ _
      rfl
  · exact HandleDLQEvent_mock r ctx (mock.calculationRequested requestID) _ rfl
  · exact HandleDLQEvent_mock r ctx
      ⟨requestID, EventTypeNotificationSent, SourceEFNNotify, .nil⟩ _ rfl

end worker

/-! ## The configurable stub clients -/

namespace trafficvolume

/-- The calls of `shouldReturnError` change nothing of the client but `requestCount`. -/
theorem trafficStub_iterate (c : configurableClient) (n : Nat) :
    ((fun x : configurableClient => x.shouldReturnError.2)^[n] c).successCount
      = c.successCount ∧
    ((fun x : configurableClient => x.shouldReturnError.2)^[n] c).errorCount = c.errorCount ∧
    ((fun x : configurableClient => x.shouldReturnError.2)^[n] c).errorType = c.errorType ∧
    ((fun x : configurableClient => x.shouldReturnError.2)^[n] c).delay = c.delay ∧
    ((fun x : configurableClient => x.shouldReturnError.2)^[n] c).ipVolume = c.ipVolume ∧
    ((fun x : configurableClient => x.shouldReturnError.2)^[n] c).allVolume = c.allVolume := by
  induction n with
  | zero => exact ⟨rfl, rfl, rfl, rfl, rfl, rfl⟩
  | succ k ih =>
    rw [Function.iterate_succ_apply']
    obtain ⟨h1, h2, h3, h4, h5, h6⟩ := ih
    refine ⟨?_, ?_, ?_, ?_, ?_, ?_⟩ <;>
      · simp only [configurableClient.shouldReturnError]
        split_ifs <;> assumption

/-- What `shouldReturnError` returns, written out. -/
theorem trafficStub_shouldReturnError (c : configurableClient) :
    c.shouldReturnError.2 = { c with requestCount := time.wrapInt64 (c.requestCount + 1) } ∧
    (c.successCount = 0 ∧ c.errorCount > 0 →
      c.shouldReturnError.1 = (true, some c.shouldReturnError.2.makeError) ∧
        (IsThrottlingError c.shouldReturnError.2.makeError = true ↔
          c.errorType = "throttling")) ∧
    (¬ (c.successCount = 0 ∧ c.errorCount > 0) → c.shouldReturnError.1 = (false, none)) := by
  refine ⟨?_, ?_, ?_⟩
  · simp only [configurableClient.shouldReturnError]
    split_ifs <;> rfl
  · intro h
    refine ⟨by simp [configurableClient.shouldReturnError, h], ?_⟩
    by_cases ht : c.errorType = "throttling"
    · simp [configurableClient.shouldReturnError, h, configurableClient.makeError, ht,
        NewThrottlingError, IsThrottlingError]
    · simp [configurableClient.shouldReturnError, h, configurableClient.makeError, ht,
        IsThrottlingError]
  · intro h
    simp [configurableClient.shouldReturnError, h]

/-- What `RetrieveTrafficVolumes` returns, written out. -/
theorem trafficStub_RetrieveTrafficVolumes (c : configurableClient) (ctx : Context)
    (ips : List String) (nes : List NetworkElement) (tp : Option models.TimePeriod) :
    (c.delay > 0 ∧ ctx.doneBefore c.delay = true →
      c.RetrieveTrafficVolumes ctx ips nes tp = ((none, some ctx.Err), c)) ∧
    (¬ (c.delay > 0 ∧ ctx.doneBefore c.delay = true) →
      (c.successCount = 0 ∧ c.errorCount > 0 →
        (c.RetrieveTrafficVolumes ctx ips nes tp).1
          = (none, some c.shouldReturnError.2.makeError)) ∧
      (¬ (c.successCount = 0 ∧ c.errorCount > 0) →
        (c.RetrieveTrafficVolumes ctx ips nes tp).1
          = (some (nes.map (fun ne => ⟨⟨ne.VendorIdentifier, ne.NEIdentifier⟩,
              c.ipVolume, c.allVolume⟩)), none))) := by
  refine ⟨?_, ?_⟩
  · intro h
    simp [configurableClient.RetrieveTrafficVolumes, h]
  · intro hd
    refine ⟨?_, ?_⟩
    · intro h
      simp only [configurableClient.RetrieveTrafficVolumes, hd, if_false,
        configurableClient.shouldReturnError, h, gt_iff_lt, and_self, if_true]
    · intro h
      simp only [configurableClient.RetrieveTrafficVolumes, hd, if_false,
        configurableClient.shouldReturnError, h]

end trafficvolume

namespace cloudobservability

/-- The calls of `shouldReturnError` change nothing of the client but `requestCount`. -/
theorem cloudStub_iterate (c : configurableClient) (n : Nat) :
    ((fun x : configurableClient => x.shouldReturnError.2)^[n] c).successCount
      = c.successCount ∧
    ((fun x : configurableClient => x.shouldReturnError.2)^[n] c).errorCount = c.errorCount ∧
    ((fun x : configurableClient => x.shouldReturnError.2)^[n] c).errorType = c.errorType ∧
    ((fun x : configurableClient => x.shouldReturnError.2)^[n] c).delay = c.delay ∧
    ((fun x : configurableClient => x.shouldReturnError.2)^[n] c).appValue = c.appValue ∧
    ((fun x : configurableClient => x.shouldReturnError.2)^[n] c).neValue = c.neValue := by
  induction n with
  | zero => exact ⟨rfl, rfl, rfl, rfl, rfl, rfl⟩
  | succ k ih =>
    rw [Function.iterate_succ_apply']
    obtain ⟨h1, h2, h3, h4, h5, h6⟩ := ih
    refine ⟨?_, ?_, ?_, ?_, ?_, ?_⟩ <;>
      · simp only [configurableClient.shouldReturnError]
        split_ifs <;> assumption

/-- What `shouldReturnError` returns, written out. -/
theorem cloudStub_shouldReturnError (c : configurableClient) :
    c.shouldReturnError.2 = { c with requestCount := time.wrapInt64 (c.requestCount + 1) } ∧
    (c.successCount = 0 ∧ c.errorCount > 0 →
      c.shouldReturnError.1 = (true, some c.shouldReturnError.2.makeError) ∧
        (IsThrottlingError c.shouldReturnError.2.makeError = true ↔
          c.errorType = "throttling")) ∧
    (¬ (c.successCount = 0 ∧ c.errorCount > 0) → c.shouldReturnError.1 = (false, none)) := by
  refine ⟨?_, ?_, ?_⟩
  · simp only [configurableClient.shouldReturnError]
    split_ifs <;> rfl
  · intro h
    refine ⟨by simp [configurableClient.shouldReturnError, h], ?_⟩
    by_cases ht : c.errorType = "throttling"
    · simp [configurableClient.shouldReturnError, h, configurableClient.makeError, ht,
        NewThrottlingError, IsThrottlingError]
    · simp [configurableClient.shouldReturnError, h, configurableClient.makeError, ht,
        IsThrottlingError]
  · intro h
    simp [configurableClient.shouldReturnError, h]

/-- What the two retrieval methods return, written out. -/
theorem cloudStub_Retrieve (c : configurableClient) (ctx : Context)
    (appInstanceID : String) (tp : Option models.TimePeriod) (infraType : String) :
    (c.delay > 0 ∧ ctx.doneBefore c.delay = true →
      c.RetrieveAppEnergyConsumption ctx appInstanceID tp infraType
        = ((none, some ctx.Err), c) ∧
      c.RetrieveNetworkElementEnergyConsumption ctx appInstanceID tp infraType
        = ((none, some ctx.Err), c)) ∧
    (¬ (c.delay > 0 ∧ ctx.doneBefore c.delay = true) →
      (c.successCount = 0 ∧ c.errorCount > 0 →
        (c.RetrieveAppEnergyConsumption ctx appInstanceID tp infraType).1
          = (none, some c.shouldReturnError.2.makeError) ∧
        (c.RetrieveNetworkElementEnergyConsumption ctx appInstanceID tp infraType).1
          = (none, some c.shouldReturnError.2.makeError)) ∧
      (¬ (c.successCount = 0 ∧ c.errorCount > 0) →
        (c.RetrieveAppEnergyConsumption ctx appInstanceID tp infraType).1
          = (some c.appValue, none) ∧
        (c.RetrieveNetworkElementEnergyConsumption ctx appInstanceID tp infraType).1
          = (some c.neValue, none))) := by
  refine ⟨?_, ?_⟩
  · intro h
    simp [configurableClient.RetrieveAppEnergyConsumption,
      configurableClient.RetrieveNetworkElementEnergyConsumption, h]
  · intro hd
    refine ⟨?_, ?_⟩
    · intro h
      constructor
      · simp only [configurableClient.RetrieveAppEnergyConsumption, hd, if_false,
          configurableClient.shouldReturnError, h, gt_iff_lt, and_self, if_true]
      · simp only [configurableClient.RetrieveNetworkElementEnergyConsumption, hd, if_false,
          configurableClient.shouldReturnError, h, gt_iff_lt, and_self, if_true]
    · intro h
      constructor
      · simp only [configurableClient.RetrieveAppEnergyConsumption, hd, if_false,
          configurableClient.shouldReturnError, h]
      · simp only [configurableClient.RetrieveNetworkElementEnergyConsumption, hd, if_false,
          configurableClient.shouldReturnError, h]

end cloudobservability

namespace trafficvolume

/-- C27, as the code has it: for both configurable stub clients, `shouldReturnError` changes
nothing of the client but `requestCount`, which it increments by one (in 64-bit
arithmetic), and returns `(true, err)` with a non-nil error iff `successCount = 0` and
`errorCount > 0`, otherwise `(false, nil)`; the error is a throttling error iff
`errorType = "throttling"`; the configuration is the same after any number of calls. A
request whose context is not done before the configured delay elapses fails with that
error in the first case and succeeds with the configured value in the second. A request
with a positive delay whose context is done first returns `ctx.Err()` and does not count,
whatever the counts are. -/
theorem C27_stub_clients_fail_iff_configured (c : configurableClient)
    (d : cloudobservability.configurableClient) (ctx : Context) (n : Nat)
    (ips : List String) (nes : List NetworkElement) (tp : Option models.TimePeriod)
    (appInstanceID infraType : String) :
    (c.shouldReturnError.2 = { c with requestCount := time.wrapInt64 (c.requestCount + 1) } ∧
      (-(2 ^ 63) ≤ c.requestCount → c.requestCount < 2 ^ 63 - 1 →
        c.shouldReturnError.2.requestCount = c.requestCount + 1) ∧
      (c.successCount = 0 ∧ c.errorCount > 0 →
        c.shouldReturnError.1 = (true, some c.shouldReturnError.2.makeError) ∧
        (IsThrottlingError c.shouldReturnError.2.makeError = true ↔
          c.errorType = "throttling")) ∧
      (¬ (c.successCount = 0 ∧ c.errorCount > 0) → c.shouldReturnError.1 = (false, none)) ∧
      (((fun x : configurableClient => x.shouldReturnError.2)^[n] c).successCount
          = c.successCount ∧
        ((fun x : configurableClient => x.shouldReturnError.2)^[n] c).errorCount
          = c.errorCount ∧
        ((fun x : configurableClient => x.shouldReturnError.2)^[n] c).errorType
          = c.errorType) ∧
      (¬ (c.delay > 0 ∧ ctx.doneBefore c.delay = true) →
        (c.successCount = 0 ∧ c.errorCount > 0 →
          (c.RetrieveTrafficVolumes ctx ips nes tp).1
            = (none, some c.shouldReturnError.2.makeError)) ∧
        (¬ (c.successCount = 0 ∧ c.errorCount > 0) →
          (c.RetrieveTrafficVolumes ctx ips nes tp).1
            = (some (nes.map (fun ne => ⟨⟨ne.VendorIdentifier, ne.NEIdentifier⟩,
                c.ipVolume, c.allVolume⟩)), none))) ∧
      (c.delay > 0 ∧ ctx.doneBefore c.delay = true →
        c.RetrieveTrafficVolumes ctx ips nes tp = ((none, some ctx.Err), c))) ∧
    (d.shouldReturnError.2 = { d with requestCount := time.wrapInt64 (d.requestCount + 1) } ∧
      (-(2 ^ 63) ≤ d.requestCount → d.requestCount < 2 ^ 63 - 1 →
        d.shouldReturnError.2.requestCount = d.requestCount + 1) ∧
      (d.successCount = 0 ∧ d.errorCount > 0 →
        d.shouldReturnError.1 = (true, some d.shouldReturnError.2.makeError) ∧
        (cloudobservability.IsThrottlingError d.shouldReturnError.2.makeError = true ↔
          d.errorType = "throttling")) ∧
      (¬ (d.successCount = 0 ∧ d.errorCount > 0) → d.shouldReturnError.1 = (false, none)) ∧
      (((fun x : cloudobservability.configurableClient => x.shouldReturnError.2)^[n]
          d).successCount = d.successCount ∧
        ((fun x : cloudobservability.configurableClient => x.shouldReturnError.2)^[n]
          d).errorCount = d.errorCount ∧
        ((fun x : cloudobservability.configurableClient => x.shouldReturnError.2)^[n]
          d).errorType = d.errorType) ∧
      (¬ (d.delay > 0 ∧ ctx.doneBefore d.delay = true) →
        (d.successCount = 0 ∧ d.errorCount > 0 →
          (d.RetrieveAppEnergyConsumption ctx appInstanceID tp infraType).1
            = (none, some d.shouldReturnError.2.makeError) ∧
          (d.RetrieveNetworkElementEnergyConsumption ctx appInstanceID tp infraType).1
            = (none, some d.shouldReturnError.2.makeError)) ∧
        (¬ (d.successCount = 0 ∧ d.errorCount > 0) →
          (d.RetrieveAppEnergyConsumption ctx appInstanceID tp infraType).1
            = (some d.appValue, none) ∧
          (d.RetrieveNetworkElementEnergyConsumption ctx appInstanceID tp infraType).1
            = (some d.neValue, none))) ∧
      (d.delay > 0 ∧ ctx.doneBefore d.delay = true →
        d.RetrieveAppEnergyConsumption ctx appInstanceID tp infraType
          = ((none, some ctx.Err), d) ∧
        d.RetrieveNetworkElementEnergyConsumption ctx appInstanceID tp infraType
          = ((none, some ctx.Err), d))) := by
  obtain ⟨a1, a2, a3⟩ := trafficStub_shouldReturnError c
  obtain ⟨a4, a5, a6, -, -, -⟩ := trafficStub_iterate c n
  obtain ⟨a7, a8⟩ := trafficStub_RetrieveTrafficVolumes c ctx ips nes tp
  obtain ⟨b1, b2, b3⟩ := cloudobservability.cloudStub_shouldReturnError d
  obtain ⟨b4, b5, b6, -, -, -⟩ := cloudobservability.cloudStub_iterate d n
  obtain ⟨b7, b8⟩ := cloudobservability.cloudStub_Retrieve d ctx appInstanceID tp
    infraType
  refine ⟨⟨a1, ?_, a2, a3, ⟨a4, a5, a6⟩, a8, a7⟩, ⟨b1, ?_, b2, b3, ⟨b4, b5, b6⟩, b8, b7⟩⟩
  · intro h1 h2
    rw [a1]
    exact api.wrapInt64_of_range _ (by omega) (by omega)
  · intro h1 h2
    rw [b1]
    exact api.wrapInt64_of_range _ (by omega) (by omega)

/-- Witness of C27: a client with `successCount = 0` and `errorCount = 5` answers its first
request with a throttling error and counts it. -/
theorem C27_stub_clients_fail_iff_configured_witness :
    fixtures.failingClient.shouldReturnError.1.1 = true ∧
    fixtures.failingClient.shouldReturnError.2.requestCount = 1 ∧
    (fixtures.failingClient.RetrieveTrafficVolumes fixtures.ctx ["10.0.0.1"]
      [⟨"Test", "ne1"⟩] none).1
      = (none, some (.trafficThrottling "configurable throttling error (request #1)")) := by
  obtain ⟨⟨-, h2, h3, -, -, h6, -⟩, -⟩ := C27_stub_clients_fail_iff_configured
    fixtures.failingClient ⟨2 / 1000, 1 / 1000, 0, 5, "permanent", 0, 0⟩ fixtures.ctx 3
    ["10.0.0.1"] [⟨"Test", "ne1"⟩] none "app1" "sylva"
  have hc : fixtures.failingClient.successCount = 0 ∧ fixtures.failingClient.errorCount > 0 :=
    ⟨rfl, by decide⟩
  refine ⟨?_, h2 (by decide) (by decide), ?_⟩
  · rw [(h3 hc).1]
  · rw [(h6 (by decide)).1 hc]
    rfl

/-- Counterexample to C27 as stated: in `TestConfigurableClient_DelayContextCancellation`
the client has `errorCount = 0`, a delay of 300 ms and a context that times out after
50 ms; the request does not succeed with the configured value but returns
`context.DeadlineExceeded`, and `requestCount` stays 0. -/
theorem C27_counterexample :
    fixtures.delayedClient.errorCount = 0 ∧
    fixtures.delayedClient.RetrieveTrafficVolumes fixtures.timeoutCtx ["10.0.0.1"]
      [⟨"Test", "ne1"⟩] (some ⟨none, 0⟩)
      = ((none, some (.errorString "context deadline exceeded")), fixtures.delayedClient) ∧
    fixtures.delayedClient.requestCount = 0 := by
  refine ⟨rfl, ?_, rfl⟩
  have hd : fixtures.delayedClient.delay > 0 ∧
      fixtures.timeoutCtx.doneBefore fixtures.delayedClient.delay = true := by
    constructor
    · decide
    · decide
  simp only [configurableClient.RetrieveTrafficVolumes, hd, and_self, if_true]
  rfl

end trafficvolume

/-! ## Duplicate service entries, unknown jobs, and the calculator's precondition -/

namespace worker

open spec

/-- A list without repetitions drawn from a list with a repetition is shorter than it. -/
theorem length_lt_of_nodup_subset {α : Type} [DecidableEq α] (l s : List α)
    (hl : l.Nodup) (hs : ∀ x ∈ l, x ∈ s) (hdup : ¬ s.Nodup) : l.length < s.length := by
  have h1 : l.length ≤ s.dedup.length :=
    (List.subperm_of_subset hl (fun x hx => List.mem_dedup.mpr (hs x hx))).length_le
  have h2 : s.dedup.length < s.length := by
    rcases Nat.lt_or_ge s.dedup.length s.length with h | h
    · exact h
    · exfalso
      apply hdup
      have := (List.dedup_sublist s).eq_of_length_le h
      rw [← this]
      exact List.nodup_dedup s
  omega

/-- C28: for a job whose service list holds an application instance id twice, and rows of
that job that respect the unique `(jobId, appId)` index with their `appId` drawn from the
service list, there are fewer rows than entries of the service list, `isAllDataGathered`
returns false without calling `TrySetCalculationTriggered`, and `checkAndTrigger` sends
no event. The API handler accepts such a request like any other and stores the job with
the service list as it came. -/
theorem C28_duplicate_service_never_gathers (r : mock.Returns) (requestID : String)
    (job : Job) (rows : List JobAppResult)
    (hjob : r.GetJob = .ok job) (hrows : r.GetAllJobAppResults = .ok rows)
    (hdup : ¬ job.Service.Nodup)
    (hjobid : ∀ x ∈ rows, x.JobID = requestID)
    (hindex : (rows.map (fun x => (x.JobID, x.AppID))).Nodup)
    (hfrom : ∀ x ∈ rows, x.AppID ∈ job.Service) :
    rows.length < job.Service.length ∧
    (isAllDataGathered (mock.handler r) requestID mock.start).1 = .ok false ∧
    "TrySetCalculationTriggered" ∉
      (isAllDataGathered (mock.handler r) requestID mock.start).2.calls ∧
    (checkAndTrigger (mock.handler r) requestID mock.start).1 = .ok none ∧
    (checkAndTrigger (mock.handler r) requestID mock.start).2.sends = [] ∧
    (∀ (cfg : config.API) (u : uuid.SHA1) (call : api.Call) (kind : String)
        (req : models.ReportCreationRequest) (w : World),
      call.bound = .ok req → spec.validationPasses cfg kind call.now req →
      w.db.jobs call.requestID = none →
      (api.handleReportCalculation (World.api cfg none (fun _ => true)) u call kind w).1.status
        = 201 ∧
      ((api.handleReportCalculation (World.api cfg none (fun _ => true)) u call kind
        w).2.db.jobs call.requestID).map (fun j => j.Service) = some req.Service) := by
  have hlt : rows.length < job.Service.length := by
    have hn : (rows.map (fun x => x.AppID)).Nodup := by
      rw [List.nodup_map_iff_inj_on (List.Nodup.of_map _ hindex)]
      intro x hx y hy hxy
      have hxy2 : (fun x : JobAppResult => (x.JobID, x.AppID)) x
          = (fun x : JobAppResult => (x.JobID, x.AppID)) y := by
        simp only [Prod.mk.injEq]
        exact ⟨(hjobid x hx).trans (hjobid y hy).symm, hxy⟩
      exact List.inj_on_of_nodup_map hindex hx hy hxy2
    have := length_lt_of_nodup_subset (rows.map (fun x => x.AppID)) job.Service hn
      (by
        intro a ha
        obtain ⟨x, hx, rfl⟩ := List.mem_map.mp ha
        exact hfrom x hx) hdup
    simpa using this
  have hne : ¬ (rows.length = job.Service.length ∧ appResultsPopulated rows = true) :=
    fun h => absurd h.1 (Nat.ne_of_lt hlt)
  have hg := isAllDataGathered_mock r requestID mock.start job rows hjob hrows
  simp only [hne, if_false] at hg
  refine ⟨hlt, ?_, ?_, ?_, ?_, ?_⟩
  · rw [hg]
  · rw [hg]
    simp [mock.start, mock.Recorder.called]
  · simp only [checkAndTrigger, hg]
    rfl
  · simp only [checkAndTrigger, hg]
    rfl
  · intro cfg u call kind req w hbound hvalid hfresh
    have hv := api.validation_reaches_commit (World.api cfg none (fun _ => true)) u call kind
      req w hbound hvalid
    obtain ⟨h1, -, h3⟩ := api.commit_world cfg (fun _ => true) u call kind
      { req with TimePeriod := some (api.withTimePeriod cfg call.now req) } w hfresh
    have hcfg : (World.api cfg none (fun _ => true)).config = cfg := rfl
    rw [hcfg] at hv
    rw [hv, h1, h3]
    have hall : ((req.Service.map (api.gatherInfoEvent u call.requestID)).all
        (fun _ => true)) = true := by
      simp
    exact ⟨by simp only [hall, cond_true], rfl⟩

/-- Witness of C28: the service list `[app1, app1]` with the one complete row that the
unique index allows. -/
theorem C28_duplicate_service_never_gathers_witness :
    (isAllDataGathered (mock.handler
      (fixtures.returns (fixtures.job ["app1", "app1"]) [fixtures.gatheredRow] true))
      "job1" mock.start).1 = .ok false ∧
    (checkAndTrigger (mock.handler
      (fixtures.returns (fixtures.job ["app1", "app1"]) [fixtures.gatheredRow] true))
      "job1" mock.start).2.sends = [] := by
  obtain ⟨-, h1, -, -, h2, -⟩ := C28_duplicate_service_never_gathers
    (fixtures.returns (fixtures.job ["app1", "app1"]) [fixtures.gatheredRow] true) "job1"
    (fixtures.job ["app1", "app1"]) [fixtures.gatheredRow] rfl rfl
    (by simp [fixtures.job])
    (by simp [fixtures.gatheredRow, fixtures.row])
    (by simp)
    (by simp [fixtures.gatheredRow, fixtures.row, fixtures.job])
  exact ⟨h1, h2⟩

end worker

namespace World

/-- C29: for a notification event that parses to a request id under which the store holds
no job (the empty id included), `TrySetNotificationSent` returns false with no error and
leaves the store as it is, and `Handle` returns success with no event, posts nothing and
changes nothing but the clock; against the recording doubles its only store call is
`TrySetNotificationSent`, so the job is not loaded. The outcome is the one of an event
whose job has `notificationSent` set already. -/
theorem C29_unknown_job_is_silent (cfg : config.HTTP) (d : Delivery) (w : World)
    (rid : String) (v : ℚ)
    (hp : notification.parseNotification d.e = .ok (rid, v))
    (hj : w.db.jobs rid = none) :
    mongoDB.TrySetNotificationSent rid w.db = (.ok false, w.db) ∧
    deliver cfg d w = (.ok none, { w with now := d.now }) ∧
    (∀ (r : mock.Returns) (rt : notification.Runtime mock.Recorder),
      r.TrySetNotificationSent = .ok false →
      notification.Handle (mock.notify r cfg) rt d.e mock.start
        = (.ok none, mock.start.called "TrySetNotificationSent")) ∧
    (∀ (w1 : World) (job : Job), w1.db.jobs rid = some job → job.NotificationSent = true →
      (deliver cfg d w1).1 = (deliver cfg d w).1 ∧ (deliver cfg d w1).2.posts = w1.posts) := by
  have hd : deliver cfg d w = (.ok none, { w with now := d.now }) := by
    simp [deliver, notification.Handle, parse_ok_type d.e _ hp, hp, notify, World.database,
      onDB, mongoDB.TrySetNotificationSent, hj]
  refine ⟨by simp [mongoDB.TrySetNotificationSent, hj], hd, ?_, ?_⟩
  · intro r rt hr
    simp [notification.Handle, parse_ok_type d.e _ hp, hp, mock.notify, mock.mockDatabase, hr]
  · intro w1 job hj1 hf1
    rw [deliver_lost cfg d w1 (rid, v) job hp hj1 hf1, hd]
    exact ⟨rfl, rfl⟩

/-- Witness of C29: the success notification of `job1` delivered to an empty store. -/
theorem C29_unknown_job_is_silent_witness :
    deliver ⟨false⟩ (fixtures.delivery event.EventTypeNotificationRequested 200)
        fixtures.emptyWorld
      = (.ok none, { fixtures.emptyWorld with now := 10 }) :=
  (C29_unknown_job_is_silent ⟨false⟩
    (fixtures.delivery event.EventTypeNotificationRequested 200) fixtures.emptyWorld
    "job1" (22 / 10000) (fixtures_delivery_parses 200) rfl).2.1

end World

namespace calculator

open spec

/-- Rows that pass the completeness loop of `isAllDataGathered` have every field the
calculator dereferences. -/
theorem populated_rows_present (rows : List JobAppResult)
    (hpop : worker.appResultsPopulated rows = true) :
    ∀ r ∈ rows, rowFieldsPresent r = true := by
  intro r hr
  obtain ⟨res, hres, h1, -, h3⟩ := (worker.appResultsPopulated_iff rows).mp hpop r hr
  simp only [rowFieldsPresent, hres, h1, Bool.true_and, List.all_eq_true]
  exact h3

/-- C30: for a job with at least one service entry and rows on which the completeness test
of `isAllDataGathered` passes (as many rows as service entries, every row populated),
`CalculateEnergyConsumption` on the same rows reaches no failing access and returns a
value with no error, and so does `CalculateCarbonFootprint`. -/
theorem C30_complete_rows_calculate (c : simpleClient) (ctx : Context) (job : Job)
    (rows : List JobAppResult) (hservice : 1 ≤ job.Service.length)
    (hlen : rows.length = job.Service.length)
    (hpop : worker.appResultsPopulated rows = true) :
    CalculateEnergyConsumption c ctx rows = .ok (rowsValue (.fin 0) rows) ∧
    CalculateCarbonFootprint c ctx rows
      = .ok ((rowsValue (.fin 0) rows).mul (.fin c.tCO2ePerKWh)) := by
  have hne : rows ≠ [] := by
    intro h
    rw [h] at hlen
    simp at hlen
    omega
  have hE := CalculateEnergyConsumption_present c ctx rows hne
    (populated_rows_present rows hpop)
  refine ⟨hE, ?_⟩
  simp only [CalculateCarbonFootprint, hE]

/-- Witness of C30 at the input of `TestIsAllDataGathered`, case "all data gathered". -/
theorem C30_complete_rows_calculate_witness :
    (CalculateEnergyConsumption (NewSimpleClient (35 / 100000)) fixtures.ctx
      [fixtures.gatheredRow]).isOk = true := by
  rw [(C30_complete_rows_calculate (NewSimpleClient (35 / 100000)) fixtures.ctx
    (fixtures.job ["app1"]) [fixtures.gatheredRow] (by simp [fixtures.job]) rfl
    (by simp [worker.appResultsPopulated, worker.networkElementsPopulated,
      fixtures.gatheredRow, fixtures.row, fixtures.ne])).1]
  rfl

end calculator

end efn
